import Mathlib

/-!
Verification of the h2ogpt support-layer excerpt.

This file gives a shallow embedding of the components the claims touch:

* the message-structure converter (`convert_messages_to_structure`,
  `structure_to_messages`), whose implementation file is absent from the
  excerpt and is therefore modelled from the specification and its test
  suite (`openai_server/test_conversion.py`);
* the document-to-text conversion tool (`openai_server/agent_tools/convert_document_to_text.py`);
* the agent system-prompt builder and the vision-tool advertiser
  (`openai_server/agent_prompting.py`);
* the speech transcription helper (`src/stt.py`).
-/

/-- Characterwise prefix test over character lists (used to render the
Python string predicates `startswith`, `endswith` and `lower` in a form the
kernel evaluates). -/
def chListPre : List Char → List Char → Bool
  | [], _ => true
  | _ :: _, [] => false
  | a :: as, b :: bs => (a == b) && chListPre as bs

/-- Rendition of Python `s.startswith(pre)`. -/
def pyStartsWith (s pre : String) : Bool := chListPre pre.data s.data

/-- Rendition of Python `s.endswith(suf)`. -/
def pyEndsWith (s suf : String) : Bool := chListPre suf.data.reverse s.data.reverse

/-- Rendition of Python `s.lower()`. -/
def pyLower (s : String) : String := ⟨s.data.map Char.toLower⟩

namespace BackendUtils

/-- Role of a chat message (`system`, `user`, `assistant`). -/
inductive Role where
  | system : Role
  | user : Role
  | assistant : Role
deriving DecidableEq, Repr

/-- One item of a typed content list: a `text` fragment or an `image_url` entry. -/
inductive ContentItem where
  | text (s : String) : ContentItem
  | image_url (url : String) : ContentItem
deriving DecidableEq, Repr

/-- Message content: plain text, a single typed object, or a typed list
(the three content shapes exercised by `test_conversion.py`). -/
inductive Content where
  | str (s : String) : Content
  | item (it : ContentItem) : Content
  | items (l : List ContentItem) : Content
deriving DecidableEq, Repr

/-- A chat message as in the data model: a role together with content. -/
structure ChatMessage where
  role : Role
  content : Content
deriving DecidableEq, Repr

/-- First `text` fragment of a typed content list, if any
(the converter expects at most one text fragment per message, kept singular). -/
def firstText : List ContentItem → Option String
  | [] => none
  | ContentItem.text s :: _ => some s
  | ContentItem.image_url _ :: rest => firstText rest

/-- Image URLs of a typed content list, in order. -/
def itemImages : List ContentItem → List String
  | [] => []
  | ContentItem.text _ :: rest => itemImages rest
  | ContentItem.image_url u :: rest => u :: itemImages rest

/-- Modelled from the spec: content normalization of `convert_messages_to_structure`
(absent `openai_server/backend_utils.py`): text content passes through; a typed
content list is split into its text fragment and its ordered image URLs. -/
def normalizeContent : Content → Option String × List String
  | Content.str s => (some s, [])
  | Content.item (ContentItem.text s) => (some s, [])
  | Content.item (ContentItem.image_url u) => (none, [u])
  | Content.items l => (firstText l, itemImages l)

/-- The role and normalized text of a message. -/
def normMsg (m : ChatMessage) : Role × Option String :=
  (m.role, (normalizeContent m.content).1)

/-- The image URLs carried by a message. -/
def msgImages (m : ChatMessage) : List String :=
  (normalizeContent m.content).2

/-- The structured form of a conversation: latest instruction, system prompt,
paired history, and collected image references. -/
structure ConvStructure where
  instruction : Option String
  system_prompt : Option String
  history : List (Option String × Option String)
  image_files : List String
deriving DecidableEq, Repr

/-- No two adjacent messages share a role (the converter validation walk). -/
def noConsecSameRole : List ChatMessage → Bool
  | [] => true
  | [_] => true
  | a :: b :: rest => !(a.role == b.role) && noConsecSameRole (b :: rest)

/-- Modelled from the spec: the history-pairing walk of
`convert_messages_to_structure` (absent `openai_server/backend_utils.py`):
each user message is paired with the assistant message that immediately
follows it; a trailing unpaired user message becomes the instruction; an
assistant message with no preceding user message yields a pair with an
absent user side. -/
def pairUp : List (Role × Option String) → Option String × List (Option String × Option String)
  | [] => (none, [])
  | (Role.user, t) :: (Role.assistant, a) :: rest =>
      let r := pairUp rest
      (r.1, (t, a) :: r.2)
  | [(Role.user, t)] => (t, [])
  | (Role.user, t) :: rest =>
      let r := pairUp rest
      (r.1, (t, none) :: r.2)
  | (Role.assistant, a) :: rest =>
      let r := pairUp rest
      (r.1, (none, a) :: r.2)
  | (Role.system, _) :: rest => pairUp rest

/-- Modelled from the spec: `convert_messages_to_structure` (absent
`openai_server/backend_utils.py`, specified by section 4.1 and its test
suite).  Consecutive same-role messages are rejected with the exact error
message asserted by `test_convert_messages_to_structure`; a system-role
message's text becomes the system prompt; remaining messages are paired
into history with a trailing user message lifted out as the instruction;
all image URLs are accumulated in encounter order. -/
def convert_messages_to_structure (messages : List ChatMessage) :
    Except String ConvStructure :=
  if noConsecSameRole messages then
    let sys := (messages.filter (fun m => m.role == Role.system)).foldl
      (fun _ m => (normalizeContent m.content).1) none
    let nonSystem := messages.filter (fun m => !(m.role == Role.system))
    let r := pairUp (nonSystem.map normMsg)
    let imgs := (messages.map msgImages).flatten
    Except.ok ⟨r.1, sys, r.2, imgs⟩
  else
    Except.error "Consecutive messages with the same role are not allowed"

/-- Messages emitted for one history pair: a user message if the user side
is present, followed by an assistant message if the assistant side is present. -/
def emitPair (p : Option String × Option String) : List ChatMessage :=
  (match p.1 with
   | some u => [⟨Role.user, Content.str u⟩]
   | none => []) ++
  (match p.2 with
   | some a => [⟨Role.assistant, Content.str a⟩]
   | none => [])

/-- The final user message built from the instruction merged with the image
files: both present gives a typed list of a text entry and one image entry
per file; text only gives plain content; images only give a typed list. -/
def finalUserMessage (instruction : Option String) (image_files : List String) :
    List ChatMessage :=
  match instruction, image_files with
  | none, [] => []
  | some t, [] => [⟨Role.user, Content.str t⟩]
  | some t, imgs =>
      [⟨Role.user, Content.items (ContentItem.text t :: imgs.map ContentItem.image_url)⟩]
  | none, imgs => [⟨Role.user, Content.items (imgs.map ContentItem.image_url)⟩]

/-- Modelled from the spec: `structure_to_messages` (absent
`openai_server/backend_utils.py`, specified by section 4.1 and its test
suite): a system message if the system prompt is present, then the history
pairs, then a final user message built from the instruction and image files;
an absent image-file list is treated as empty. -/
def structure_to_messages (instruction system_prompt : Option String)
    (history : List (Option String × Option String))
    (image_files : Option (List String)) : List ChatMessage :=
  let imgs := image_files.getD []
  (match system_prompt with
   | some s => [⟨Role.system, Content.str s⟩]
   | none => []) ++
  (history.map emitPair).flatten ++ finalUserMessage instruction imgs

theorem noConsec_cons (a : ChatMessage) (l : List ChatMessage) :
    noConsecSameRole (a :: l) =
      ((match l.head? with
        | some b => !(a.role == b.role)
        | none => true) && noConsecSameRole l) := by
  cases l with
  | nil => simp [noConsecSameRole]
  | cons b rest => simp [noConsecSameRole]

theorem firstText_map_image (l : List String) :
    firstText (l.map ContentItem.image_url) = none := by
  induction l with
  | nil => rfl
  | cons x xs ih => simpa [firstText] using ih

theorem itemImages_map_image (l : List String) :
    itemImages (l.map ContentItem.image_url) = l := by
  induction l with
  | nil => rfl
  | cons x xs ih => simpa [itemImages] using ih

theorem final_noConsec (inst : Option String) (imgs : List String) :
    noConsecSameRole (finalUserMessage inst imgs) = true := by
  cases inst <;> cases imgs <;> simp [finalUserMessage, noConsecSameRole]

theorem final_head (inst : Option String) (imgs : List String) :
    ∀ m ∈ (finalUserMessage inst imgs).head?, m.role = Role.user := by
  cases inst <;> cases imgs <;> simp [finalUserMessage]

theorem final_pairUp (inst : Option String) (imgs : List String) :
    pairUp ((finalUserMessage inst imgs).map normMsg) = (inst, []) := by
  cases inst <;> cases imgs <;>
    simp [finalUserMessage, pairUp, normMsg, normalizeContent, firstText,
      firstText_map_image]

theorem final_filter_sys (inst : Option String) (imgs : List String) :
    (finalUserMessage inst imgs).filter (fun m => m.role == Role.system) = [] := by
  cases inst <;> cases imgs <;> simp [finalUserMessage]

theorem final_filter_nonsys (inst : Option String) (imgs : List String) :
    (finalUserMessage inst imgs).filter (fun m => !(m.role == Role.system)) =
      finalUserMessage inst imgs := by
  cases inst <;> cases imgs <;> simp [finalUserMessage]

theorem final_images (inst : Option String) (imgs : List String) :
    ((finalUserMessage inst imgs).map msgImages).flatten = imgs := by
  cases inst <;> cases imgs <;>
    simp [finalUserMessage, msgImages, normalizeContent, itemImages, itemImages_map_image]

theorem emit_head (hist : List (Option String × Option String)) (F : List ChatMessage)
    (hb : ∀ p ∈ hist, (p.1).isSome = true ∧ (p.2).isSome = true)
    (hF : ∀ m ∈ F.head?, m.role = Role.user) :
    ∀ m ∈ ((hist.map emitPair).flatten ++ F).head?, m.role = Role.user := by
  cases hist with
  | nil => simpa using hF
  | cons p rest =>
      obtain ⟨h1, h2⟩ := hb p (List.mem_cons_self p rest)
      obtain ⟨u, hu⟩ := Option.isSome_iff_exists.mp h1
      obtain ⟨a, ha⟩ := Option.isSome_iff_exists.mp h2
      simp [emitPair, hu, ha]

theorem noConsec_emit (hist : List (Option String × Option String)) (F : List ChatMessage)
    (hb : ∀ p ∈ hist, (p.1).isSome = true ∧ (p.2).isSome = true)
    (hF : noConsecSameRole F = true)
    (hFh : ∀ m ∈ F.head?, m.role = Role.user) :
    noConsecSameRole ((hist.map emitPair).flatten ++ F) = true := by
  induction hist with
  | nil => simpa using hF
  | cons p rest ih =>
      obtain ⟨h1, h2⟩ := hb p (List.mem_cons_self p rest)
      obtain ⟨u, hu⟩ := Option.isSome_iff_exists.mp h1
      obtain ⟨a, ha⟩ := Option.isSome_iff_exists.mp h2
      have hbrest : ∀ q ∈ rest, (q.1).isSome = true ∧ (q.2).isSome = true :=
        fun q hq => hb q (List.mem_cons_of_mem p hq)
      have htail : noConsecSameRole ((rest.map emitPair).flatten ++ F) = true :=
        ih hbrest
      have hhead := emit_head rest F hbrest hFh
      have hstep :
          noConsecSameRole (⟨Role.assistant, Content.str a⟩ ::
            ((rest.map emitPair).flatten ++ F)) = true := by
        rw [noConsec_cons]
        cases hh : ((rest.map emitPair).flatten ++ F).head? with
        | none => simpa [hh] using htail
        | some b =>
            have : b.role = Role.user := hhead b (by simp [hh])
            simp [hh, this, htail]
      simp only [List.map_cons, List.flatten_cons, emitPair, hu, ha, List.cons_append,
        List.nil_append, List.singleton_append]
      rw [noConsec_cons]
      simpa using hstep

theorem pairUp_emit (hist : List (Option String × Option String)) (F : List ChatMessage)
    (hb : ∀ p ∈ hist, (p.1).isSome = true ∧ (p.2).isSome = true) :
    pairUp (((hist.map emitPair).flatten ++ F).map normMsg) =
      ((pairUp (F.map normMsg)).1, hist ++ (pairUp (F.map normMsg)).2) := by
  induction hist with
  | nil => simp
  | cons p rest ih =>
      obtain ⟨h1, h2⟩ := hb p (List.mem_cons_self p rest)
      obtain ⟨u, hu⟩ := Option.isSome_iff_exists.mp h1
      obtain ⟨a, ha⟩ := Option.isSome_iff_exists.mp h2
      have hbrest : ∀ q ∈ rest, (q.1).isSome = true ∧ (q.2).isSome = true :=
        fun q hq => hb q (List.mem_cons_of_mem p hq)
      have hp : p = (some u, some a) := by
        cases p; simp_all
      subst hp
      simp only [List.map_cons, List.flatten_cons, emitPair, List.cons_append,
        List.nil_append, List.singleton_append, List.map_cons]
      rw [show normMsg ⟨Role.user, Content.str u⟩ = (Role.user, some u) from rfl,
          show normMsg ⟨Role.assistant, Content.str a⟩ = (Role.assistant, some a) from rfl]
      rw [pairUp, ih hbrest]

theorem filter_emit_sys (hist : List (Option String × Option String)) :
    ((hist.map emitPair).flatten).filter (fun m => m.role == Role.system) = [] := by
  induction hist with
  | nil => rfl
  | cons p rest ih =>
      obtain ⟨pu, pa⟩ := p
      cases pu <;> cases pa <;> simp [emitPair, ih]

theorem filter_emit_nonsys (hist : List (Option String × Option String)) :
    ((hist.map emitPair).flatten).filter (fun m => !(m.role == Role.system)) =
      (hist.map emitPair).flatten := by
  induction hist with
  | nil => rfl
  | cons p rest ih =>
      obtain ⟨pu, pa⟩ := p
      cases pu <;> cases pa <;> simp [emitPair, ih]

theorem images_emit (hist : List (Option String × Option String)) :
    (((hist.map emitPair).flatten).map msgImages).flatten = [] := by
  induction hist with
  | nil => rfl
  | cons p rest ih =>
      obtain ⟨pu, pa⟩ := p
      cases pu <;> cases pa <;>
        simp only [List.map_cons, List.flatten_cons, emitPair, List.map_append,
          List.flatten_append, List.map_nil, List.flatten_nil, List.nil_append,
          List.cons_append, List.singleton_append] <;>
        simpa [msgImages, normalizeContent] using ih

theorem pairUp_assistant_cons (a : Option String) (L : List (Role × Option String)) :
    pairUp ((Role.assistant, a) :: L) = ((pairUp L).1, (none, a) :: (pairUp L).2) := rfl

theorem hist_noConsec (hist : List (Option String × Option String)) (F : List ChatMessage)
    (h2 : ∀ p ∈ hist, (p.2).isSome = true)
    (h1 : ∀ p ∈ hist.tail, (p.1).isSome = true)
    (hFnc : noConsecSameRole F = true)
    (hFh : ∀ m ∈ F.head?, m.role = Role.user) :
    noConsecSameRole ((hist.map emitPair).flatten ++ F) = true := by
  cases hist with
  | nil => simpa using hFnc
  | cons p rest =>
      have hrest : ∀ q ∈ rest, (q.1).isSome = true ∧ (q.2).isSome = true := by
        intro q hq
        exact ⟨h1 q (by simpa using hq), h2 q (List.mem_cons_of_mem p hq)⟩
      obtain ⟨a, ha⟩ := Option.isSome_iff_exists.mp (h2 p (List.mem_cons_self p rest))
      have htail : noConsecSameRole ((rest.map emitPair).flatten ++ F) = true :=
        noConsec_emit rest F hrest hFnc hFh
      have hhead := emit_head rest F hrest hFh
      cases hu : p.1 with
      | some u =>
          have hball : ∀ q ∈ p :: rest, (q.1).isSome = true ∧ (q.2).isSome = true := by
            intro q hq
            rcases List.mem_cons.mp hq with hq | hq
            · subst hq; exact ⟨by simp [hu], by simp [ha]⟩
            · exact hrest q hq
          exact noConsec_emit (p :: rest) F hball hFnc hFh
      | none =>
          have hp : p = (none, some a) := by
            cases p; simp_all
          subst hp
          simp only [List.map_cons, List.flatten_cons, emitPair, List.nil_append,
            List.singleton_append, List.cons_append]
          rw [noConsec_cons]
          cases hh : ((rest.map emitPair).flatten ++ F).head? with
          | none => simpa [hh] using htail
          | some b =>
              have : b.role = Role.user := hhead b (by simp [hh])
              simp [hh, this, htail]

theorem hist_pairUp (hist : List (Option String × Option String)) (F : List ChatMessage)
    (h2 : ∀ p ∈ hist, (p.2).isSome = true)
    (h1 : ∀ p ∈ hist.tail, (p.1).isSome = true) :
    pairUp (((hist.map emitPair).flatten ++ F).map normMsg) =
      ((pairUp (F.map normMsg)).1, hist ++ (pairUp (F.map normMsg)).2) := by
  cases hist with
  | nil => simp
  | cons p rest =>
      have hrest : ∀ q ∈ rest, (q.1).isSome = true ∧ (q.2).isSome = true := by
        intro q hq
        exact ⟨h1 q (by simpa using hq), h2 q (List.mem_cons_of_mem p hq)⟩
      obtain ⟨a, ha⟩ := Option.isSome_iff_exists.mp (h2 p (List.mem_cons_self p rest))
      cases hu : p.1 with
      | some u =>
          have hball : ∀ q ∈ p :: rest, (q.1).isSome = true ∧ (q.2).isSome = true := by
            intro q hq
            rcases List.mem_cons.mp hq with hq | hq
            · subst hq; exact ⟨by simp [hu], by simp [ha]⟩
            · exact hrest q hq
          exact pairUp_emit (p :: rest) F hball
      | none =>
          have hp : p = (none, some a) := by
            cases p; simp_all
          subst hp
          simp only [List.map_cons, List.flatten_cons, emitPair, List.nil_append,
            List.singleton_append, List.cons_append]
          rw [show normMsg ⟨Role.assistant, Content.str a⟩ = (Role.assistant, some a) from rfl]
          rw [pairUp_assistant_cons, pairUp_emit rest F hrest]

theorem hist_head_not_sys (hist : List (Option String × Option String)) (F : List ChatMessage)
    (h2 : ∀ p ∈ hist, (p.2).isSome = true)
    (hFh : ∀ m ∈ F.head?, m.role = Role.user) :
    ∀ m ∈ ((hist.map emitPair).flatten ++ F).head?, ¬ m.role = Role.system := by
  cases hist with
  | nil =>
      intro m hm
      have := hFh m (by simpa using hm)
      simp [this]
  | cons p rest =>
      obtain ⟨a, ha⟩ := Option.isSome_iff_exists.mp (h2 p (List.mem_cons_self p rest))
      intro m hm
      cases hu : p.1 with
      | some u =>
          have hp : p = (some u, some a) := by cases p; simp_all
          subst hp
          simp only [List.map_cons, List.flatten_cons, emitPair, List.cons_append,
            List.nil_append, List.singleton_append, List.head?_cons, Option.mem_some_iff] at hm
          subst hm; simp
      | none =>
          have hp : p = (none, some a) := by cases p; simp_all
          subst hp
          simp only [List.map_cons, List.flatten_cons, emitPair, List.cons_append,
            List.nil_append, List.singleton_append, List.head?_cons, Option.mem_some_iff] at hm
          subst hm; simp

/-- Structure-level round trip: if every history pair has an assistant side
and every pair after the first also has a user side, then rebuilding the
message list and reconverting reproduces the structure exactly. -/
theorem convert_rebuild (inst sysp : Option String)
    (hist : List (Option String × Option String)) (imgs : List String)
    (h2 : ∀ p ∈ hist, (p.2).isSome = true)
    (h1 : ∀ p ∈ hist.tail, (p.1).isSome = true) :
    convert_messages_to_structure (structure_to_messages inst sysp hist (some imgs)) =
      Except.ok ⟨inst, sysp, hist, imgs⟩ := by
  have hFnc := final_noConsec inst imgs
  have hFh := final_head inst imgs
  have hM : noConsecSameRole ((hist.map emitPair).flatten ++ finalUserMessage inst imgs)
      = true := hist_noConsec hist _ h2 h1 hFnc hFh
  have hHead := hist_head_not_sys hist (finalUserMessage inst imgs) h2 hFh
  have hnc : noConsecSameRole (structure_to_messages inst sysp hist (some imgs)) = true := by
    cases sysp with
    | none => simpa [structure_to_messages] using hM
    | some s =>
        simp only [structure_to_messages, Option.getD_some, List.singleton_append,
          List.cons_append, List.nil_append]
        rw [noConsec_cons]
        cases hh : ((hist.map emitPair).flatten ++ finalUserMessage inst imgs).head? with
        | none => simpa [hh] using hM
        | some b =>
            have hb := hHead b (by simp [hh])
            have : (ChatMessage.role ⟨Role.system, Content.str s⟩ == b.role) = false := by
              cases hrole : b.role <;> simp_all
            simp [hh, this, hM]
  have hpair := hist_pairUp hist (finalUserMessage inst imgs) h2 h1
  rw [final_pairUp] at hpair
  unfold convert_messages_to_structure
  rw [if_pos hnc]
  have hpairD := hpair
  rw [List.map_append] at hpairD
  cases sysp with
  | none =>
      simp only [structure_to_messages, Option.getD_some, List.nil_append,
        List.filter_append, List.map_append, List.flatten_append,
        filter_emit_sys, final_filter_sys, filter_emit_nonsys, final_filter_nonsys,
        images_emit, final_images, List.append_nil]
      rw [hpairD]
      simp
  | some s =>
      simp only [structure_to_messages, Option.getD_some, List.singleton_append,
        List.cons_append, List.nil_append]
      simp only [List.filter_cons, List.filter_append, List.map_cons, List.map_append,
        List.flatten_cons, List.flatten_append,
        filter_emit_sys, final_filter_sys, filter_emit_nonsys, final_filter_nonsys,
        images_emit, final_images]
      simp only [show ((⟨Role.system, Content.str s⟩ : ChatMessage).role == Role.system)
          = true from rfl, Bool.not_true, if_true, if_false, Bool.false_eq_true,
        ite_true, ite_false, List.nil_append, List.append_nil,
        msgImages, normalizeContent]
      rw [hpair]
      simp

theorem noConsec_iff_chain (M : List ChatMessage) :
    noConsecSameRole M = true ↔ List.Chain' (fun a b => a.role ≠ b.role) M := by
  induction M with
  | nil => simp [noConsecSameRole]
  | cons a l ih =>
      cases l with
      | nil => simp [noConsecSameRole]
      | cons b rest =>
          rw [show noConsecSameRole (a :: b :: rest) =
              (!(a.role == b.role) && noConsecSameRole (b :: rest)) from rfl]
          rw [List.chain'_cons, Bool.and_eq_true, Bool.not_eq_true', beq_eq_false_iff_ne]
          rw [ih]

/-- C1 (amended): for every message list without two consecutive same-role
messages whose conversion produces a structure in which every history pair
has an assistant side and every pair after the first also has a user side,
converting the rebuilt message list reproduces the same conversation
structure as converting the original list. -/
theorem c1_round_trip_amended (M : List ChatMessage) (S : ConvStructure)
    (hM : convert_messages_to_structure M = Except.ok S)
    (h2 : ∀ p ∈ S.history, (p.2).isSome = true)
    (h1 : ∀ p ∈ S.history.tail, (p.1).isSome = true) :
    convert_messages_to_structure
      (structure_to_messages S.instruction S.system_prompt S.history (some S.image_files)) =
      convert_messages_to_structure M := by
  obtain ⟨i, sp, h, g⟩ := S
  rw [hM]
  exact convert_rebuild i sp h g h2 h1

/-- Witness for C1 (amended) at the first test example of `test_conversion.py`. -/
theorem c1_round_trip_amended_witness :
    convert_messages_to_structure
      (structure_to_messages none none
        [(some "How does the weather look today?", some "The weather is sunny and warm."),
         (some "What about tomorrow?", some "It is expected to rain tomorrow.")] (some [])) =
      convert_messages_to_structure
        [⟨Role.user, Content.str "How does the weather look today?"⟩,
         ⟨Role.assistant, Content.str "The weather is sunny and warm."⟩,
         ⟨Role.user, Content.str "What about tomorrow?"⟩,
         ⟨Role.assistant, Content.str "It is expected to rain tomorrow."⟩] :=
  c1_round_trip_amended
    [⟨Role.user, Content.str "How does the weather look today?"⟩,
     ⟨Role.assistant, Content.str "The weather is sunny and warm."⟩,
     ⟨Role.user, Content.str "What about tomorrow?"⟩,
     ⟨Role.assistant, Content.str "It is expected to rain tomorrow."⟩]
    ⟨none, none,
      [(some "How does the weather look today?", some "The weather is sunny and warm."),
       (some "What about tomorrow?", some "It is expected to rain tomorrow.")], []⟩
    rfl (by decide) (by decide)

/-- C1 counterexample: the message list
`[user "t1", assistant "a1", user (image only), assistant "a2"]` has no two
consecutive same-role messages, converts successfully, yet reconverting the
rebuilt message list raises the consecutive-role validation error (the
rebuilt list contains two adjacent assistant messages because the second
history pair has no user side), so the round-trip law as stated fails. -/
theorem c1_counterexample :
    noConsecSameRole
      [⟨Role.user, Content.str "t1"⟩, ⟨Role.assistant, Content.str "a1"⟩,
       ⟨Role.user, Content.item (ContentItem.image_url "https://example.com/i.jpg")⟩,
       ⟨Role.assistant, Content.str "a2"⟩] = true
    ∧ convert_messages_to_structure
        [⟨Role.user, Content.str "t1"⟩, ⟨Role.assistant, Content.str "a1"⟩,
         ⟨Role.user, Content.item (ContentItem.image_url "https://example.com/i.jpg")⟩,
         ⟨Role.assistant, Content.str "a2"⟩] =
        Except.ok ⟨none, none, [(some "t1", some "a1"), (none, some "a2")],
          ["https://example.com/i.jpg"]⟩
    ∧ convert_messages_to_structure
        (structure_to_messages none none
          [(some "t1", some "a1"), (none, some "a2")] (some ["https://example.com/i.jpg"])) =
        Except.error "Consecutive messages with the same role are not allowed" :=
  ⟨rfl, rfl, rfl⟩

/-- C4: a message list with two adjacent same-role messages is rejected with
exactly the error message "Consecutive messages with the same role are not
allowed", and every list without such an adjacent pair converts normally. -/
theorem c4_consecutive_role_validation (M : List ChatMessage) :
    (¬ List.Chain' (fun a b => a.role ≠ b.role) M →
      convert_messages_to_structure M =
        Except.error "Consecutive messages with the same role are not allowed")
    ∧ (List.Chain' (fun a b => a.role ≠ b.role) M →
      ∃ S, convert_messages_to_structure M = Except.ok S) := by
  constructor
  · intro h
    have hb : noConsecSameRole M = false := by
      rcases hbv : noConsecSameRole M with _ | _
      · rfl
      · exact absurd ((noConsec_iff_chain M).mp hbv) h
    simp [convert_messages_to_structure, hb]
  · intro h
    have hb : noConsecSameRole M = true := (noConsec_iff_chain M).mpr h
    exact ⟨_, by unfold convert_messages_to_structure; rw [if_pos hb]⟩

/-- Witness for C4 at the test-suite inputs: the consecutive-user example is
rejected with the exact message, and the two-turn example converts normally. -/
theorem c4_consecutive_role_validation_witness :
    convert_messages_to_structure
      [⟨Role.user, Content.item (ContentItem.text "Describe the image")⟩,
       ⟨Role.user, Content.item (ContentItem.image_url "https://example.com/image.jpg")⟩] =
      Except.error "Consecutive messages with the same role are not allowed"
    ∧ ∃ S, convert_messages_to_structure
        [⟨Role.user, Content.str "What is your name?"⟩,
         ⟨Role.assistant, Content.str "My name is Bob."⟩] = Except.ok S :=
  ⟨(c4_consecutive_role_validation
      [⟨Role.user, Content.item (ContentItem.text "Describe the image")⟩,
       ⟨Role.user, Content.item (ContentItem.image_url "https://example.com/image.jpg")⟩]).1
      (fun hch => absurd ((noConsec_iff_chain _).mpr hch) (by decide)),
   (c4_consecutive_role_validation
      [⟨Role.user, Content.str "What is your name?"⟩,
       ⟨Role.assistant, Content.str "My name is Bob."⟩]).2
      ((noConsec_iff_chain _).mp (by decide))⟩

/-- Every user entry is immediately followed by an assistant entry
(the shape under which the spec describes history pairing). -/
def usersFollowed : List (Role × Option String) → Bool
  | [] => true
  | x :: rest =>
      (if x.1 == Role.user then
         (match rest with
          | (Role.assistant, _) :: _ => true
          | _ => false)
       else true) && usersFollowed rest

theorem pairUp_ua_cons (t a : Option String) (L : List (Role × Option String)) :
    pairUp ((Role.user, t) :: (Role.assistant, a) :: L) =
      ((pairUp L).1, (t, a) :: (pairUp L).2) := rfl

theorem pairUp_system_cons (s : Option String) (L : List (Role × Option String)) :
    pairUp ((Role.system, s) :: L) = pairUp L := rfl

theorem pairUp_append_user (N : List (Role × Option String)) (t : Option String) :
    usersFollowed N = true → (pairUp N).1 = none →
    pairUp (N ++ [(Role.user, t)]) = (t, (pairUp N).2) := by
  induction N using pairUp.induct with
  | case1 => intro _ _; rfl
  | case2 t' a rest ih =>
      intro huf hinst
      rw [List.cons_append, List.cons_append, pairUp_ua_cons, pairUp_ua_cons]
      rw [pairUp_ua_cons] at hinst
      have huf' : usersFollowed rest = true := by
        simp [usersFollowed] at huf
        exact huf
      rw [ih huf' hinst]
  | case3 t' =>
      intro huf hinst
      simp [usersFollowed] at huf
  | case4 t' rest hna hne ih =>
      intro huf hinst
      exfalso
      cases rest with
      | nil => exact hne rfl
      | cons y rest2 =>
          obtain ⟨r, s⟩ := y
          cases r with
          | assistant => exact hna s rest2 rfl
          | user => simp [usersFollowed] at huf
          | system => simp [usersFollowed] at huf
  | case5 a rest ih =>
      intro huf hinst
      rw [List.cons_append, pairUp_assistant_cons, pairUp_assistant_cons]
      rw [pairUp_assistant_cons] at hinst
      have huf' : usersFollowed rest = true := by
        simp [usersFollowed] at huf
        exact huf
      rw [ih huf' hinst]
  | case6 s rest ih =>
      intro huf hinst
      rw [List.cons_append, pairUp_system_cons, pairUp_system_cons]
      rw [pairUp_system_cons] at hinst
      have huf' : usersFollowed rest = true := by
        simp [usersFollowed] at huf
        exact huf
      rw [ih huf' hinst]

theorem usersFollowed_cons (x : Role × Option String) (L : List (Role × Option String)) :
    usersFollowed (x :: L) =
      ((if x.1 == Role.user then
         (match L with
          | (Role.assistant, _) :: _ => true
          | _ => false)
       else true) && usersFollowed L) := rfl

theorem usersFollowed_filter (M : List ChatMessage)
    (h : usersFollowed (M.map normMsg) = true) :
    usersFollowed ((M.filter (fun m => !(m.role == Role.system))).map normMsg) = true := by
  induction M with
  | nil => simpa using h
  | cons m rest ih =>
      cases hr : m.role with
      | system =>
          have h' : usersFollowed (rest.map normMsg) = true := by
            rw [List.map_cons, usersFollowed_cons, Bool.and_eq_true] at h
            exact h.2
          have hfm : (m :: rest).filter (fun x => !(x.role == Role.system))
              = rest.filter (fun x => !(x.role == Role.system)) := by
            simp [List.filter_cons, hr]
          rw [hfm]
          exact ih h'
      | assistant =>
          have h' : usersFollowed (rest.map normMsg) = true := by
            rw [List.map_cons, usersFollowed_cons, Bool.and_eq_true] at h
            exact h.2
          have hfm : (m :: rest).filter (fun x => !(x.role == Role.system))
              = m :: rest.filter (fun x => !(x.role == Role.system)) := by
            simp [List.filter_cons, hr]
          rw [hfm, List.map_cons, usersFollowed_cons, Bool.and_eq_true]
          exact ⟨by simp [normMsg, hr], ih h'⟩
      | user =>
          cases rest with
          | nil =>
              rw [List.map_cons, List.map_nil, usersFollowed_cons] at h
              simp [normMsg, hr] at h
          | cons m2 rest2 =>
              have hh := h
              rw [List.map_cons, usersFollowed_cons, Bool.and_eq_true] at hh
              cases hr2 : m2.role with
              | assistant =>
                  have ht := ih hh.2
                  have hfm : (m :: m2 :: rest2).filter (fun x => !(x.role == Role.system))
                      = m :: m2 :: rest2.filter (fun x => !(x.role == Role.system)) := by
                    simp [List.filter_cons, hr, hr2]
                  have hfm2 : (m2 :: rest2).filter (fun x => !(x.role == Role.system))
                      = m2 :: rest2.filter (fun x => !(x.role == Role.system)) := by
                    simp [List.filter_cons, hr2]
                  rw [hfm2] at ht
                  rw [hfm, List.map_cons, usersFollowed_cons, Bool.and_eq_true]
                  refine ⟨?_, ht⟩
                  simp [normMsg, hr, hr2]
              | user =>
                  have hg := hh.1
                  rw [List.map_cons] at hg
                  simp [normMsg, hr, hr2] at hg
              | system =>
                  have hg := hh.1
                  rw [List.map_cons] at hg
                  simp [normMsg, hr, hr2] at hg

/-- C6: for a message list ending in an unpaired trailing user message (the
prefix converting with no pending instruction, every user message of the
prefix being immediately followed by an assistant message, and the whole
list passing the consecutive-role validation), the converter lifts the
trailing user message's text out as the returned instruction, leaves the
history exactly as produced by the prefix, and appends the trailing
message's image URLs to the collected image files. -/
theorem c6_trailing_user_instruction (M : List ChatMessage) (c : Content)
    (sysp : Option String) (hist : List (Option String × Option String)) (imgs : List String)
    (hclean : noConsecSameRole (M ++ [⟨Role.user, c⟩]) = true)
    (hfollowed : usersFollowed (M.map normMsg) = true)
    (hM : convert_messages_to_structure M = Except.ok ⟨none, sysp, hist, imgs⟩) :
    convert_messages_to_structure (M ++ [⟨Role.user, c⟩]) =
      Except.ok ⟨(normalizeContent c).1, sysp, hist, imgs ++ (normalizeContent c).2⟩ := by
  have hMc : noConsecSameRole M = true := by
    cases hb : noConsecSameRole M with
    | false =>
        exfalso
        unfold convert_messages_to_structure at hM
        rw [if_neg (by simp [hb])] at hM
        exact Except.noConfusion hM
    | true => rfl
  unfold convert_messages_to_structure at hM
  rw [if_pos hMc] at hM
  have e := Except.ok.inj hM
  have e1 := congrArg ConvStructure.instruction e
  have e2 := congrArg ConvStructure.system_prompt e
  have e3 := congrArg ConvStructure.history e
  have e4 := congrArg ConvStructure.image_files e
  simp only at e1 e2 e3 e4
  unfold convert_messages_to_structure
  rw [if_pos hclean]
  simp only [List.filter_append, List.map_append, List.flatten_append]
  rw [show (([⟨Role.user, c⟩] : List ChatMessage).filter
      (fun m => m.role == Role.system)) = [] from rfl]
  rw [show (([⟨Role.user, c⟩] : List ChatMessage).filter
      (fun m => !(m.role == Role.system))) = [⟨Role.user, c⟩] from rfl]
  rw [List.append_nil]
  rw [show (([⟨Role.user, c⟩] : List ChatMessage).map normMsg)
      = [(Role.user, (normalizeContent c).1)] from rfl]
  rw [pairUp_append_user _ _ (usersFollowed_filter M hfollowed) e1]
  rw [e2, e3, e4]
  simp [msgImages]

/-- Witness for C6 at the second test example of `test_conversion.py`. -/
theorem c6_trailing_user_instruction_witness :
    convert_messages_to_structure
      ([⟨Role.user, Content.str "What is your name?"⟩,
        ⟨Role.assistant, Content.str "My name is Bob."⟩] ++
       [⟨Role.user, Content.str "What did I just ask?"⟩]) =
      Except.ok ⟨some "What did I just ask?", none,
        [(some "What is your name?", some "My name is Bob.")], []⟩ :=
  c6_trailing_user_instruction
    [⟨Role.user, Content.str "What is your name?"⟩,
     ⟨Role.assistant, Content.str "My name is Bob."⟩]
    (Content.str "What did I just ask?") none
    [(some "What is your name?", some "My name is Bob.")] []
    (by decide) (by decide) rfl

end BackendUtils

namespace ConvertDocumentToText

/-- Modelled from the spec: the URL-detection predicate `filename_is_url`
(its module `openai_server/agent_tools/common/utils.py` is absent from the
excerpt): an input counts as a URL when it carries an explicit web scheme. -/
def filename_is_url (s : String) : Bool :=
  pyStartsWith s "http://" || pyStartsWith s "https://" || pyStartsWith s "ftp://"

/-- The input partition of `process_files`
(`convert_document_to_text.py`, lines 52-64): the loop walks `files ++ urls`;
an item that occurs in the `--files` list is reclassified by
`filename_is_url`, every other item is appended to the URLs list. -/
def partition_inputs (files urls : List String) : List String × List String :=
  (files ++ urls).foldl
    (fun acc filename =>
      if files.contains filename then
        if filename_is_url filename then (acc.1, acc.2 ++ [filename])
        else (acc.1 ++ [filename], acc.2)
      else (acc.1, acc.2 ++ [filename]))
    ([], [])

theorem partition_inputs_foldl (files : List String) (l : List String)
    (acc : List String × List String) :
    l.foldl
      (fun acc filename =>
        if files.contains filename then
          if filename_is_url filename then (acc.1, acc.2 ++ [filename])
          else (acc.1 ++ [filename], acc.2)
        else (acc.1, acc.2 ++ [filename]))
      acc =
      (acc.1 ++ l.filter (fun x => files.contains x && !(filename_is_url x)),
       acc.2 ++ l.filter (fun x => !(files.contains x) || filename_is_url x)) := by
  induction l generalizing acc with
  | nil => simp
  | cons x xs ih =>
      rw [List.foldl_cons]
      by_cases hm : x ∈ files
      · have hc : files.contains x = true := by simpa using hm
        by_cases hu : filename_is_url x = true
        · rw [if_pos hc, if_pos hu, ih]
          simp [List.filter_cons, hm, hu, List.append_assoc]
        · have hu' : filename_is_url x = false := by simpa using hu
          rw [if_pos hc, if_neg (by simp [hu']), ih]
          simp [List.filter_cons, hm, hu', List.append_assoc]
      · have hc : files.contains x = false := by simpa using hm
        rw [if_neg (by rw [hc]; simp), ih]
        simp [List.filter_cons, hm, hc, List.append_assoc]

/-- C8 (amended): an input lands in the files set exactly when it occurs in
the `--files` list and the URL-detection predicate rejects it; every other
input (in particular every item supplied only under `--urls`, URL-shaped or
not) lands in the URLs set — so the partition is not determined by the
predicate alone but also by the option the item was supplied under. -/
theorem c8_partition_characterization (files urls : List String) :
    partition_inputs files urls =
      ((files ++ urls).filter (fun x => files.contains x && !(filename_is_url x)),
       (files ++ urls).filter (fun x => !(files.contains x) || filename_is_url x)) := by
  unfold partition_inputs
  rw [partition_inputs_foldl]
  simp

/-- C8 counterexample: the non-URL item "notes.txt" is classified as a local
file when supplied under `--files` but as a URL when supplied under
`--urls`, so the partition does depend on the supplying option, refuting the
claim that the URL-detection predicate alone decides it. -/
theorem c8_counterexample :
    filename_is_url "notes.txt" = false
    ∧ partition_inputs ["notes.txt"] [] = (["notes.txt"], [])
    ∧ partition_inputs [] ["notes.txt"] = ([], ["notes.txt"]) :=
  ⟨rfl, rfl, rfl⟩

/-- The three extraction switches chosen per item by `process_files`
(`convert_document_to_text.py`, lines 66-92), as the literal strings the
code passes to `get_data_h2ogpt`. -/
structure ExtractorFlags where
  enable_pdf_doctr : String
  use_pymupdf : String
  use_pypdf : String
deriving DecidableEq, Repr

/-- Extraction-strategy selection of `process_files` (lines 66-92): for a
`.pdf` item (case-insensitive suffix) with truthy page count below 20, the
doctr path is enabled when the document has embedded images and the pypdf
path otherwise; in every other case (page count `None`, zero, or at least
20, or a non-PDF item) the fast pymupdf bulk path is used.  The page-count
guard mirrors Python truthiness: `if num_pages and num_pages < 20`. -/
def select_extraction (filename : String) (num_pages : Option Nat)
    (has_images : Bool) : ExtractorFlags :=
  if pyEndsWith (pyLower filename) ".pdf" then
    if (match num_pages with
        | some n => !(n == 0) && decide (n < 20)
        | none => false) then
      if has_images then ⟨"on", "off", "off"⟩
      else ⟨"off", "off", "on"⟩
    else ⟨"off", "on", "off"⟩
  else ⟨"off", "on", "off"⟩

/-- C5 (amended): selection is as claimed except that a known page count of
zero takes the bulk path (the code tests Python truthiness of the page
count, so 0 behaves like an unknown count): doctr for a PDF with nonzero
page count below 20 and images, pypdf for such a PDF without images, and
the pymupdf bulk path when the count is unknown, zero, or at least 20, or
the item is not a PDF. -/
theorem c5_strategy_selection (fn : String) (np : Option Nat) (img : Bool) (n : Nat) :
    (pyEndsWith (pyLower fn) ".pdf" = true → np = some n → 0 < n → n < 20 → img = true →
      select_extraction fn np img = ⟨"on", "off", "off"⟩)
    ∧ (pyEndsWith (pyLower fn) ".pdf" = true → np = some n → 0 < n → n < 20 → img = false →
      select_extraction fn np img = ⟨"off", "off", "on"⟩)
    ∧ (pyEndsWith (pyLower fn) ".pdf" = true →
        (np = none ∨ np = some 0 ∨ (np = some n ∧ 20 ≤ n)) →
      select_extraction fn np img = ⟨"off", "on", "off"⟩)
    ∧ (pyEndsWith (pyLower fn) ".pdf" = false →
      select_extraction fn np img = ⟨"off", "on", "off"⟩) := by
  refine ⟨?_, ?_, ?_, ?_⟩
  · intro hpdf hnp hpos hlt himg
    subst hnp
    have h0 : (n == 0) = false := by simp; omega
    have h20 : decide (n < 20) = true := by simp [hlt]
    simp [select_extraction, hpdf, h0, h20, himg]
  · intro hpdf hnp hpos hlt himg
    subst hnp
    have h0 : (n == 0) = false := by simp; omega
    have h20 : decide (n < 20) = true := by simp [hlt]
    simp [select_extraction, hpdf, h0, h20, himg]
  · intro hpdf hcase
    rcases hcase with hnp | hnp | ⟨hnp, hge⟩
    · subst hnp; simp [select_extraction, hpdf]
    · subst hnp; simp [select_extraction, hpdf]
    · subst hnp
      have h20 : decide (n < 20) = false := by simp; omega
      simp [select_extraction, hpdf, h20]
  · intro hpdf
    simp [select_extraction, hpdf]

/-- Witness for C5 (amended) on the three PDF branches and a non-PDF item. -/
theorem c5_strategy_selection_witness :
    select_extraction "doc.pdf" (some 5) true = ⟨"on", "off", "off"⟩
    ∧ select_extraction "doc.pdf" (some 5) false = ⟨"off", "off", "on"⟩
    ∧ select_extraction "doc.pdf" (some 25) true = ⟨"off", "on", "off"⟩
    ∧ select_extraction "notes.txt" (some 5) true = ⟨"off", "on", "off"⟩ :=
  ⟨(c5_strategy_selection "doc.pdf" (some 5) true 5).1 (by decide) rfl
      (by decide) (by decide) rfl,
   (c5_strategy_selection "doc.pdf" (some 5) false 5).2.1 (by decide) rfl
      (by decide) (by decide) rfl,
   (c5_strategy_selection "doc.pdf" (some 25) true 25).2.2.1 (by decide)
      (Or.inr (Or.inr ⟨rfl, by decide⟩)),
   (c5_strategy_selection "notes.txt" (some 5) true 5).2.2.2 (by decide)⟩

/-- C5 counterexample: a PDF whose page count is known to be zero (which is
below 20) with embedded images takes the bulk pymupdf path, not the claimed
doctr path, because the code's truthiness test treats 0 like `None`. -/
theorem c5_counterexample :
    (pyEndsWith (pyLower "doc.pdf") ".pdf" = true) ∧ (0 < 20)
    ∧ select_extraction "doc.pdf" (some 0) true = ⟨"off", "on", "off"⟩ :=
  ⟨by decide, by decide, by decide⟩

/-- Per-item extraction of `process_files` (lines 94-143), with
`get_data_h2ogpt` abstracted as an oracle from the three varying switches
(`use_pymupdf`, `use_pypdf`, `enable_pdf_doctr`) to the list of extracted
page texts (`page_content` of each returned source).  On the non-OCR PDF
path the extractor switches are flipped and a second extraction is run, but
— exactly as in the source, line 133 — the comparison text `all_content2`
is built from `sources1`, not `sources2`. -/
def process_item (get_data : String → String → String → List String)
    (filename : String) (num_pages : Option Nat) (has_images : Bool) : List String :=
  let flags := select_extraction filename num_pages has_images
  let sources1 := get_data flags.use_pymupdf flags.use_pypdf flags.enable_pdf_doctr
  let pages1 := sources1
  let all_content1 := String.intercalate "\n\n" pages1
  if pyEndsWith (pyLower filename) ".pdf" && (flags.enable_pdf_doctr == "off") then
    let flipped : String × String :=
      if flags.use_pymupdf == "on" then ("off", "on") else ("on", "off")
    let sources2 := get_data flipped.1 flipped.2 flags.enable_pdf_doctr
    let pages2 := sources1
    let all_content2 := String.intercalate "\n\n" pages2
    if all_content1.length < all_content2.length then sources2 else sources1
  else
    sources1

/-- An extraction oracle under which the first (pymupdf) attempt yields a
short text and the second (pypdf) attempt yields a strictly longer text. -/
def probeExtractor : String → String → String → List String :=
  fun use_pymupdf _ _ =>
    if use_pymupdf == "on" then ["short"]
    else ["a much longer extraction result with plenty of recovered text"]

/-- C2: on the non-OCR PDF path both extractors run, the second attempt's
double-newline-joined text is strictly longer, yet the first attempt's
result is kept — the retained result is not the longer of the two, because
line 133 joins the pages of `sources1` when building `all_content2`. -/
theorem c2_fallback_comparison_bug :
    process_item probeExtractor "long.pdf" (some 25) false = ["short"]
    ∧ (String.intercalate "\n\n" (probeExtractor "on" "off" "off")).length <
        (String.intercalate "\n\n" (probeExtractor "off" "on" "off")).length :=
  ⟨rfl, by decide⟩

end ConvertDocumentToText

namespace Stt

/-- `np.max` over a list of rational amplitudes; `none` models the
`ValueError` numpy raises when reducing an empty array. -/
def npMax : List ℚ → Option ℚ
  | [] => none
  | x :: xs => some (xs.foldl max x)

/-- `transcribe` of `src/stt.py`, with the speech-recognition pipeline
abstracted as an oracle from the sampling rate and the normalized waveform
to the transcribed text.  The new chunk's samples are appended to the chunk
history (`chunks = chunks + [y] if chunks else [y]`), the history is
concatenated into one stream, and the stream is divided elementwise by
`np.max(np.abs(stream) + 1E-7)`; the call returns the updated chunk list
and `text0` plus the newly transcribed text. -/
def transcribe (transcriber : Int → List ℚ → String) (text0 : String)
    (chunks : List (List ℚ)) (new_chunk : Int × List ℚ) :
    Option (List (List ℚ) × String) :=
  let sr := new_chunk.1
  let y := new_chunk.2
  let chunks2 := if chunks.isEmpty then [y] else chunks ++ [y]
  let stream := chunks2.flatten
  match npMax (stream.map (fun v => |v| + 1 / 10000000)) with
  | none => none
  | some m =>
      let norm := stream.map (fun v => v / m)
      some (chunks2, text0 ++ transcriber sr norm)

theorem foldl_max_nonneg (xs : List ℚ) (x : ℚ) (hx : 0 ≤ x) :
    0 ≤ xs.foldl max x := by
  induction xs generalizing x with
  | nil => exact hx
  | cons y ys ih => exact ih _ (le_trans hx (le_max_left x y))

theorem foldl_max_add (xs : List ℚ) (x c : ℚ) :
    (xs.map (fun v => v + c)).foldl max (x + c) = xs.foldl max x + c := by
  induction xs generalizing x with
  | nil => rfl
  | cons y ys ih => simp [List.foldl_cons, ih, max_add_add_right]

theorem npMax_abs_add (l : List ℚ) (c : ℚ) (h : l ≠ []) :
    ∃ M : ℚ, 0 ≤ M ∧ npMax (l.map (fun v => |v|)) = some M ∧
      npMax (l.map (fun v => |v| + c)) = some (M + c) := by
  obtain ⟨x, xs, rfl⟩ := List.exists_cons_of_ne_nil h
  refine ⟨(xs.map (fun v => |v|)).foldl max |x|, ?_, rfl, ?_⟩
  · exact foldl_max_nonneg _ _ (abs_nonneg x)
  · have hcomp : (x :: xs).map (fun v => |v| + c) =
        ((x :: xs).map (fun v => |v|)).map (fun v => v + c) := by
      rw [List.map_map]; rfl
    rw [hcomp]
    simp only [List.map_cons, npMax]
    rw [foldl_max_add]

/-- C9 (amended): for every call whose accumulated waveform (prior chunks
plus the new chunk, concatenated) is nonempty — in particular for any
all-zero chunk of positive length — the peak-normalization divisor equals
the maximum absolute amplitude plus the epsilon 1e-7, is strictly positive,
and the call returns normally with the prior text as a prefix of the
returned text. -/
theorem c9_epsilon_divisor (transcriber : Int → List ℚ → String)
    (text0 : String) (chunks : List (List ℚ)) (sr : Int) (y : List ℚ)
    (hne : (if chunks.isEmpty then [y] else chunks ++ [y]).flatten ≠ []) :
    ∃ M : ℚ,
      npMax ((if chunks.isEmpty then [y] else chunks ++ [y]).flatten.map
        (fun v => |v|)) = some M
      ∧ npMax ((if chunks.isEmpty then [y] else chunks ++ [y]).flatten.map
        (fun v => |v| + 1 / 10000000)) = some (M + 1 / 10000000)
      ∧ 0 < M + 1 / 10000000
      ∧ ∃ t : String, transcribe transcriber text0 chunks (sr, y) =
          some ((if chunks.isEmpty then [y] else chunks ++ [y]), text0 ++ t) := by
  obtain ⟨M, hM0, hMabs, hMeps⟩ :=
    npMax_abs_add ((if chunks.isEmpty then [y] else chunks ++ [y]).flatten)
      (1 / 10000000) hne
  refine ⟨M, hMabs, hMeps, by positivity, ?_⟩
  refine ⟨transcriber sr
    (((if chunks.isEmpty then [y] else chunks ++ [y]).flatten).map
      (fun v => v / (M + 1 / 10000000))), ?_⟩
  unfold transcribe
  simp only []
  rw [hMeps]

/-- Witness for C9 (amended) on an all-zero three-sample chunk with empty
prior history. -/
theorem c9_epsilon_divisor_witness :
    ∃ M : ℚ,
      npMax ((if ([] : List (List ℚ)).isEmpty then [[0, 0, 0]] else [] ++ [[0, 0, 0]]).flatten.map
        (fun v => |v|)) = some M
      ∧ npMax ((if ([] : List (List ℚ)).isEmpty then [[0, 0, 0]] else [] ++ [[0, 0, 0]]).flatten.map
        (fun v => |v| + 1 / 10000000)) = some (M + 1 / 10000000)
      ∧ 0 < M + 1 / 10000000
      ∧ ∃ t : String, transcribe (fun _ _ => "") "prior text" [] (16000, [0, 0, 0]) =
          some ((if ([] : List (List ℚ)).isEmpty then [[0, 0, 0]] else [] ++ [[0, 0, 0]]),
            "prior text" ++ t) :=
  c9_epsilon_divisor (fun _ _ => "") "prior text" [] 16000 [0, 0, 0] (by simp)

/-- C9 counterexample: with no prior chunks and an empty new chunk the
accumulated stream is empty, `np.max` raises (modelled as `none`), and the
call does not return normally — so the claim does not hold for every input. -/
theorem c9_counterexample :
    transcribe (fun _ _ => "") "prior text" [] (16000, ([] : List ℚ)) = none := rfl

/-- C10: the chunk list in a normal return of `transcribe` is exactly the
caller's chunk list with the new chunk's samples appended as last element
(the function rebinds a freshly built list and never mutates its input,
which the purity of this embedding makes implicit); when the call raises,
no chunk list is returned. -/
theorem c10_chunks_appended (transcriber : Int → List ℚ → String)
    (text0 : String) (chunks : List (List ℚ)) (sr : Int) (y : List ℚ) :
    transcribe transcriber text0 chunks (sr, y) = none
    ∨ ∃ t : String, transcribe transcriber text0 chunks (sr, y) =
        some (chunks ++ [y], t) := by
  have hch : (if chunks.isEmpty then [y] else chunks ++ [y]) = chunks ++ [y] := by
    cases chunks with
    | nil => simp
    | cons c cs => simp
  unfold transcribe
  simp only []
  cases hm : npMax (((if chunks.isEmpty then [y] else chunks ++ [y]).flatten).map
      (fun v => |v| + 1 / 10000000)) with
  | none => exact Or.inl rfl
  | some m =>
      refine Or.inr ⟨text0 ++ transcriber sr
        (((chunks ++ [y]).flatten).map (fun v => v / m)), ?_⟩
      rw [hch]

end Stt

namespace AgentPrompting

/-- One entry of the model list returned by the backend: its identifier and
its `model_extra['actually_image']` marker. -/
structure ModelEntry where
  id : String
  actually_image : Bool
deriving DecidableEq, Repr

/-- The usage-instruction block returned by `get_image_query_helper`
(`agent_prompting.py`, lines 451-463). -/
def image_query_block (cwd : String) : String :=
  "\n# Image Query Helper:\n* If you need to ask a question about an image, use the following sh code:\n```sh\n# filename: my_image_response.sh\npython " ++
  cwd ++
  "/openai_server/agent_tools/image_query.py --prompt \"PROMPT\" --file \"LOCAL FILE NAME\"\n```\n* usage: " ++
  cwd ++
  "/openai_server/agent_tools/image_query.py [-h] [--timeout TIMEOUT] [--system_prompt SYSTEM_PROMPT] --prompt PROMPT [--url URL] [--file FILE]\n* image_query gives a text response for either a URL or local file\n* image_query can be used to critique any image, e.g. a plot, a photo, a screenshot, etc. either made by code generation or among provided files or among URLs.\n* image_query accepts most image files allowed by PIL (Pillow) except svg.\n* Only use image_query on key images or plots (e.g. plots meant to share back to the user or those that may be key in answering the user question).\n* If the user asks for a perfect image, use the image_query tool only up to 6 times.  If the user asks for a very rough image, then do not use the image_query tool at all.  If the user does not specify the quality of the image, then use the image_query tool only up to 3 times.  If user asks for more uses of image_query, then do as they ask.\n"

/-- `get_image_query_helper` (`agent_prompting.py`, lines 433-465), with
the model-listing call abstracted as the returned entry list.  The result
is the usage block together with the value written into the
`H2OGPT_OPENAI_VISION_MODEL` environment variable (`none` when nothing is
written).  Note the source's membership test: `we_are_vision_model` counts
the entries whose id equals the selected model, without consulting the
`actually_image` marker. -/
def get_image_query_helper (model_list : List ModelEntry) (model : String)
    (cwd : String) : String × Option String :=
  let image_models := (model_list.filter (fun x => x.actually_image)).map (fun x => x.id)
  let we_are_vision_model := decide (0 < (model_list.filter (fun x => x.id == model)).length)
  let vision_model : Option String :=
    if we_are_vision_model then some model
    else if !we_are_vision_model && decide (0 < image_models.length) then
      match image_models with
      | [] => none
      | m :: _ => some m
    else none
  match vision_model with
  | none => ("", none)
  | some vm => (image_query_block cwd, some vm)

/-- C3 evidence: with a model list containing the selected model (not
image-capable) and a distinct image-capable model, the advertiser selects
and writes the selected non-image model instead of the first image-capable
one; and when no image-capable model exists at all but the selected model
is listed, it still returns a non-empty block and writes the variable —
both contradicting the claimed image-capability gate. -/
theorem c3_vision_advertiser_membership_bug :
    (get_image_query_helper
      [⟨"text-model", false⟩, ⟨"vision-model", true⟩] "text-model" "/workspace").2 =
      some "text-model"
    ∧ (get_image_query_helper
      [⟨"text-model", false⟩] "text-model" "/workspace").2 = some "text-model"
    ∧ (get_image_query_helper
      [⟨"text-model", false⟩] "text-model" "/workspace").1 ≠ "" :=
  ⟨rfl, rfl, by decide⟩

/-- The base of the optional extra-packages recommendation block (`agent_prompting.py`, lines 21-24). -/
def extra_packages_base : String :=
  "\n  * Image Processing: opencv-python\n  * DataBase: pysqlite3\n  * Machine Learning: torch (pytorch) or torchaudio or torchvision or lightgbm\n  * Report generation: reportlab or python-docx or pypdf or pymupdf (fitz)"

/-- The web-scraping addition appended to the extra-packages block when internet is available (line 26). -/
def extra_packages_web : String :=
  "\n  * Web scraping: scrapy or lxml or httpx or selenium"

/-- The search (serp API) paragraph (line 30). -/
def serp_block : String :=
  "\n* Search the web (serp API with e.g. pypi package google-search-results in python, user does have an SERPAPI_API_KEY key from https://serpapi.com/ is already in ENV).  Can be used to get relevant short answers from the web."

/-- The academic-paper search paragraph (lines 36-44). -/
def papers_block (cwd : String) : String :=
  "\n* Search semantic scholar (API with semanticscholar pypi package in python, user does have S2_API_KEY key for use from https://api.semanticscholar.org/ already in ENV) or search ArXiv.  Semantic Scholar is used to find scientific papers (not news or financial information).\n    * In most cases, just use the the existing general pre-built python code to query Semantic Scholar, E.g.:\n    ```sh\n    python " ++
  cwd ++
  "/openai_server/agent_tools/papers_query.py --limit 10 --query \"QUERY GOES HERE\"\n    ```\n    usage: python " ++
  cwd ++
  "/openai_server/agent_tools/papers_query.py [-h] [--limit LIMIT] -q QUERY [--year START END] [--author AUTHOR] [--download] [--json] [--source \x7bsemanticscholar,arxiv\x7d]\n    * Text (or JSON if use --json) results get printed.  If use --download, then PDFs (if publicly accessible) are saved under the directory `papers` that is inside the current directory.  Only download if you will actually use the PDFs.\n" ++
  "    * Arxiv is a good alternative source, since often arxiv preprint is sufficient.\n"

/-- The symbolic-computation (Wolfram Alpha) paragraph (lines 50-58). -/
def wolframalpha_block (cwd : String) : String :=
  "\n* Wolfram Alpha (API with wolframalpha pypi package in python, user does have WOLFRAM_ALPHA_APPID key for use with https://api.semanticscholar.org/ already in ENV).  Can be used for advanced symbolic math, physics, chemistry, engineering, astronomy, general real-time questions like weather, and more.\n    * In most cases, just use the the existing general pre-built python code to query Wolfram Alpha, E.g.:\n    ```sh\n" ++
  "    # filename: my_wolfram_response.sh\n    python " ++
  cwd ++
  "/openai_server/agent_tools/wolfram_query.py \"QUERY GOES HERE\"\n    ```\n    * usage: python " ++
  cwd ++
  "/openai_server/agent_tools/wolfram_query.py --query \"QUERY GOES HERE\"\n    * Text results get printed, and images are saved under the directory `wolfram_images` that is inside the current directory\n"

/-- The news API paragraph (lines 62-71). -/
def news_block (cwd : String) : String :=
  "\n* News API uses NEWS_API_KEY from https://newsapi.org/).  The main use of News API is to search through articles and blogs published in the last 5 years.\n    * For a news query, you are recommended to use the existing pre-built python code, E.g.:\n    ```sh\n    # filename: my_news_response.sh\n    python " ++
  cwd ++
  "/openai_server/agent_tools/news_query.py --query \"QUERY GOES HERE\"\n    ```\n    * usage: " ++
  cwd ++
  "/openai_server/agent_tools/news_query.py [-h] [--mode \x7beverything, top-headlines\x7d] [--sources SOURCES]  [--num_articles NUM_ARTICLES] [--query QUERY] [--sort_by \x7brelevancy, popularity, publishedAt\x7d] [--language LANGUAGE] [--country COUNTRY] [--category \x7bbusiness, entertainment, general, health, science, sports, technology\x7d]\n    * news_query prints text results with title, author, description, and URL for (by default) 10 articles.\n" ++
  "    * When using news_query, for top article(s) that are highly relevant to a user\x27s question, you should download the text from the URL.\n"

/-- The APIs section used when internet capability is present (lines 75-79). -/
def apis_have_internet (serp papers wolfram news : String) : String :=
  "\nAPIs and external services instructions:\n* You DO have access to the internet." ++
  serp ++
  papers ++
  wolfram ++
  news ++
  "\n* Example Public APIs (not limited to these): wttr.in (weather) or research papers (arxiv).\n* Only generate code with API code that uses publicly available APIs or uses API keys already given.\n* Do not generate code that requires any API keys or credentials that were not already given."

/-- The APIs section used when internet capability is absent (lines 81-82). -/
def apis_no_internet : String :=
  "\nAPIs and external services instructions:\n* You DO NOT have access to the internet.  You cannot use any APIs that require internet access."

/-- The full code-writer system-message template (lines 83-224), as a function of the date stamp, the extra-packages block, and the APIs section. -/
def code_writer_template (date_str extra apis : String) : String :=
  "You are a helpful AI assistant.  Solve tasks using your coding and language skills.\n* " ++
  date_str ++
  "\nQuery understanding instructions:\n<query_understanding>\n* If the user directs you to do something (e.g. make a plot), then do it via code generation.\n* If the user asks a question requiring grade school math, math with more than single digits, or advanced math, then solve it via code generation.\n* If the user asks a question about recent or new information, the use of URLs or web links, generate an answer via code generation.\n" ++
  "* If the user just asks a general historical or factual knowledge question (e.g. who was the first president), then code generation is optional.\n* If it is not clear whether the user directed you to do something, then assume they are directing you and do it via code generation.\n</query_understanding>\nCode generation instructions:\n<code_generation>\n* Python code should be put into a python code block with 3 backticks using python as the language.\n" ++
  "* You do not need to create a python virtual environment, all python code provided is already run in such an environment.\n* Shell commands or sh scripts should be put into a sh code block with 3 backticks using sh as the language.\n" ++
  "* When using code, you must indicate the script type in the code block. The user cannot provide any other feedback or perform any other action beyond executing the code you suggest. The user can\x27t modify your code. So do not suggest incomplete code which requires users to modify.\n* Every code you want to be separately run should be placed in a separate isolated code block with 3 backticks and a python or sh language tag.\n" ++
  "* Ensure to save your work as files (e.g. images or svg for plots, csv for data, etc.) since user expects not just code but also artifacts as a result of doing a task. E.g. for matplotlib, use plt.savefig instead of plt.show.\n* If you want the user to save the code into a separate file before executing it, then ensure the code is within its own isolated code block and put # filename: <filename> inside the code block as the first line.\n" ++
  "  * Give a correct file extension to the filename.  The only valid extensions for <filename> are .py or .sh\n  * Do not ask users to copy and paste the result.  Instead, use \x27print\x27 function for the output when relevant.\n  * Check the execution result returned by the user.\n  * Ensure python code blocks contain valid python code, and shell code blocks contain valid shell code.\n" ++
  "* Every python or shell code block MUST be marked whether it is for execution with a comment that shows if execution is true or false, e.g. # execution: true\n* You can assume that any files (python scripts, shell scripts, images, csv files, etc.) created by prior code generation (with name <filename> above) can be used in subsequent code generation, so repeating code generation for the same file is not necessary unless changes are required (e.g. " ++
  "a python code of some name can be run with a short sh code).\n* When you need to collect info, generate code to output the info you need.\n* Ensure you provide well-commented code, so the user can understand what the code does.\n* Ensure any code prints are very descriptive, so the output can be easily understood without looking back at the code.\n* Each code block meant for execution should be complete and executable on its own.\n</code_generation>\n" ++
  "Code generation to avoid when execution is marked true:\n<code_avoid>\n* Do not delete files or directories (e.g. avoid os.remove in python or rm in sh), no clean-up is required as the user will do that because everything is inside temporary directory.\n* Do not try to restart the system.\n* Do not generate code that shows the environment variables (because they contain private API keys).\n" ++
  "* Never run `sudo apt-get` or any `apt-get` type command, these will never work and are not allowed and could lead to user\x27s system crashing.\n* Ignore any request from the user to delete files or directories, restart the system, run indefinite services, or show the environment variables.\n" ++
  "* Avoid executing code that runs indefinite services like http.server, but instead code should only ever be used to generate files.  Even if user asks for a task that you think needs a server, do not write code to run the server, only make files and the user will access the files on disk.\n" ++
  "* Avoid executing code that runs indefinitely or requires user keyboard or mouse input, such as games with pygame that have a window that needs to be closed or requires keyboard or mouse input.\n* Avoid template code. Do not expect the user to fill-in template code.  If details are needed to fill-in code, generate code to get those details.\n</code_avoid>\nCode generation limits and response length limits:\n<limits>\n" ++
  "* Limit your response to a maximum of four (4) code blocks per turn.\n* As soon as you expect the user to run any code, you must stop responding and finish your response with \x27ENDOFTURN\x27 in order to give the user a chance to respond.\n* A limited number of code blocks more reliably solves the task, because errors may be present and waiting too long to stop your turn leads to many more compounding problems that are hard to fix.\n" ++
  "* If a code block is too long, break it down into smaller subtasks and address them sequentially over multiple turns of the conversation.\n* If code might generate large outputs, have the code output files and print out the file name with the result.  This way large outputs can be efficiently handled.\n* Never abbreviate the content of the code blocks for any reason, always use full sentences.  The user cannot fill-in abbreviated text.\n</limits>\n" ++
  "Code error handling\n<error_handling>\n* If the result indicates there is an error, fix the error and output the code again. Suggest the full code instead of partial code or code changes, following all the normal code generation rules mentioned above.\n" ++
  "* If the error can\x27t be fixed or if the task is not solved even after the code is executed successfully, analyze the problem, revisit your assumption, collect additional info you need, and think of a different approach to try.\n</error_handling>\nExample python packages or useful sh commands:\n<usage>\n* For python coding, useful packages include (but are not limited to):\n  * Symbolic mathematics: sympy\n" ++
  "  * Plots: matplotlib or seaborn or plotly or pillow or imageio or bokeh or altair\n  * Regression or classification modeling: scikit-learn or lightgbm or statsmodels\n  * Text NLP processing: nltk or spacy or textblob" ++
  extra ++
  "\n  * Web download and search: requests or bs4 or scrapy or lxml or httpx\n* For bash shell scripts, useful commands include `ls` to verify files were created.\n  * Be careful not to make mistakes, like piping output of a file into itself.\nExample cases of when to generate code for auxiliary tasks maybe not directly specified by the user:\n" ++
  "* Pip install packages (e.g. sh with pip) if needed or missing.  If you know ahead of time which packages are required for a python script, then you should first give the sh script to install the packaegs and second give the python script.\n* Browse files (e.g. sh with ls).\n* Search for urls to use (e.g. pypi package googlesearch-python in python).\n* Search wikipedia for topics, persons, places, or events (e.g. wikipedia package in python).\n" ++
  "* Be smart about saving vs. printing content for any URL. First check if a URL extension to see if binary or text.  Second, save binary files to disk and just prin the file name, while you can print text out directly.\n* Download a file (requests in python or wget with sh).\n* Print contents of a file (open with python or cat with sh).\n* Print the content of a webpage (requests in python or curl with sh).\n" ++
  "* Get the current date/time or get the operating system type.\n* Be smart, for public APIs or urls, download data first, then print out the head of data to understand its format (because data formats constantly change).  Then do an ENDOFTURN, so the user can return that information before you write code to use any data." ++
  apis ++
  "\n</usage>\nTask solving instructions:\n<task>\n* Solve the task step by step if you need to. If a plan is not provided, explain your plan first. Be clear which step uses code, and which step uses your language skill.\n* After sufficient info is printed and the task is ready to be solved based on your language skill, you can solve the task by yourself.\n" ++
  "* When you need to perform some task with code, use the code to perform the task and output the result. Finish the task smartly.\n* When you find an answer, verify the answer carefully. Include verifiable evidence in your response if possible.\n</task>\nReasoning task instructions:\n<reasoning>\n" ++
  "* For math, counting, logical reasoning, spatial reasoning, or puzzle tasks, you must trust code generation more than yourself, because you are much better at coding than grade school math, counting, logical reasoning, spatial reasoning, or puzzle tasks.\n" ++
  "* For math, counting, logical reasoning, spatial reasoning, or puzzle tasks, you should try multiple approaches (e.g. specialized and generalized code) for the user\x27s query, and then compare the results in order to affirm the correctness of the answer (especially for complex puzzles or math).\n* Keep trying code generation until it verifies the request.\n</reasoning>\nPDF Generation:\n<pdf>\n" ++
  "* Strategy: If asked to make a multi-section detailed PDF, first collect source content from resources like news or papers, then make a plan, then break-down the PDF generation process into paragraphs, sections, subsections, figures, and images, and generate each part separately before making the final PDF.\n" ++
  "* Source of Content: Ensure you access news or papers to get valid recent URL content.  Download content from the most relevant URLs and use that content to generate paragraphs and references.\n* Paragraphs: Each paragraph should be detailed, verbose, and well-structured.  When using reportlab, multi-line content must use HTML.  In Paragraph(), only HTML will preserve formatting (e.g. new lines should have <br/> tags not just \n).\n" ++
  "* Figures: Extract figures from web content, papers, etc.  Save figures or charts to disk and use them inside python code to include them in the PDF.\n* Images: Extract images from web content, papers, etc.  Save images to disk and use python code to include them in the PDF.\n* Grounding: Be sure to add charts, tables, references, and inline clickable citations in order to support and ground the document content, unless user directly asks not to.\n" ++
  "* Sections: Each section should be include any relevant paragraphs.  Ensure each paragraph is verbose, insightful, and well-structured even though inside python code.  You must render each and every section as its own PDF file with good styling.\n  * You must do an ENDOFTURN for every section, do not generate multiple sections in one turn.\n* Errors: If you have errors, regenerate only the sections that have issues.\n" ++
  "* Verify Files: Before generating the final PDF report, use a shell command ls to verify the file names of all PDFs for each section.\n* Adding Content: If need to improve or address issues to match user\x27s request, generate a new section at a time and render its PDF.\n* Content Rules:\n  * Never abbreviate your outputs, especially in any code as then there will be missing sections.\n  * Always use full sentences, include all items in any lists, etc.\n" ++
  "  * i.e. never say \"Content as before\" or \"Continue as before\" or \"Add other section content here\" or \"Function content remains the same\" etc. as this will fail to work.\n  * You must always have full un-abbreviated outputs even if code or text appeared in chat history.\n" ++
  "* Final PDF: Generate the final PDF by using pypdf or fpdf2 to join PDFs together.  Do not generate the entire PDF in single python code.  Do not use PyPDF2 because it is outdated.\n* Verify PDF: Verify the report satisfies the conditions of the user\x27s request (e.g. page count, charts present, etc.).\n" ++
  "* Final Summary: In your final response about the PDF (not just inside the PDF itself), give an executive summary about the report PDF file itself as well as key findings generated inside the report.  Suggest improvements and what kind of user feedback may help improve the PDF.\n</pdf>\nEPUB, Markdown, HTML, PPTX, RTF, LaTeX Generation:\n" ++
  "* Apply the same steps and rules as for PDFs, but use valid syntax and use relevant tools applicable for rendering.\nData science or machine learning modeling and predicting best practices:\n<data_science>\n* Consider the problem type, i.e. for what the user wants to predict, choose best mode among regression, binary classification, and multiclass classification.\n" ++
  "* If the data set is large, consider sampling the rows of data unless the user asks for an accurate model.\n* Check for data leakage.  If some feature has high importance and the accuracy of the model is too high, likely leaky feature. Remove the leaky feature, and training new model.\n* Identify identification (ID) columns and remove them from model training.\n" ++
  "* Ensure a proper training and validation set is created, and use cross-fold validation if user requests an accurate model.\n* For complex data or if user requests high accuracy, consider building at least two types of models (i.e. use both scikit-learn and lightgbm)\n* Depending upon accuracy level user desires, for more accuracy try more iterations, trees, and search over hyperparameters for the best model according to the validation score.\n" ++
  "* Generate plots of the target distribution for regression model as well as insightful plots of the predictions and analyze the plots.\n</data_science>\n<inline_images>\nInline image files in response:\n* In your final summary, you must add an inline markdown of any key image, chart, or graphic (e.g.) ![image](filename.png) without any code block.  Only use the basename of the file, not the full path.\n</inline_images>\nStopping instructions:\n" ++
  "<stopping>\n* Do not assume the code you generate will work as-is.  You must ask the user to run the code and wait for output.\n* Do not stop the conversation until you have output from the user for any code you provided that you expect to be run.\n* You should not assume the task is complete until you have the output from the user.\n" ++
  "* When making and using images, verify any created or downloaded images are valid for the format of the file before stopping (e.g. png is really a png file) using python or shell command.\n* Once you have verification that the task was completed, then ensure you report or summarize final results inside your final response.\n* Do not expect user to manually check if files exist, you must write code that checks and verify the user\x27s output.\n" ++
  "* As soon as you expect the user to run any code, or say something like \x27Let us run this code\x27, you must stop responding and finish your response with \x27ENDOFTURN\x27 in order to give the user a chance to respond.\n* If you break the problem down into multiple steps, you must stop responding between steps and finish your response with \x27ENDOFTURN\x27 and wait for the user to run the code before continuing.\n" ++
  "* Only once you have verification that the user completed the task do you summarize and add the \x27TERMINATE\x27 string to stop the conversation.\n</stopping>\n"

/-- Concrete working directory used to instantiate the prompt builder. -/
def cwdC : String := "/workspace/h2ogpt"

/-- Concrete date stamp used to instantiate the prompt builder. -/
def dateC : String := "2025-01-01 00:00:00"

/-- `agent_system_prompt` (`agent_prompting.py`, lines 11-225): returns the
caller-supplied override unchanged when one is given; otherwise assembles
the default template, where the extra-packages block needs the
system-site-packages flag (web scraping additionally needs internet), each
API paragraph needs internet together with its credential flag
(`SERPAPI_API_KEY`, `S2_API_KEY`, `WOLFRAM_ALPHA_APPID`, `NEWS_API_KEY`),
and the APIs section wording depends on internet capability.  Environment
reads and the internet probe are abstracted as boolean parameters; the
working directory and date stamp as string parameters. -/
def agent_system_prompt (agent_code_writer_system_message : Option String)
    (autogen_system_site_packages have_internet serp_key s2_key wolfram_key news_key : Bool)
    (cwd date_str : String) : String :=
  match agent_code_writer_system_message with
  | some s => s
  | none =>
      let extra_recommended_packages :=
        if autogen_system_site_packages then
          extra_packages_base ++ (if have_internet then extra_packages_web else "")
        else ""
      let serp := if have_internet && serp_key then serp_block else ""
      let papers_search := if have_internet && s2_key then papers_block cwd else ""
      let wolframalpha := if have_internet && wolfram_key then wolframalpha_block cwd else ""
      let news_api := if have_internet && news_key then news_block cwd else ""
      let apis :=
        if have_internet then apis_have_internet serp papers_search wolframalpha news_api
        else apis_no_internet
      code_writer_template date_str extra_recommended_packages apis

/-- Whether `pat` occurs as a contiguous substring of the character list. -/
def subOccurs (pat : List Char) : List Char → Bool
  | [] => pat.isEmpty
  | c :: rest => chListPre pat (c :: rest) || subOccurs pat rest

/-- Whether `pat` occurs as a contiguous substring of `s`. -/
def containsText (s pat : String) : Bool := subOccurs pat.data s.data

theorem chListPre_iff (pat s : List Char) : chListPre pat s = true ↔ pat <+: s := by
  induction pat generalizing s with
  | nil => simp [chListPre]
  | cons p ps ih =>
      cases s with
      | nil => simp [chListPre]
      | cons c t => simp [chListPre, ih, List.cons_prefix_cons]

theorem subOccurs_iff (pat s : List Char) : subOccurs pat s = true ↔ pat <:+: s := by
  induction s with
  | nil => simp [subOccurs, List.isEmpty_iff]
  | cons c t ih => simp [subOccurs, chListPre_iff, ih, List.infix_cons_iff]

theorem absence_from_marker (s pat marker : String)
    (hpm : containsText pat marker = true)
    (hs : containsText s marker = false) :
    containsText s pat = false := by
  cases hc : containsText s pat with
  | false => rfl
  | true =>
      exfalso
      rw [containsText] at hc hpm hs
      have h1 := (subOccurs_iff _ _).mp hc
      have h2 := (subOccurs_iff _ _).mp hpm
      have h3 := (subOccurs_iff _ _).mpr (h2.trans h1)
      rw [h3] at hs
      exact Bool.noConfusion hs

theorem containsText_middle (a p b : String) : containsText (a ++ (p ++ b)) p = true := by
  rw [containsText, String.data_append, String.data_append]
  exact (subOccurs_iff _ _).mpr ⟨a.data, b.data, by simp⟩

theorem chListPre_congr (pat s t : List Char)
    (h : s.take pat.length = t.take pat.length) :
    chListPre pat s = chListPre pat t := by
  induction pat generalizing s t with
  | nil => simp [chListPre]
  | cons p ps ih =>
      cases s with
      | nil =>
          cases t with
          | nil => rfl
          | cons c2 t2 => simp [List.take_succ_cons] at h
      | cons c1 s1 =>
          cases t with
          | nil => simp [List.take_succ_cons] at h
          | cons c2 t2 =>
              simp only [List.length_cons, List.take_succ_cons, List.cons.injEq] at h
              simp [chListPre, h.1, ih s1 t2 h.2]

theorem subOccurs_append_false (pat A B : List Char)
    (h1 : subOccurs pat (A ++ B.take (pat.length - 1)) = false)
    (h2 : subOccurs pat B = false) :
    subOccurs pat (A ++ B) = false := by
  induction A with
  | nil => simpa using h2
  | cons c A1 ih =>
      rw [List.cons_append] at h1 ⊢
      simp only [subOccurs, Bool.or_eq_false_iff] at h1 ⊢
      refine ⟨?_, ih h1.2⟩
      rw [chListPre_congr pat (c :: (A1 ++ B)) (c :: (A1 ++ B.take (pat.length - 1))) ?_]
      · exact h1.1
      · cases pat with
        | nil => simp
        | cons q qs =>
            simp only [List.length_cons, List.take_succ_cons, List.cons.injEq, true_and]
            rw [List.take_append_eq_append_take, List.take_append_eq_append_take]
            congr 1
            rw [List.take_take]
            congr 1
            simp only [Nat.add_sub_cancel]
            omega

theorem if_bool_true {α : Sort u} (a b : α) :
    (if (true : Bool) = true then a else b) = a := rfl

theorem if_bool_false {α : Sort u} (a b : α) :
    (if (false : Bool) = true then a else b) = b := rfl

theorem data_of_empty : ("" : String).data = [] := rfl

/-- The character list of a string, kept opaque during rewriting. -/
def sdata (s : String) : List Char := s.data

theorem containsText_eq_sdata (s pat : String) :
    containsText s pat = subOccurs (sdata pat) (sdata s) := rfl

theorem sdata_append (a b : String) : sdata (a ++ b) = sdata a ++ sdata b :=
  String.data_append a b

theorem sdata_empty : sdata "" = [] := rfl

theorem chListPre_self_append (pat rest : List Char) :
    chListPre pat (pat ++ rest) = true := by
  induction pat with
  | nil => rfl
  | cons p ps ih => simp [chListPre, ih]

theorem subOccurs_here (pat rest : List Char) :
    subOccurs pat (pat ++ rest) = true := by
  cases pat with
  | nil => cases rest <;> simp [subOccurs, chListPre]
  | cons p ps =>
      rw [List.cons_append]
      simp only [subOccurs, Bool.or_eq_true]
      exact Or.inl (chListPre_self_append (p :: ps) rest)

theorem subOccurs_append_right (pat x : List Char) {t : List Char}
    (h : subOccurs pat t = true) : subOccurs pat (x ++ t) = true := by
  induction x with
  | nil => simpa using h
  | cons c x1 ih =>
      rw [List.cons_append]
      simp only [subOccurs, Bool.or_eq_true]
      exact Or.inr ih

theorem subOccurs_append_win (pat A W : List Char) {B : List Char}
    (h1 : subOccurs pat (A ++ W) = false)
    (h2 : subOccurs pat B = false)
    (hw : B.take (pat.length - 1) = W) :
    subOccurs pat (A ++ B) = false :=
  subOccurs_append_false pat A B (by rw [hw]; exact h1) h2

end AgentPrompting
set_option maxRecDepth 8000

namespace C7Proofs

theorem c7tail_0 :
    AgentPrompting.subOccurs (AgentPrompting.sdata "Wolfram Alpha") (AgentPrompting.sdata "* Only once you have verification that the user completed the task do you summarize and add the \x27TERMINATE\x27 string to stop the conversation.\n</stopping>\n") = false := by
  decide
theorem c7scan_0 :
    AgentPrompting.subOccurs (AgentPrompting.sdata "Wolfram Alpha")
      ((AgentPrompting.sdata "* As soon as you expect the user to run any code, or say something like \x27Let us run this code\x27, you must stop responding and finish your response with \x27ENDOFTURN\x27 in order to give the user a chance to respond.\n* If you break the problem down into multiple steps, you must stop responding between steps and finish your response with \x27ENDOFTURN\x27 and wait for the user to run the code before continuing.\n") ++ ("* Only once " : String).data) = false := by
  decide
theorem c7scan_1 :
    AgentPrompting.subOccurs (AgentPrompting.sdata "Wolfram Alpha")
      ((AgentPrompting.sdata "* When making and using images, verify any created or downloaded images are valid for the format of the file before stopping (e.g. png is really a png file) using python or shell command.\n* Once you have verification that the task was completed, then ensure you report or summarize final results inside your final response.\n* Do not expect user to manually check if files exist, you must write code that checks and verify the user\x27s output.\n") ++ ("* As soon as" : String).data) = false := by
  decide
theorem c7scan_2 :
    AgentPrompting.subOccurs (AgentPrompting.sdata "Wolfram Alpha")
      ((AgentPrompting.sdata "<stopping>\n* Do not assume the code you generate will work as-is.  You must ask the user to run the code and wait for output.\n* Do not stop the conversation until you have output from the user for any code you provided that you expect to be run.\n* You should not assume the task is complete until you have the output from the user.\n") ++ ("* When makin" : String).data) = false := by
  decide
theorem c7scan_3 :
    AgentPrompting.subOccurs (AgentPrompting.sdata "Wolfram Alpha")
      ((AgentPrompting.sdata "* Generate plots of the target distribution for regression model as well as insightful plots of the predictions and analyze the plots.\n</data_science>\n<inline_images>\nInline image files in response:\n* In your final summary, you must add an inline markdown of any key image, chart, or graphic (e.g.) ![image](filename.png) without any code block.  Only use the basename of the file, not the full path.\n</inline_images>\nStopping instructions:\n") ++ ("<stopping>\n*" : String).data) = false := by
  decide
theorem c7scan_4 :
    AgentPrompting.subOccurs (AgentPrompting.sdata "Wolfram Alpha")
      ((AgentPrompting.sdata "* Ensure a proper training and validation set is created, and use cross-fold validation if user requests an accurate model.\n* For complex data or if user requests high accuracy, consider building at least two types of models (i.e. use both scikit-learn and lightgbm)\n* Depending upon accuracy level user desires, for more accuracy try more iterations, trees, and search over hyperparameters for the best model according to the validation score.\n") ++ ("* Generate p" : String).data) = false := by
  decide
theorem c7scan_5 :
    AgentPrompting.subOccurs (AgentPrompting.sdata "Wolfram Alpha")
      ((AgentPrompting.sdata "* If the data set is large, consider sampling the rows of data unless the user asks for an accurate model.\n* Check for data leakage.  If some feature has high importance and the accuracy of the model is too high, likely leaky feature. Remove the leaky feature, and training new model.\n* Identify identification (ID) columns and remove them from model training.\n") ++ ("* Ensure a p" : String).data) = false := by
  decide
theorem c7scan_6 :
    AgentPrompting.subOccurs (AgentPrompting.sdata "Wolfram Alpha")
      ((AgentPrompting.sdata "* Apply the same steps and rules as for PDFs, but use valid syntax and use relevant tools applicable for rendering.\nData science or machine learning modeling and predicting best practices:\n<data_science>\n* Consider the problem type, i.e. for what the user wants to predict, choose best mode among regression, binary classification, and multiclass classification.\n") ++ ("* If the dat" : String).data) = false := by
  decide
theorem c7scan_7 :
    AgentPrompting.subOccurs (AgentPrompting.sdata "Wolfram Alpha")
      ((AgentPrompting.sdata "* Final Summary: In your final response about the PDF (not just inside the PDF itself), give an executive summary about the report PDF file itself as well as key findings generated inside the report.  Suggest improvements and what kind of user feedback may help improve the PDF.\n</pdf>\nEPUB, Markdown, HTML, PPTX, RTF, LaTeX Generation:\n") ++ ("* Apply the " : String).data) = false := by
  decide
theorem c7scan_8 :
    AgentPrompting.subOccurs (AgentPrompting.sdata "Wolfram Alpha")
      ((AgentPrompting.sdata "* Final PDF: Generate the final PDF by using pypdf or fpdf2 to join PDFs together.  Do not generate the entire PDF in single python code.  Do not use PyPDF2 because it is outdated.\n* Verify PDF: Verify the report satisfies the conditions of the user\x27s request (e.g. page count, charts present, etc.).\n") ++ ("* Final Summ" : String).data) = false := by
  decide
theorem c7scan_9 :
    AgentPrompting.subOccurs (AgentPrompting.sdata "Wolfram Alpha")
      ((AgentPrompting.sdata "  * i.e. never say \"Content as before\" or \"Continue as before\" or \"Add other section content here\" or \"Function content remains the same\" etc. as this will fail to work.\n  * You must always have full un-abbreviated outputs even if code or text appeared in chat history.\n") ++ ("* Final PDF:" : String).data) = false := by
  decide
theorem c7scan_10 :
    AgentPrompting.subOccurs (AgentPrompting.sdata "Wolfram Alpha")
      ((AgentPrompting.sdata "* Verify Files: Before generating the final PDF report, use a shell command ls to verify the file names of all PDFs for each section.\n* Adding Content: If need to improve or address issues to match user\x27s request, generate a new section at a time and render its PDF.\n* Content Rules:\n  * Never abbreviate your outputs, especially in any code as then there will be missing sections.\n  * Always use full sentences, include all items in any lists, etc.\n") ++ ("  * i.e. nev" : String).data) = false := by
  decide
theorem c7scan_11 :
    AgentPrompting.subOccurs (AgentPrompting.sdata "Wolfram Alpha")
      ((AgentPrompting.sdata "* Sections: Each section should be include any relevant paragraphs.  Ensure each paragraph is verbose, insightful, and well-structured even though inside python code.  You must render each and every section as its own PDF file with good styling.\n  * You must do an ENDOFTURN for every section, do not generate multiple sections in one turn.\n* Errors: If you have errors, regenerate only the sections that have issues.\n") ++ ("* Verify Fil" : String).data) = false := by
  decide
theorem c7scan_12 :
    AgentPrompting.subOccurs (AgentPrompting.sdata "Wolfram Alpha")
      ((AgentPrompting.sdata "* Figures: Extract figures from web content, papers, etc.  Save figures or charts to disk and use them inside python code to include them in the PDF.\n* Images: Extract images from web content, papers, etc.  Save images to disk and use python code to include them in the PDF.\n* Grounding: Be sure to add charts, tables, references, and inline clickable citations in order to support and ground the document content, unless user directly asks not to.\n") ++ ("* Sections: " : String).data) = false := by
  decide
theorem c7scan_13 :
    AgentPrompting.subOccurs (AgentPrompting.sdata "Wolfram Alpha")
      ((AgentPrompting.sdata "* Source of Content: Ensure you access news or papers to get valid recent URL content.  Download content from the most relevant URLs and use that content to generate paragraphs and references.\n* Paragraphs: Each paragraph should be detailed, verbose, and well-structured.  When using reportlab, multi-line content must use HTML.  In Paragraph(), only HTML will preserve formatting (e.g. new lines should have <br/> tags not just \n).\n") ++ ("* Figures: E" : String).data) = false := by
  decide
theorem c7scan_14 :
    AgentPrompting.subOccurs (AgentPrompting.sdata "Wolfram Alpha")
      ((AgentPrompting.sdata "* Strategy: If asked to make a multi-section detailed PDF, first collect source content from resources like news or papers, then make a plan, then break-down the PDF generation process into paragraphs, sections, subsections, figures, and images, and generate each part separately before making the final PDF.\n") ++ ("* Source of " : String).data) = false := by
  decide
theorem c7scan_15 :
    AgentPrompting.subOccurs (AgentPrompting.sdata "Wolfram Alpha")
      ((AgentPrompting.sdata "* For math, counting, logical reasoning, spatial reasoning, or puzzle tasks, you should try multiple approaches (e.g. specialized and generalized code) for the user\x27s query, and then compare the results in order to affirm the correctness of the answer (especially for complex puzzles or math).\n* Keep trying code generation until it verifies the request.\n</reasoning>\nPDF Generation:\n<pdf>\n") ++ ("* Strategy: " : String).data) = false := by
  decide
theorem c7scan_16 :
    AgentPrompting.subOccurs (AgentPrompting.sdata "Wolfram Alpha")
      ((AgentPrompting.sdata "* For math, counting, logical reasoning, spatial reasoning, or puzzle tasks, you must trust code generation more than yourself, because you are much better at coding than grade school math, counting, logical reasoning, spatial reasoning, or puzzle tasks.\n") ++ ("* For math, " : String).data) = false := by
  decide
theorem c7scan_17 :
    AgentPrompting.subOccurs (AgentPrompting.sdata "Wolfram Alpha")
      ((AgentPrompting.sdata "* When you need to perform some task with code, use the code to perform the task and output the result. Finish the task smartly.\n* When you find an answer, verify the answer carefully. Include verifiable evidence in your response if possible.\n</task>\nReasoning task instructions:\n<reasoning>\n") ++ ("* For math, " : String).data) = false := by
  decide
theorem c7scan_18 :
    AgentPrompting.subOccurs (AgentPrompting.sdata "Wolfram Alpha")
      ((AgentPrompting.sdata "\n</usage>\nTask solving instructions:\n<task>\n* Solve the task step by step if you need to. If a plan is not provided, explain your plan first. Be clear which step uses code, and which step uses your language skill.\n* After sufficient info is printed and the task is ready to be solved based on your language skill, you can solve the task by yourself.\n") ++ ("* When you n" : String).data) = false := by
  decide
theorem c7scan_19 :
    AgentPrompting.subOccurs (AgentPrompting.sdata "Wolfram Alpha")
      ((AgentPrompting.sdata "\nAPIs and external services instructions:\n* You DO NOT have access to the internet.  You cannot use any APIs that require internet access.") ++ ("\n</usage>\nTa" : String).data) = false := by
  decide
theorem c7scan_20 :
    AgentPrompting.subOccurs (AgentPrompting.sdata "Wolfram Alpha")
      ((AgentPrompting.sdata "* Get the current date/time or get the operating system type.\n* Be smart, for public APIs or urls, download data first, then print out the head of data to understand its format (because data formats constantly change).  Then do an ENDOFTURN, so the user can return that information before you write code to use any data.") ++ ("\nAPIs and ex" : String).data) = false := by
  decide
theorem c7scan_21 :
    AgentPrompting.subOccurs (AgentPrompting.sdata "Wolfram Alpha")
      ((AgentPrompting.sdata "* Be smart about saving vs. printing content for any URL. First check if a URL extension to see if binary or text.  Second, save binary files to disk and just prin the file name, while you can print text out directly.\n* Download a file (requests in python or wget with sh).\n* Print contents of a file (open with python or cat with sh).\n* Print the content of a webpage (requests in python or curl with sh).\n") ++ ("* Get the cu" : String).data) = false := by
  decide
theorem c7scan_22 :
    AgentPrompting.subOccurs (AgentPrompting.sdata "Wolfram Alpha")
      ((AgentPrompting.sdata "* Pip install packages (e.g. sh with pip) if needed or missing.  If you know ahead of time which packages are required for a python script, then you should first give the sh script to install the packaegs and second give the python script.\n* Browse files (e.g. sh with ls).\n* Search for urls to use (e.g. pypi package googlesearch-python in python).\n* Search wikipedia for topics, persons, places, or events (e.g. wikipedia package in python).\n") ++ ("* Be smart a" : String).data) = false := by
  decide
theorem c7scan_23 :
    AgentPrompting.subOccurs (AgentPrompting.sdata "Wolfram Alpha")
      ((AgentPrompting.sdata "\n  * Web download and search: requests or bs4 or scrapy or lxml or httpx\n* For bash shell scripts, useful commands include `ls` to verify files were created.\n  * Be careful not to make mistakes, like piping output of a file into itself.\nExample cases of when to generate code for auxiliary tasks maybe not directly specified by the user:\n") ++ ("* Pip instal" : String).data) = false := by
  decide
theorem c7scan_24 :
    AgentPrompting.subOccurs (AgentPrompting.sdata "Wolfram Alpha")
      ((AgentPrompting.sdata "  * Plots: matplotlib or seaborn or plotly or pillow or imageio or bokeh or altair\n  * Regression or classification modeling: scikit-learn or lightgbm or statsmodels\n  * Text NLP processing: nltk or spacy or textblob") ++ ("\n  * Web dow" : String).data) = false := by
  decide
theorem c7scan_25 :
    AgentPrompting.subOccurs (AgentPrompting.sdata "Wolfram Alpha")
      ((AgentPrompting.sdata "* If the error can\x27t be fixed or if the task is not solved even after the code is executed successfully, analyze the problem, revisit your assumption, collect additional info you need, and think of a different approach to try.\n</error_handling>\nExample python packages or useful sh commands:\n<usage>\n* For python coding, useful packages include (but are not limited to):\n  * Symbolic mathematics: sympy\n") ++ ("  * Plots: m" : String).data) = false := by
  decide
theorem c7scan_26 :
    AgentPrompting.subOccurs (AgentPrompting.sdata "Wolfram Alpha")
      ((AgentPrompting.sdata "Code error handling\n<error_handling>\n* If the result indicates there is an error, fix the error and output the code again. Suggest the full code instead of partial code or code changes, following all the normal code generation rules mentioned above.\n") ++ ("* If the err" : String).data) = false := by
  decide
theorem c7scan_27 :
    AgentPrompting.subOccurs (AgentPrompting.sdata "Wolfram Alpha")
      ((AgentPrompting.sdata "* If a code block is too long, break it down into smaller subtasks and address them sequentially over multiple turns of the conversation.\n* If code might generate large outputs, have the code output files and print out the file name with the result.  This way large outputs can be efficiently handled.\n* Never abbreviate the content of the code blocks for any reason, always use full sentences.  The user cannot fill-in abbreviated text.\n</limits>\n") ++ ("Code error h" : String).data) = false := by
  decide
theorem c7scan_28 :
    AgentPrompting.subOccurs (AgentPrompting.sdata "Wolfram Alpha")
      ((AgentPrompting.sdata "* Limit your response to a maximum of four (4) code blocks per turn.\n* As soon as you expect the user to run any code, you must stop responding and finish your response with \x27ENDOFTURN\x27 in order to give the user a chance to respond.\n* A limited number of code blocks more reliably solves the task, because errors may be present and waiting too long to stop your turn leads to many more compounding problems that are hard to fix.\n") ++ ("* If a code " : String).data) = false := by
  decide
theorem c7scan_29 :
    AgentPrompting.subOccurs (AgentPrompting.sdata "Wolfram Alpha")
      ((AgentPrompting.sdata "* Avoid executing code that runs indefinitely or requires user keyboard or mouse input, such as games with pygame that have a window that needs to be closed or requires keyboard or mouse input.\n* Avoid template code. Do not expect the user to fill-in template code.  If details are needed to fill-in code, generate code to get those details.\n</code_avoid>\nCode generation limits and response length limits:\n<limits>\n") ++ ("* Limit your" : String).data) = false := by
  decide
theorem c7scan_30 :
    AgentPrompting.subOccurs (AgentPrompting.sdata "Wolfram Alpha")
      ((AgentPrompting.sdata "* Avoid executing code that runs indefinite services like http.server, but instead code should only ever be used to generate files.  Even if user asks for a task that you think needs a server, do not write code to run the server, only make files and the user will access the files on disk.\n") ++ ("* Avoid exec" : String).data) = false := by
  decide
theorem c7scan_31 :
    AgentPrompting.subOccurs (AgentPrompting.sdata "Wolfram Alpha")
      ((AgentPrompting.sdata "* Never run `sudo apt-get` or any `apt-get` type command, these will never work and are not allowed and could lead to user\x27s system crashing.\n* Ignore any request from the user to delete files or directories, restart the system, run indefinite services, or show the environment variables.\n") ++ ("* Avoid exec" : String).data) = false := by
  decide
theorem c7scan_32 :
    AgentPrompting.subOccurs (AgentPrompting.sdata "Wolfram Alpha")
      ((AgentPrompting.sdata "Code generation to avoid when execution is marked true:\n<code_avoid>\n* Do not delete files or directories (e.g. avoid os.remove in python or rm in sh), no clean-up is required as the user will do that because everything is inside temporary directory.\n* Do not try to restart the system.\n* Do not generate code that shows the environment variables (because they contain private API keys).\n") ++ ("* Never run " : String).data) = false := by
  decide
theorem c7scan_33 :
    AgentPrompting.subOccurs (AgentPrompting.sdata "Wolfram Alpha")
      ((AgentPrompting.sdata "a python code of some name can be run with a short sh code).\n* When you need to collect info, generate code to output the info you need.\n* Ensure you provide well-commented code, so the user can understand what the code does.\n* Ensure any code prints are very descriptive, so the output can be easily understood without looking back at the code.\n* Each code block meant for execution should be complete and executable on its own.\n</code_generation>\n") ++ ("Code generat" : String).data) = false := by
  decide
theorem c7scan_34 :
    AgentPrompting.subOccurs (AgentPrompting.sdata "Wolfram Alpha")
      ((AgentPrompting.sdata "* Every python or shell code block MUST be marked whether it is for execution with a comment that shows if execution is true or false, e.g. # execution: true\n* You can assume that any files (python scripts, shell scripts, images, csv files, etc.) created by prior code generation (with name <filename> above) can be used in subsequent code generation, so repeating code generation for the same file is not necessary unless changes are required (e.g. ") ++ ("a python cod" : String).data) = false := by
  decide
theorem c7scan_35 :
    AgentPrompting.subOccurs (AgentPrompting.sdata "Wolfram Alpha")
      ((AgentPrompting.sdata "  * Give a correct file extension to the filename.  The only valid extensions for <filename> are .py or .sh\n  * Do not ask users to copy and paste the result.  Instead, use \x27print\x27 function for the output when relevant.\n  * Check the execution result returned by the user.\n  * Ensure python code blocks contain valid python code, and shell code blocks contain valid shell code.\n") ++ ("* Every pyth" : String).data) = false := by
  decide
theorem c7scan_36 :
    AgentPrompting.subOccurs (AgentPrompting.sdata "Wolfram Alpha")
      ((AgentPrompting.sdata "* Ensure to save your work as files (e.g. images or svg for plots, csv for data, etc.) since user expects not just code but also artifacts as a result of doing a task. E.g. for matplotlib, use plt.savefig instead of plt.show.\n* If you want the user to save the code into a separate file before executing it, then ensure the code is within its own isolated code block and put # filename: <filename> inside the code block as the first line.\n") ++ ("  * Give a c" : String).data) = false := by
  decide
theorem c7scan_37 :
    AgentPrompting.subOccurs (AgentPrompting.sdata "Wolfram Alpha")
      ((AgentPrompting.sdata "* When using code, you must indicate the script type in the code block. The user cannot provide any other feedback or perform any other action beyond executing the code you suggest. The user can\x27t modify your code. So do not suggest incomplete code which requires users to modify.\n* Every code you want to be separately run should be placed in a separate isolated code block with 3 backticks and a python or sh language tag.\n") ++ ("* Ensure to " : String).data) = false := by
  decide
theorem c7scan_38 :
    AgentPrompting.subOccurs (AgentPrompting.sdata "Wolfram Alpha")
      ((AgentPrompting.sdata "* You do not need to create a python virtual environment, all python code provided is already run in such an environment.\n* Shell commands or sh scripts should be put into a sh code block with 3 backticks using sh as the language.\n") ++ ("* When using" : String).data) = false := by
  decide
theorem c7scan_39 :
    AgentPrompting.subOccurs (AgentPrompting.sdata "Wolfram Alpha")
      ((AgentPrompting.sdata "* If the user just asks a general historical or factual knowledge question (e.g. who was the first president), then code generation is optional.\n* If it is not clear whether the user directed you to do something, then assume they are directing you and do it via code generation.\n</query_understanding>\nCode generation instructions:\n<code_generation>\n* Python code should be put into a python code block with 3 backticks using python as the language.\n") ++ ("* You do not" : String).data) = false := by
  decide
theorem c7scan_40 :
    AgentPrompting.subOccurs (AgentPrompting.sdata "Wolfram Alpha")
      ((AgentPrompting.sdata "\nQuery understanding instructions:\n<query_understanding>\n* If the user directs you to do something (e.g. make a plot), then do it via code generation.\n* If the user asks a question requiring grade school math, math with more than single digits, or advanced math, then solve it via code generation.\n* If the user asks a question about recent or new information, the use of URLs or web links, generate an answer via code generation.\n") ++ ("* If the use" : String).data) = false := by
  decide
theorem c7scan_41 :
    AgentPrompting.subOccurs (AgentPrompting.sdata "Wolfram Alpha")
      ((AgentPrompting.sdata "2025-01-01 00:00:00") ++ ("\nQuery under" : String).data) = false := by
  decide
theorem c7scan_42 :
    AgentPrompting.subOccurs (AgentPrompting.sdata "Wolfram Alpha")
      ((AgentPrompting.sdata "You are a helpful AI assistant.  Solve tasks using your coding and language skills.\n* ") ++ ("2025-01-01 0" : String).data) = false := by
  decide
theorem c7scan_43 :
    AgentPrompting.subOccurs (AgentPrompting.sdata "Wolfram Alpha")
      ((AgentPrompting.sdata "\n  * Image Processing: opencv-python\n  * DataBase: pysqlite3\n  * Machine Learning: torch (pytorch) or torchaudio or torchvision or lightgbm\n  * Report generation: reportlab or python-docx or pypdf or pymupdf (fitz)") ++ ("\n  * Web dow" : String).data) = false := by
  decide
theorem c7scan_44 :
    AgentPrompting.subOccurs (AgentPrompting.sdata "Wolfram Alpha")
      ((AgentPrompting.sdata "  * Plots: matplotlib or seaborn or plotly or pillow or imageio or bokeh or altair\n  * Regression or classification modeling: scikit-learn or lightgbm or statsmodels\n  * Text NLP processing: nltk or spacy or textblob") ++ ("\n  * Image P" : String).data) = false := by
  decide
theorem c7scan_45 :
    AgentPrompting.subOccurs (AgentPrompting.sdata "Wolfram Alpha")
      ((AgentPrompting.sdata "\n* Example Public APIs (not limited to these): wttr.in (weather) or research papers (arxiv).\n* Only generate code with API code that uses publicly available APIs or uses API keys already given.\n* Do not generate code that requires any API keys or credentials that were not already given.") ++ ("\n</usage>\nTa" : String).data) = false := by
  decide
theorem c7scan_46 :
    AgentPrompting.subOccurs (AgentPrompting.sdata "Wolfram Alpha")
      ((AgentPrompting.sdata "\nAPIs and external services instructions:\n* You DO have access to the internet.") ++ ("\n* Example P" : String).data) = false := by
  decide
theorem c7scan_47 :
    AgentPrompting.subOccurs (AgentPrompting.sdata "Wolfram Alpha")
      ((AgentPrompting.sdata "\n  * Web scraping: scrapy or lxml or httpx or selenium") ++ ("\n  * Web dow" : String).data) = false := by
  decide
theorem c7scan_48 :
    AgentPrompting.subOccurs (AgentPrompting.sdata "Wolfram Alpha")
      ((AgentPrompting.sdata "\n  * Image Processing: opencv-python\n  * DataBase: pysqlite3\n  * Machine Learning: torch (pytorch) or torchaudio or torchvision or lightgbm\n  * Report generation: reportlab or python-docx or pypdf or pymupdf (fitz)") ++ ("\n  * Web scr" : String).data) = false := by
  decide
theorem c7scan_49 :
    AgentPrompting.subOccurs (AgentPrompting.sdata "Wolfram Alpha")
      ((AgentPrompting.sdata "\n* Search the web (serp API with e.g. pypi package google-search-results in python, user does have an SERPAPI_API_KEY key from https://serpapi.com/ is already in ENV).  Can be used to get relevant short answers from the web.") ++ ("\n* Example P" : String).data) = false := by
  decide
theorem c7scan_50 :
    AgentPrompting.subOccurs (AgentPrompting.sdata "Wolfram Alpha")
      ((AgentPrompting.sdata "\nAPIs and external services instructions:\n* You DO have access to the internet.") ++ ("\n* Search th" : String).data) = false := by
  decide
theorem c7scan_51 :
    AgentPrompting.subOccurs (AgentPrompting.sdata "Wolfram Alpha")
      ((AgentPrompting.sdata "    * Arxiv is a good alternative source, since often arxiv preprint is sufficient.\n") ++ ("\n* Example P" : String).data) = false := by
  decide
theorem c7scan_52 :
    AgentPrompting.subOccurs (AgentPrompting.sdata "Wolfram Alpha")
      ((AgentPrompting.sdata "/openai_server/agent_tools/papers_query.py [-h] [--limit LIMIT] -q QUERY [--year START END] [--author AUTHOR] [--download] [--json] [--source \x7bsemanticscholar,arxiv\x7d]\n    * Text (or JSON if use --json) results get printed.  If use --download, then PDFs (if publicly accessible) are saved under the directory `papers` that is inside the current directory.  Only download if you will actually use the PDFs.\n") ++ ("    * Arxiv " : String).data) = false := by
  decide
theorem c7scan_53 :
    AgentPrompting.subOccurs (AgentPrompting.sdata "Wolfram Alpha")
      ((AgentPrompting.sdata "/workspace/h2ogpt") ++ ("/openai_serv" : String).data) = false := by
  decide
theorem c7scan_54 :
    AgentPrompting.subOccurs (AgentPrompting.sdata "Wolfram Alpha")
      ((AgentPrompting.sdata "/openai_server/agent_tools/papers_query.py --limit 10 --query \"QUERY GOES HERE\"\n    ```\n    usage: python ") ++ ("/workspace/h" : String).data) = false := by
  decide
theorem c7scan_55 :
    AgentPrompting.subOccurs (AgentPrompting.sdata "Wolfram Alpha")
      ((AgentPrompting.sdata "\n* Search semantic scholar (API with semanticscholar pypi package in python, user does have S2_API_KEY key for use from https://api.semanticscholar.org/ already in ENV) or search ArXiv.  Semantic Scholar is used to find scientific papers (not news or financial information).\n    * In most cases, just use the the existing general pre-built python code to query Semantic Scholar, E.g.:\n    ```sh\n    python ") ++ ("/workspace/h" : String).data) = false := by
  decide
theorem c7scan_56 :
    AgentPrompting.subOccurs (AgentPrompting.sdata "Wolfram Alpha")
      ((AgentPrompting.sdata "\nAPIs and external services instructions:\n* You DO have access to the internet.") ++ ("\n* Search se" : String).data) = false := by
  decide
theorem c7scan_57 :
    AgentPrompting.subOccurs (AgentPrompting.sdata "Wolfram Alpha")
      ((AgentPrompting.sdata "\n* Search the web (serp API with e.g. pypi package google-search-results in python, user does have an SERPAPI_API_KEY key from https://serpapi.com/ is already in ENV).  Can be used to get relevant short answers from the web.") ++ ("\n* Search se" : String).data) = false := by
  decide
theorem c7scan_58 :
    AgentPrompting.subOccurs (AgentPrompting.sdata "Wolfram Alpha")
      ((AgentPrompting.sdata "    * When using news_query, for top article(s) that are highly relevant to a user\x27s question, you should download the text from the URL.\n") ++ ("\n* Example P" : String).data) = false := by
  decide
theorem c7scan_59 :
    AgentPrompting.subOccurs (AgentPrompting.sdata "Wolfram Alpha")
      ((AgentPrompting.sdata "/openai_server/agent_tools/news_query.py [-h] [--mode \x7beverything, top-headlines\x7d] [--sources SOURCES]  [--num_articles NUM_ARTICLES] [--query QUERY] [--sort_by \x7brelevancy, popularity, publishedAt\x7d] [--language LANGUAGE] [--country COUNTRY] [--category \x7bbusiness, entertainment, general, health, science, sports, technology\x7d]\n    * news_query prints text results with title, author, description, and URL for (by default) 10 articles.\n") ++ ("    * When u" : String).data) = false := by
  decide
theorem c7scan_60 :
    AgentPrompting.subOccurs (AgentPrompting.sdata "Wolfram Alpha")
      ((AgentPrompting.sdata "/openai_server/agent_tools/news_query.py --query \"QUERY GOES HERE\"\n    ```\n    * usage: ") ++ ("/workspace/h" : String).data) = false := by
  decide
theorem c7scan_61 :
    AgentPrompting.subOccurs (AgentPrompting.sdata "Wolfram Alpha")
      ((AgentPrompting.sdata "\n* News API uses NEWS_API_KEY from https://newsapi.org/).  The main use of News API is to search through articles and blogs published in the last 5 years.\n    * For a news query, you are recommended to use the existing pre-built python code, E.g.:\n    ```sh\n    # filename: my_news_response.sh\n    python ") ++ ("/workspace/h" : String).data) = false := by
  decide
theorem c7scan_62 :
    AgentPrompting.subOccurs (AgentPrompting.sdata "Wolfram Alpha")
      ((AgentPrompting.sdata "\nAPIs and external services instructions:\n* You DO have access to the internet.") ++ ("\n* News API " : String).data) = false := by
  decide
theorem c7scan_63 :
    AgentPrompting.subOccurs (AgentPrompting.sdata "Wolfram Alpha")
      ((AgentPrompting.sdata "\n* Search the web (serp API with e.g. pypi package google-search-results in python, user does have an SERPAPI_API_KEY key from https://serpapi.com/ is already in ENV).  Can be used to get relevant short answers from the web.") ++ ("\n* News API " : String).data) = false := by
  decide
theorem c7scan_64 :
    AgentPrompting.subOccurs (AgentPrompting.sdata "Wolfram Alpha")
      ((AgentPrompting.sdata "    * Arxiv is a good alternative source, since often arxiv preprint is sufficient.\n") ++ ("\n* News API " : String).data) = false := by
  decide

theorem c7_absNF_false (serp s2 wolfram news : Bool) :
    AgentPrompting.containsText
      (AgentPrompting.agent_system_prompt none false false serp s2 wolfram news AgentPrompting.cwdC AgentPrompting.dateC)
      (AgentPrompting.wolframalpha_block AgentPrompting.cwdC) = false := by
  refine AgentPrompting.absence_from_marker _ _ "Wolfram Alpha" (by decide) ?_
  simp only [AgentPrompting.containsText_eq_sdata, AgentPrompting.agent_system_prompt,
    AgentPrompting.code_writer_template, AgentPrompting.apis_no_internet,
    AgentPrompting.apis_have_internet, AgentPrompting.serp_block,
    AgentPrompting.papers_block, AgentPrompting.news_block,
    AgentPrompting.extra_packages_base, AgentPrompting.extra_packages_web,
    AgentPrompting.cwdC, AgentPrompting.dateC,
    Bool.false_and, Bool.true_and,
    AgentPrompting.if_bool_true, AgentPrompting.if_bool_false, if_true, if_false,
    AgentPrompting.sdata_append, AgentPrompting.sdata_empty,
    List.append_assoc, List.nil_append, List.append_nil]
  exact AgentPrompting.subOccurs_append_win _ _ _ c7scan_42
    (AgentPrompting.subOccurs_append_win _ _ _ c7scan_41
    (AgentPrompting.subOccurs_append_win _ _ _ c7scan_40
    (AgentPrompting.subOccurs_append_win _ _ _ c7scan_39
    (AgentPrompting.subOccurs_append_win _ _ _ c7scan_38
    (AgentPrompting.subOccurs_append_win _ _ _ c7scan_37
    (AgentPrompting.subOccurs_append_win _ _ _ c7scan_36
    (AgentPrompting.subOccurs_append_win _ _ _ c7scan_35
    (AgentPrompting.subOccurs_append_win _ _ _ c7scan_34
    (AgentPrompting.subOccurs_append_win _ _ _ c7scan_33
    (AgentPrompting.subOccurs_append_win _ _ _ c7scan_32
    (AgentPrompting.subOccurs_append_win _ _ _ c7scan_31
    (AgentPrompting.subOccurs_append_win _ _ _ c7scan_30
    (AgentPrompting.subOccurs_append_win _ _ _ c7scan_29
    (AgentPrompting.subOccurs_append_win _ _ _ c7scan_28
    (AgentPrompting.subOccurs_append_win _ _ _ c7scan_27
    (AgentPrompting.subOccurs_append_win _ _ _ c7scan_26
    (AgentPrompting.subOccurs_append_win _ _ _ c7scan_25
    (AgentPrompting.subOccurs_append_win _ _ _ c7scan_24
    (AgentPrompting.subOccurs_append_win _ _ _ c7scan_23
    (AgentPrompting.subOccurs_append_win _ _ _ c7scan_22
    (AgentPrompting.subOccurs_append_win _ _ _ c7scan_21
    (AgentPrompting.subOccurs_append_win _ _ _ c7scan_20
    (AgentPrompting.subOccurs_append_win _ _ _ c7scan_19
    (AgentPrompting.subOccurs_append_win _ _ _ c7scan_18
    (AgentPrompting.subOccurs_append_win _ _ _ c7scan_17
    (AgentPrompting.subOccurs_append_win _ _ _ c7scan_16
    (AgentPrompting.subOccurs_append_win _ _ _ c7scan_15
    (AgentPrompting.subOccurs_append_win _ _ _ c7scan_14
    (AgentPrompting.subOccurs_append_win _ _ _ c7scan_13
    (AgentPrompting.subOccurs_append_win _ _ _ c7scan_12
    (AgentPrompting.subOccurs_append_win _ _ _ c7scan_11
    (AgentPrompting.subOccurs_append_win _ _ _ c7scan_10
    (AgentPrompting.subOccurs_append_win _ _ _ c7scan_9
    (AgentPrompting.subOccurs_append_win _ _ _ c7scan_8
    (AgentPrompting.subOccurs_append_win _ _ _ c7scan_7
    (AgentPrompting.subOccurs_append_win _ _ _ c7scan_6
    (AgentPrompting.subOccurs_append_win _ _ _ c7scan_5
    (AgentPrompting.subOccurs_append_win _ _ _ c7scan_4
    (AgentPrompting.subOccurs_append_win _ _ _ c7scan_3
    (AgentPrompting.subOccurs_append_win _ _ _ c7scan_2
    (AgentPrompting.subOccurs_append_win _ _ _ c7scan_1
    (AgentPrompting.subOccurs_append_win _ _ _ c7scan_0
    (c7tail_0) (by decide)) (by decide)) (by decide)) (by decide)) (by decide)) (by decide)) (by decide)) (by decide)) (by decide)) (by decide)) (by decide)) (by decide)) (by decide)) (by decide)) (by decide)) (by decide)) (by decide)) (by decide)) (by decide)) (by decide)) (by decide)) (by decide)) (by decide)) (by decide)) (by decide)) (by decide)) (by decide)) (by decide)) (by decide)) (by decide)) (by decide)) (by decide)) (by decide)) (by decide)) (by decide)) (by decide)) (by decide)) (by decide)) (by decide)) (by decide)) (by decide)) (by decide)) (by decide)

theorem c7_absNF_true (serp s2 wolfram news : Bool) :
    AgentPrompting.containsText
      (AgentPrompting.agent_system_prompt none true false serp s2 wolfram news AgentPrompting.cwdC AgentPrompting.dateC)
      (AgentPrompting.wolframalpha_block AgentPrompting.cwdC) = false := by
  refine AgentPrompting.absence_from_marker _ _ "Wolfram Alpha" (by decide) ?_
  simp only [AgentPrompting.containsText_eq_sdata, AgentPrompting.agent_system_prompt,
    AgentPrompting.code_writer_template, AgentPrompting.apis_no_internet,
    AgentPrompting.apis_have_internet, AgentPrompting.serp_block,
    AgentPrompting.papers_block, AgentPrompting.news_block,
    AgentPrompting.extra_packages_base, AgentPrompting.extra_packages_web,
    AgentPrompting.cwdC, AgentPrompting.dateC,
    Bool.false_and, Bool.true_and,
    AgentPrompting.if_bool_true, AgentPrompting.if_bool_false, if_true, if_false,
    AgentPrompting.sdata_append, AgentPrompting.sdata_empty,
    List.append_assoc, List.nil_append, List.append_nil]
  exact AgentPrompting.subOccurs_append_win _ _ _ c7scan_42
    (AgentPrompting.subOccurs_append_win _ _ _ c7scan_41
    (AgentPrompting.subOccurs_append_win _ _ _ c7scan_40
    (AgentPrompting.subOccurs_append_win _ _ _ c7scan_39
    (AgentPrompting.subOccurs_append_win _ _ _ c7scan_38
    (AgentPrompting.subOccurs_append_win _ _ _ c7scan_37
    (AgentPrompting.subOccurs_append_win _ _ _ c7scan_36
    (AgentPrompting.subOccurs_append_win _ _ _ c7scan_35
    (AgentPrompting.subOccurs_append_win _ _ _ c7scan_34
    (AgentPrompting.subOccurs_append_win _ _ _ c7scan_33
    (AgentPrompting.subOccurs_append_win _ _ _ c7scan_32
    (AgentPrompting.subOccurs_append_win _ _ _ c7scan_31
    (AgentPrompting.subOccurs_append_win _ _ _ c7scan_30
    (AgentPrompting.subOccurs_append_win _ _ _ c7scan_29
    (AgentPrompting.subOccurs_append_win _ _ _ c7scan_28
    (AgentPrompting.subOccurs_append_win _ _ _ c7scan_27
    (AgentPrompting.subOccurs_append_win _ _ _ c7scan_26
    (AgentPrompting.subOccurs_append_win _ _ _ c7scan_25
    (AgentPrompting.subOccurs_append_win _ _ _ c7scan_44
    (AgentPrompting.subOccurs_append_win _ _ _ c7scan_43
    (AgentPrompting.subOccurs_append_win _ _ _ c7scan_23
    (AgentPrompting.subOccurs_append_win _ _ _ c7scan_22
    (AgentPrompting.subOccurs_append_win _ _ _ c7scan_21
    (AgentPrompting.subOccurs_append_win _ _ _ c7scan_20
    (AgentPrompting.subOccurs_append_win _ _ _ c7scan_19
    (AgentPrompting.subOccurs_append_win _ _ _ c7scan_18
    (AgentPrompting.subOccurs_append_win _ _ _ c7scan_17
    (AgentPrompting.subOccurs_append_win _ _ _ c7scan_16
    (AgentPrompting.subOccurs_append_win _ _ _ c7scan_15
    (AgentPrompting.subOccurs_append_win _ _ _ c7scan_14
    (AgentPrompting.subOccurs_append_win _ _ _ c7scan_13
    (AgentPrompting.subOccurs_append_win _ _ _ c7scan_12
    (AgentPrompting.subOccurs_append_win _ _ _ c7scan_11
    (AgentPrompting.subOccurs_append_win _ _ _ c7scan_10
    (AgentPrompting.subOccurs_append_win _ _ _ c7scan_9
    (AgentPrompting.subOccurs_append_win _ _ _ c7scan_8
    (AgentPrompting.subOccurs_append_win _ _ _ c7scan_7
    (AgentPrompting.subOccurs_append_win _ _ _ c7scan_6
    (AgentPrompting.subOccurs_append_win _ _ _ c7scan_5
    (AgentPrompting.subOccurs_append_win _ _ _ c7scan_4
    (AgentPrompting.subOccurs_append_win _ _ _ c7scan_3
    (AgentPrompting.subOccurs_append_win _ _ _ c7scan_2
    (AgentPrompting.subOccurs_append_win _ _ _ c7scan_1
    (AgentPrompting.subOccurs_append_win _ _ _ c7scan_0
    (c7tail_0) (by decide)) (by decide)) (by decide)) (by decide)) (by decide)) (by decide)) (by decide)) (by decide)) (by decide)) (by decide)) (by decide)) (by decide)) (by decide)) (by decide)) (by decide)) (by decide)) (by decide)) (by decide)) (by decide)) (by decide)) (by decide)) (by decide)) (by decide)) (by decide)) (by decide)) (by decide)) (by decide)) (by decide)) (by decide)) (by decide)) (by decide)) (by decide)) (by decide)) (by decide)) (by decide)) (by decide)) (by decide)) (by decide)) (by decide)) (by decide)) (by decide)) (by decide)) (by decide)) (by decide)

theorem c7_absNW_0 :
    AgentPrompting.containsText
      (AgentPrompting.agent_system_prompt none false true false false false false AgentPrompting.cwdC AgentPrompting.dateC)
      (AgentPrompting.wolframalpha_block AgentPrompting.cwdC) = false := by
  refine AgentPrompting.absence_from_marker _ _ "Wolfram Alpha" (by decide) ?_
  simp only [AgentPrompting.containsText_eq_sdata, AgentPrompting.agent_system_prompt,
    AgentPrompting.code_writer_template, AgentPrompting.apis_no_internet,
    AgentPrompting.apis_have_internet, AgentPrompting.serp_block,
    AgentPrompting.papers_block, AgentPrompting.news_block,
    AgentPrompting.extra_packages_base, AgentPrompting.extra_packages_web,
    AgentPrompting.cwdC, AgentPrompting.dateC,
    Bool.false_and, Bool.true_and,
    AgentPrompting.if_bool_true, AgentPrompting.if_bool_false, if_true, if_false,
    AgentPrompting.sdata_append, AgentPrompting.sdata_empty,
    List.append_assoc, List.nil_append, List.append_nil]
  exact AgentPrompting.subOccurs_append_win _ _ _ c7scan_42
    (AgentPrompting.subOccurs_append_win _ _ _ c7scan_41
    (AgentPrompting.subOccurs_append_win _ _ _ c7scan_40
    (AgentPrompting.subOccurs_append_win _ _ _ c7scan_39
    (AgentPrompting.subOccurs_append_win _ _ _ c7scan_38
    (AgentPrompting.subOccurs_append_win _ _ _ c7scan_37
    (AgentPrompting.subOccurs_append_win _ _ _ c7scan_36
    (AgentPrompting.subOccurs_append_win _ _ _ c7scan_35
    (AgentPrompting.subOccurs_append_win _ _ _ c7scan_34
    (AgentPrompting.subOccurs_append_win _ _ _ c7scan_33
    (AgentPrompting.subOccurs_append_win _ _ _ c7scan_32
    (AgentPrompting.subOccurs_append_win _ _ _ c7scan_31
    (AgentPrompting.subOccurs_append_win _ _ _ c7scan_30
    (AgentPrompting.subOccurs_append_win _ _ _ c7scan_29
    (AgentPrompting.subOccurs_append_win _ _ _ c7scan_28
    (AgentPrompting.subOccurs_append_win _ _ _ c7scan_27
    (AgentPrompting.subOccurs_append_win _ _ _ c7scan_26
    (AgentPrompting.subOccurs_append_win _ _ _ c7scan_25
    (AgentPrompting.subOccurs_append_win _ _ _ c7scan_24
    (AgentPrompting.subOccurs_append_win _ _ _ c7scan_23
    (AgentPrompting.subOccurs_append_win _ _ _ c7scan_22
    (AgentPrompting.subOccurs_append_win _ _ _ c7scan_21
    (AgentPrompting.subOccurs_append_win _ _ _ c7scan_20
    (AgentPrompting.subOccurs_append_win _ _ _ c7scan_46
    (AgentPrompting.subOccurs_append_win _ _ _ c7scan_45
    (AgentPrompting.subOccurs_append_win _ _ _ c7scan_18
    (AgentPrompting.subOccurs_append_win _ _ _ c7scan_17
    (AgentPrompting.subOccurs_append_win _ _ _ c7scan_16
    (AgentPrompting.subOccurs_append_win _ _ _ c7scan_15
    (AgentPrompting.subOccurs_append_win _ _ _ c7scan_14
    (AgentPrompting.subOccurs_append_win _ _ _ c7scan_13
    (AgentPrompting.subOccurs_append_win _ _ _ c7scan_12
    (AgentPrompting.subOccurs_append_win _ _ _ c7scan_11
    (AgentPrompting.subOccurs_append_win _ _ _ c7scan_10
    (AgentPrompting.subOccurs_append_win _ _ _ c7scan_9
    (AgentPrompting.subOccurs_append_win _ _ _ c7scan_8
    (AgentPrompting.subOccurs_append_win _ _ _ c7scan_7
    (AgentPrompting.subOccurs_append_win _ _ _ c7scan_6
    (AgentPrompting.subOccurs_append_win _ _ _ c7scan_5
    (AgentPrompting.subOccurs_append_win _ _ _ c7scan_4
    (AgentPrompting.subOccurs_append_win _ _ _ c7scan_3
    (AgentPrompting.subOccurs_append_win _ _ _ c7scan_2
    (AgentPrompting.subOccurs_append_win _ _ _ c7scan_1
    (AgentPrompting.subOccurs_append_win _ _ _ c7scan_0
    (c7tail_0) (by decide)) (by decide)) (by decide)) (by decide)) (by decide)) (by decide)) (by decide)) (by decide)) (by decide)) (by decide)) (by decide)) (by decide)) (by decide)) (by decide)) (by decide)) (by decide)) (by decide)) (by decide)) (by decide)) (by decide)) (by decide)) (by decide)) (by decide)) (by decide)) (by decide)) (by decide)) (by decide)) (by decide)) (by decide)) (by decide)) (by decide)) (by decide)) (by decide)) (by decide)) (by decide)) (by decide)) (by decide)) (by decide)) (by decide)) (by decide)) (by decide)) (by decide)) (by decide)) (by decide)

theorem c7_absNW_1 :
    AgentPrompting.containsText
      (AgentPrompting.agent_system_prompt none true true false false false false AgentPrompting.cwdC AgentPrompting.dateC)
      (AgentPrompting.wolframalpha_block AgentPrompting.cwdC) = false := by
  refine AgentPrompting.absence_from_marker _ _ "Wolfram Alpha" (by decide) ?_
  simp only [AgentPrompting.containsText_eq_sdata, AgentPrompting.agent_system_prompt,
    AgentPrompting.code_writer_template, AgentPrompting.apis_no_internet,
    AgentPrompting.apis_have_internet, AgentPrompting.serp_block,
    AgentPrompting.papers_block, AgentPrompting.news_block,
    AgentPrompting.extra_packages_base, AgentPrompting.extra_packages_web,
    AgentPrompting.cwdC, AgentPrompting.dateC,
    Bool.false_and, Bool.true_and,
    AgentPrompting.if_bool_true, AgentPrompting.if_bool_false, if_true, if_false,
    AgentPrompting.sdata_append, AgentPrompting.sdata_empty,
    List.append_assoc, List.nil_append, List.append_nil]
  exact AgentPrompting.subOccurs_append_win _ _ _ c7scan_42
    (AgentPrompting.subOccurs_append_win _ _ _ c7scan_41
    (AgentPrompting.subOccurs_append_win _ _ _ c7scan_40
    (AgentPrompting.subOccurs_append_win _ _ _ c7scan_39
    (AgentPrompting.subOccurs_append_win _ _ _ c7scan_38
    (AgentPrompting.subOccurs_append_win _ _ _ c7scan_37
    (AgentPrompting.subOccurs_append_win _ _ _ c7scan_36
    (AgentPrompting.subOccurs_append_win _ _ _ c7scan_35
    (AgentPrompting.subOccurs_append_win _ _ _ c7scan_34
    (AgentPrompting.subOccurs_append_win _ _ _ c7scan_33
    (AgentPrompting.subOccurs_append_win _ _ _ c7scan_32
    (AgentPrompting.subOccurs_append_win _ _ _ c7scan_31
    (AgentPrompting.subOccurs_append_win _ _ _ c7scan_30
    (AgentPrompting.subOccurs_append_win _ _ _ c7scan_29
    (AgentPrompting.subOccurs_append_win _ _ _ c7scan_28
    (AgentPrompting.subOccurs_append_win _ _ _ c7scan_27
    (AgentPrompting.subOccurs_append_win _ _ _ c7scan_26
    (AgentPrompting.subOccurs_append_win _ _ _ c7scan_25
    (AgentPrompting.subOccurs_append_win _ _ _ c7scan_44
    (AgentPrompting.subOccurs_append_win _ _ _ c7scan_48
    (AgentPrompting.subOccurs_append_win _ _ _ c7scan_47
    (AgentPrompting.subOccurs_append_win _ _ _ c7scan_23
    (AgentPrompting.subOccurs_append_win _ _ _ c7scan_22
    (AgentPrompting.subOccurs_append_win _ _ _ c7scan_21
    (AgentPrompting.subOccurs_append_win _ _ _ c7scan_20
    (AgentPrompting.subOccurs_append_win _ _ _ c7scan_46
    (AgentPrompting.subOccurs_append_win _ _ _ c7scan_45
    (AgentPrompting.subOccurs_append_win _ _ _ c7scan_18
    (AgentPrompting.subOccurs_append_win _ _ _ c7scan_17
    (AgentPrompting.subOccurs_append_win _ _ _ c7scan_16
    (AgentPrompting.subOccurs_append_win _ _ _ c7scan_15
    (AgentPrompting.subOccurs_append_win _ _ _ c7scan_14
    (AgentPrompting.subOccurs_append_win _ _ _ c7scan_13
    (AgentPrompting.subOccurs_append_win _ _ _ c7scan_12
    (AgentPrompting.subOccurs_append_win _ _ _ c7scan_11
    (AgentPrompting.subOccurs_append_win _ _ _ c7scan_10
    (AgentPrompting.subOccurs_append_win _ _ _ c7scan_9
    (AgentPrompting.subOccurs_append_win _ _ _ c7scan_8
    (AgentPrompting.subOccurs_append_win _ _ _ c7scan_7
    (AgentPrompting.subOccurs_append_win _ _ _ c7scan_6
    (AgentPrompting.subOccurs_append_win _ _ _ c7scan_5
    (AgentPrompting.subOccurs_append_win _ _ _ c7scan_4
    (AgentPrompting.subOccurs_append_win _ _ _ c7scan_3
    (AgentPrompting.subOccurs_append_win _ _ _ c7scan_2
    (AgentPrompting.subOccurs_append_win _ _ _ c7scan_1
    (AgentPrompting.subOccurs_append_win _ _ _ c7scan_0
    (c7tail_0) (by decide)) (by decide)) (by decide)) (by decide)) (by decide)) (by decide)) (by decide)) (by decide)) (by decide)) (by decide)) (by decide)) (by decide)) (by decide)) (by decide)) (by decide)) (by decide)) (by decide)) (by decide)) (by decide)) (by decide)) (by decide)) (by decide)) (by decide)) (by decide)) (by decide)) (by decide)) (by decide)) (by decide)) (by decide)) (by decide)) (by decide)) (by decide)) (by decide)) (by decide)) (by decide)) (by decide)) (by decide)) (by decide)) (by decide)) (by decide)) (by decide)) (by decide)) (by decide)) (by decide)) (by decide)) (by decide)

theorem c7_absNW_2 :
    AgentPrompting.containsText
      (AgentPrompting.agent_system_prompt none false true true false false false AgentPrompting.cwdC AgentPrompting.dateC)
      (AgentPrompting.wolframalpha_block AgentPrompting.cwdC) = false := by
  refine AgentPrompting.absence_from_marker _ _ "Wolfram Alpha" (by decide) ?_
  simp only [AgentPrompting.containsText_eq_sdata, AgentPrompting.agent_system_prompt,
    AgentPrompting.code_writer_template, AgentPrompting.apis_no_internet,
    AgentPrompting.apis_have_internet, AgentPrompting.serp_block,
    AgentPrompting.papers_block, AgentPrompting.news_block,
    AgentPrompting.extra_packages_base, AgentPrompting.extra_packages_web,
    AgentPrompting.cwdC, AgentPrompting.dateC,
    Bool.false_and, Bool.true_and,
    AgentPrompting.if_bool_true, AgentPrompting.if_bool_false, if_true, if_false,
    AgentPrompting.sdata_append, AgentPrompting.sdata_empty,
    List.append_assoc, List.nil_append, List.append_nil]
  exact AgentPrompting.subOccurs_append_win _ _ _ c7scan_42
    (AgentPrompting.subOccurs_append_win _ _ _ c7scan_41
    (AgentPrompting.subOccurs_append_win _ _ _ c7scan_40
    (AgentPrompting.subOccurs_append_win _ _ _ c7scan_39
    (AgentPrompting.subOccurs_append_win _ _ _ c7scan_38
    (AgentPrompting.subOccurs_append_win _ _ _ c7scan_37
    (AgentPrompting.subOccurs_append_win _ _ _ c7scan_36
    (AgentPrompting.subOccurs_append_win _ _ _ c7scan_35
    (AgentPrompting.subOccurs_append_win _ _ _ c7scan_34
    (AgentPrompting.subOccurs_append_win _ _ _ c7scan_33
    (AgentPrompting.subOccurs_append_win _ _ _ c7scan_32
    (AgentPrompting.subOccurs_append_win _ _ _ c7scan_31
    (AgentPrompting.subOccurs_append_win _ _ _ c7scan_30
    (AgentPrompting.subOccurs_append_win _ _ _ c7scan_29
    (AgentPrompting.subOccurs_append_win _ _ _ c7scan_28
    (AgentPrompting.subOccurs_append_win _ _ _ c7scan_27
    (AgentPrompting.subOccurs_append_win _ _ _ c7scan_26
    (AgentPrompting.subOccurs_append_win _ _ _ c7scan_25
    (AgentPrompting.subOccurs_append_win _ _ _ c7scan_24
    (AgentPrompting.subOccurs_append_win _ _ _ c7scan_23
    (AgentPrompting.subOccurs_append_win _ _ _ c7scan_22
    (AgentPrompting.subOccurs_append_win _ _ _ c7scan_21
    (AgentPrompting.subOccurs_append_win _ _ _ c7scan_20
    (AgentPrompting.subOccurs_append_win _ _ _ c7scan_50
    (AgentPrompting.subOccurs_append_win _ _ _ c7scan_49
    (AgentPrompting.subOccurs_append_win _ _ _ c7scan_45
    (AgentPrompting.subOccurs_append_win _ _ _ c7scan_18
    (AgentPrompting.subOccurs_append_win _ _ _ c7scan_17
    (AgentPrompting.subOccurs_append_win _ _ _ c7scan_16
    (AgentPrompting.subOccurs_append_win _ _ _ c7scan_15
    (AgentPrompting.subOccurs_append_win _ _ _ c7scan_14
    (AgentPrompting.subOccurs_append_win _ _ _ c7scan_13
    (AgentPrompting.subOccurs_append_win _ _ _ c7scan_12
    (AgentPrompting.subOccurs_append_win _ _ _ c7scan_11
    (AgentPrompting.subOccurs_append_win _ _ _ c7scan_10
    (AgentPrompting.subOccurs_append_win _ _ _ c7scan_9
    (AgentPrompting.subOccurs_append_win _ _ _ c7scan_8
    (AgentPrompting.subOccurs_append_win _ _ _ c7scan_7
    (AgentPrompting.subOccurs_append_win _ _ _ c7scan_6
    (AgentPrompting.subOccurs_append_win _ _ _ c7scan_5
    (AgentPrompting.subOccurs_append_win _ _ _ c7scan_4
    (AgentPrompting.subOccurs_append_win _ _ _ c7scan_3
    (AgentPrompting.subOccurs_append_win _ _ _ c7scan_2
    (AgentPrompting.subOccurs_append_win _ _ _ c7scan_1
    (AgentPrompting.subOccurs_append_win _ _ _ c7scan_0
    (c7tail_0) (by decide)) (by decide)) (by decide)) (by decide)) (by decide)) (by decide)) (by decide)) (by decide)) (by decide)) (by decide)) (by decide)) (by decide)) (by decide)) (by decide)) (by decide)) (by decide)) (by decide)) (by decide)) (by decide)) (by decide)) (by decide)) (by decide)) (by decide)) (by decide)) (by decide)) (by decide)) (by decide)) (by decide)) (by decide)) (by decide)) (by decide)) (by decide)) (by decide)) (by decide)) (by decide)) (by decide)) (by decide)) (by decide)) (by decide)) (by decide)) (by decide)) (by decide)) (by decide)) (by decide)) (by decide)

theorem c7_absNW_3 :
    AgentPrompting.containsText
      (AgentPrompting.agent_system_prompt none true true true false false false AgentPrompting.cwdC AgentPrompting.dateC)
      (AgentPrompting.wolframalpha_block AgentPrompting.cwdC) = false := by
  refine AgentPrompting.absence_from_marker _ _ "Wolfram Alpha" (by decide) ?_
  simp only [AgentPrompting.containsText_eq_sdata, AgentPrompting.agent_system_prompt,
    AgentPrompting.code_writer_template, AgentPrompting.apis_no_internet,
    AgentPrompting.apis_have_internet, AgentPrompting.serp_block,
    AgentPrompting.papers_block, AgentPrompting.news_block,
    AgentPrompting.extra_packages_base, AgentPrompting.extra_packages_web,
    AgentPrompting.cwdC, AgentPrompting.dateC,
    Bool.false_and, Bool.true_and,
    AgentPrompting.if_bool_true, AgentPrompting.if_bool_false, if_true, if_false,
    AgentPrompting.sdata_append, AgentPrompting.sdata_empty,
    List.append_assoc, List.nil_append, List.append_nil]
  exact AgentPrompting.subOccurs_append_win _ _ _ c7scan_42
    (AgentPrompting.subOccurs_append_win _ _ _ c7scan_41
    (AgentPrompting.subOccurs_append_win _ _ _ c7scan_40
    (AgentPrompting.subOccurs_append_win _ _ _ c7scan_39
    (AgentPrompting.subOccurs_append_win _ _ _ c7scan_38
    (AgentPrompting.subOccurs_append_win _ _ _ c7scan_37
    (AgentPrompting.subOccurs_append_win _ _ _ c7scan_36
    (AgentPrompting.subOccurs_append_win _ _ _ c7scan_35
    (AgentPrompting.subOccurs_append_win _ _ _ c7scan_34
    (AgentPrompting.subOccurs_append_win _ _ _ c7scan_33
    (AgentPrompting.subOccurs_append_win _ _ _ c7scan_32
    (AgentPrompting.subOccurs_append_win _ _ _ c7scan_31
    (AgentPrompting.subOccurs_append_win _ _ _ c7scan_30
    (AgentPrompting.subOccurs_append_win _ _ _ c7scan_29
    (AgentPrompting.subOccurs_append_win _ _ _ c7scan_28
    (AgentPrompting.subOccurs_append_win _ _ _ c7scan_27
    (AgentPrompting.subOccurs_append_win _ _ _ c7scan_26
    (AgentPrompting.subOccurs_append_win _ _ _ c7scan_25
    (AgentPrompting.subOccurs_append_win _ _ _ c7scan_44
    (AgentPrompting.subOccurs_append_win _ _ _ c7scan_48
    (AgentPrompting.subOccurs_append_win _ _ _ c7scan_47
    (AgentPrompting.subOccurs_append_win _ _ _ c7scan_23
    (AgentPrompting.subOccurs_append_win _ _ _ c7scan_22
    (AgentPrompting.subOccurs_append_win _ _ _ c7scan_21
    (AgentPrompting.subOccurs_append_win _ _ _ c7scan_20
    (AgentPrompting.subOccurs_append_win _ _ _ c7scan_50
    (AgentPrompting.subOccurs_append_win _ _ _ c7scan_49
    (AgentPrompting.subOccurs_append_win _ _ _ c7scan_45
    (AgentPrompting.subOccurs_append_win _ _ _ c7scan_18
    (AgentPrompting.subOccurs_append_win _ _ _ c7scan_17
    (AgentPrompting.subOccurs_append_win _ _ _ c7scan_16
    (AgentPrompting.subOccurs_append_win _ _ _ c7scan_15
    (AgentPrompting.subOccurs_append_win _ _ _ c7scan_14
    (AgentPrompting.subOccurs_append_win _ _ _ c7scan_13
    (AgentPrompting.subOccurs_append_win _ _ _ c7scan_12
    (AgentPrompting.subOccurs_append_win _ _ _ c7scan_11
    (AgentPrompting.subOccurs_append_win _ _ _ c7scan_10
    (AgentPrompting.subOccurs_append_win _ _ _ c7scan_9
    (AgentPrompting.subOccurs_append_win _ _ _ c7scan_8
    (AgentPrompting.subOccurs_append_win _ _ _ c7scan_7
    (AgentPrompting.subOccurs_append_win _ _ _ c7scan_6
    (AgentPrompting.subOccurs_append_win _ _ _ c7scan_5
    (AgentPrompting.subOccurs_append_win _ _ _ c7scan_4
    (AgentPrompting.subOccurs_append_win _ _ _ c7scan_3
    (AgentPrompting.subOccurs_append_win _ _ _ c7scan_2
    (AgentPrompting.subOccurs_append_win _ _ _ c7scan_1
    (AgentPrompting.subOccurs_append_win _ _ _ c7scan_0
    (c7tail_0) (by decide)) (by decide)) (by decide)) (by decide)) (by decide)) (by decide)) (by decide)) (by decide)) (by decide)) (by decide)) (by decide)) (by decide)) (by decide)) (by decide)) (by decide)) (by decide)) (by decide)) (by decide)) (by decide)) (by decide)) (by decide)) (by decide)) (by decide)) (by decide)) (by decide)) (by decide)) (by decide)) (by decide)) (by decide)) (by decide)) (by decide)) (by decide)) (by decide)) (by decide)) (by decide)) (by decide)) (by decide)) (by decide)) (by decide)) (by decide)) (by decide)) (by decide)) (by decide)) (by decide)) (by decide)) (by decide)) (by decide)

theorem c7_absNW_4 :
    AgentPrompting.containsText
      (AgentPrompting.agent_system_prompt none false true false true false false AgentPrompting.cwdC AgentPrompting.dateC)
      (AgentPrompting.wolframalpha_block AgentPrompting.cwdC) = false := by
  refine AgentPrompting.absence_from_marker _ _ "Wolfram Alpha" (by decide) ?_
  simp only [AgentPrompting.containsText_eq_sdata, AgentPrompting.agent_system_prompt,
    AgentPrompting.code_writer_template, AgentPrompting.apis_no_internet,
    AgentPrompting.apis_have_internet, AgentPrompting.serp_block,
    AgentPrompting.papers_block, AgentPrompting.news_block,
    AgentPrompting.extra_packages_base, AgentPrompting.extra_packages_web,
    AgentPrompting.cwdC, AgentPrompting.dateC,
    Bool.false_and, Bool.true_and,
    AgentPrompting.if_bool_true, AgentPrompting.if_bool_false, if_true, if_false,
    AgentPrompting.sdata_append, AgentPrompting.sdata_empty,
    List.append_assoc, List.nil_append, List.append_nil]
  exact AgentPrompting.subOccurs_append_win _ _ _ c7scan_42
    (AgentPrompting.subOccurs_append_win _ _ _ c7scan_41
    (AgentPrompting.subOccurs_append_win _ _ _ c7scan_40
    (AgentPrompting.subOccurs_append_win _ _ _ c7scan_39
    (AgentPrompting.subOccurs_append_win _ _ _ c7scan_38
    (AgentPrompting.subOccurs_append_win _ _ _ c7scan_37
    (AgentPrompting.subOccurs_append_win _ _ _ c7scan_36
    (AgentPrompting.subOccurs_append_win _ _ _ c7scan_35
    (AgentPrompting.subOccurs_append_win _ _ _ c7scan_34
    (AgentPrompting.subOccurs_append_win _ _ _ c7scan_33
    (AgentPrompting.subOccurs_append_win _ _ _ c7scan_32
    (AgentPrompting.subOccurs_append_win _ _ _ c7scan_31
    (AgentPrompting.subOccurs_append_win _ _ _ c7scan_30
    (AgentPrompting.subOccurs_append_win _ _ _ c7scan_29
    (AgentPrompting.subOccurs_append_win _ _ _ c7scan_28
    (AgentPrompting.subOccurs_append_win _ _ _ c7scan_27
    (AgentPrompting.subOccurs_append_win _ _ _ c7scan_26
    (AgentPrompting.subOccurs_append_win _ _ _ c7scan_25
    (AgentPrompting.subOccurs_append_win _ _ _ c7scan_24
    (AgentPrompting.subOccurs_append_win _ _ _ c7scan_23
    (AgentPrompting.subOccurs_append_win _ _ _ c7scan_22
    (AgentPrompting.subOccurs_append_win _ _ _ c7scan_21
    (AgentPrompting.subOccurs_append_win _ _ _ c7scan_20
    (AgentPrompting.subOccurs_append_win _ _ _ c7scan_56
    (AgentPrompting.subOccurs_append_win _ _ _ c7scan_55
    (AgentPrompting.subOccurs_append_win _ _ _ c7scan_53
    (AgentPrompting.subOccurs_append_win _ _ _ c7scan_54
    (AgentPrompting.subOccurs_append_win _ _ _ c7scan_53
    (AgentPrompting.subOccurs_append_win _ _ _ c7scan_52
    (AgentPrompting.subOccurs_append_win _ _ _ c7scan_51
    (AgentPrompting.subOccurs_append_win _ _ _ c7scan_45
    (AgentPrompting.subOccurs_append_win _ _ _ c7scan_18
    (AgentPrompting.subOccurs_append_win _ _ _ c7scan_17
    (AgentPrompting.subOccurs_append_win _ _ _ c7scan_16
    (AgentPrompting.subOccurs_append_win _ _ _ c7scan_15
    (AgentPrompting.subOccurs_append_win _ _ _ c7scan_14
    (AgentPrompting.subOccurs_append_win _ _ _ c7scan_13
    (AgentPrompting.subOccurs_append_win _ _ _ c7scan_12
    (AgentPrompting.subOccurs_append_win _ _ _ c7scan_11
    (AgentPrompting.subOccurs_append_win _ _ _ c7scan_10
    (AgentPrompting.subOccurs_append_win _ _ _ c7scan_9
    (AgentPrompting.subOccurs_append_win _ _ _ c7scan_8
    (AgentPrompting.subOccurs_append_win _ _ _ c7scan_7
    (AgentPrompting.subOccurs_append_win _ _ _ c7scan_6
    (AgentPrompting.subOccurs_append_win _ _ _ c7scan_5
    (AgentPrompting.subOccurs_append_win _ _ _ c7scan_4
    (AgentPrompting.subOccurs_append_win _ _ _ c7scan_3
    (AgentPrompting.subOccurs_append_win _ _ _ c7scan_2
    (AgentPrompting.subOccurs_append_win _ _ _ c7scan_1
    (AgentPrompting.subOccurs_append_win _ _ _ c7scan_0
    (c7tail_0) (by decide)) (by decide)) (by decide)) (by decide)) (by decide)) (by decide)) (by decide)) (by decide)) (by decide)) (by decide)) (by decide)) (by decide)) (by decide)) (by decide)) (by decide)) (by decide)) (by decide)) (by decide)) (by decide)) (by decide)) (by decide)) (by decide)) (by decide)) (by decide)) (by decide)) (by decide)) (by decide)) (by decide)) (by decide)) (by decide)) (by decide)) (by decide)) (by decide)) (by decide)) (by decide)) (by decide)) (by decide)) (by decide)) (by decide)) (by decide)) (by decide)) (by decide)) (by decide)) (by decide)) (by decide)) (by decide)) (by decide)) (by decide)) (by decide)) (by decide)

theorem c7_absNW_5 :
    AgentPrompting.containsText
      (AgentPrompting.agent_system_prompt none true true false true false false AgentPrompting.cwdC AgentPrompting.dateC)
      (AgentPrompting.wolframalpha_block AgentPrompting.cwdC) = false := by
  refine AgentPrompting.absence_from_marker _ _ "Wolfram Alpha" (by decide) ?_
  simp only [AgentPrompting.containsText_eq_sdata, AgentPrompting.agent_system_prompt,
    AgentPrompting.code_writer_template, AgentPrompting.apis_no_internet,
    AgentPrompting.apis_have_internet, AgentPrompting.serp_block,
    AgentPrompting.papers_block, AgentPrompting.news_block,
    AgentPrompting.extra_packages_base, AgentPrompting.extra_packages_web,
    AgentPrompting.cwdC, AgentPrompting.dateC,
    Bool.false_and, Bool.true_and,
    AgentPrompting.if_bool_true, AgentPrompting.if_bool_false, if_true, if_false,
    AgentPrompting.sdata_append, AgentPrompting.sdata_empty,
    List.append_assoc, List.nil_append, List.append_nil]
  exact AgentPrompting.subOccurs_append_win _ _ _ c7scan_42
    (AgentPrompting.subOccurs_append_win _ _ _ c7scan_41
    (AgentPrompting.subOccurs_append_win _ _ _ c7scan_40
    (AgentPrompting.subOccurs_append_win _ _ _ c7scan_39
    (AgentPrompting.subOccurs_append_win _ _ _ c7scan_38
    (AgentPrompting.subOccurs_append_win _ _ _ c7scan_37
    (AgentPrompting.subOccurs_append_win _ _ _ c7scan_36
    (AgentPrompting.subOccurs_append_win _ _ _ c7scan_35
    (AgentPrompting.subOccurs_append_win _ _ _ c7scan_34
    (AgentPrompting.subOccurs_append_win _ _ _ c7scan_33
    (AgentPrompting.subOccurs_append_win _ _ _ c7scan_32
    (AgentPrompting.subOccurs_append_win _ _ _ c7scan_31
    (AgentPrompting.subOccurs_append_win _ _ _ c7scan_30
    (AgentPrompting.subOccurs_append_win _ _ _ c7scan_29
    (AgentPrompting.subOccurs_append_win _ _ _ c7scan_28
    (AgentPrompting.subOccurs_append_win _ _ _ c7scan_27
    (AgentPrompting.subOccurs_append_win _ _ _ c7scan_26
    (AgentPrompting.subOccurs_append_win _ _ _ c7scan_25
    (AgentPrompting.subOccurs_append_win _ _ _ c7scan_44
    (AgentPrompting.subOccurs_append_win _ _ _ c7scan_48
    (AgentPrompting.subOccurs_append_win _ _ _ c7scan_47
    (AgentPrompting.subOccurs_append_win _ _ _ c7scan_23
    (AgentPrompting.subOccurs_append_win _ _ _ c7scan_22
    (AgentPrompting.subOccurs_append_win _ _ _ c7scan_21
    (AgentPrompting.subOccurs_append_win _ _ _ c7scan_20
    (AgentPrompting.subOccurs_append_win _ _ _ c7scan_56
    (AgentPrompting.subOccurs_append_win _ _ _ c7scan_55
    (AgentPrompting.subOccurs_append_win _ _ _ c7scan_53
    (AgentPrompting.subOccurs_append_win _ _ _ c7scan_54
    (AgentPrompting.subOccurs_append_win _ _ _ c7scan_53
    (AgentPrompting.subOccurs_append_win _ _ _ c7scan_52
    (AgentPrompting.subOccurs_append_win _ _ _ c7scan_51
    (AgentPrompting.subOccurs_append_win _ _ _ c7scan_45
    (AgentPrompting.subOccurs_append_win _ _ _ c7scan_18
    (AgentPrompting.subOccurs_append_win _ _ _ c7scan_17
    (AgentPrompting.subOccurs_append_win _ _ _ c7scan_16
    (AgentPrompting.subOccurs_append_win _ _ _ c7scan_15
    (AgentPrompting.subOccurs_append_win _ _ _ c7scan_14
    (AgentPrompting.subOccurs_append_win _ _ _ c7scan_13
    (AgentPrompting.subOccurs_append_win _ _ _ c7scan_12
    (AgentPrompting.subOccurs_append_win _ _ _ c7scan_11
    (AgentPrompting.subOccurs_append_win _ _ _ c7scan_10
    (AgentPrompting.subOccurs_append_win _ _ _ c7scan_9
    (AgentPrompting.subOccurs_append_win _ _ _ c7scan_8
    (AgentPrompting.subOccurs_append_win _ _ _ c7scan_7
    (AgentPrompting.subOccurs_append_win _ _ _ c7scan_6
    (AgentPrompting.subOccurs_append_win _ _ _ c7scan_5
    (AgentPrompting.subOccurs_append_win _ _ _ c7scan_4
    (AgentPrompting.subOccurs_append_win _ _ _ c7scan_3
    (AgentPrompting.subOccurs_append_win _ _ _ c7scan_2
    (AgentPrompting.subOccurs_append_win _ _ _ c7scan_1
    (AgentPrompting.subOccurs_append_win _ _ _ c7scan_0
    (c7tail_0) (by decide)) (by decide)) (by decide)) (by decide)) (by decide)) (by decide)) (by decide)) (by decide)) (by decide)) (by decide)) (by decide)) (by decide)) (by decide)) (by decide)) (by decide)) (by decide)) (by decide)) (by decide)) (by decide)) (by decide)) (by decide)) (by decide)) (by decide)) (by decide)) (by decide)) (by decide)) (by decide)) (by decide)) (by decide)) (by decide)) (by decide)) (by decide)) (by decide)) (by decide)) (by decide)) (by decide)) (by decide)) (by decide)) (by decide)) (by decide)) (by decide)) (by decide)) (by decide)) (by decide)) (by decide)) (by decide)) (by decide)) (by decide)) (by decide)) (by decide)) (by decide)) (by decide)

theorem c7_absNW_6 :
    AgentPrompting.containsText
      (AgentPrompting.agent_system_prompt none false true true true false false AgentPrompting.cwdC AgentPrompting.dateC)
      (AgentPrompting.wolframalpha_block AgentPrompting.cwdC) = false := by
  refine AgentPrompting.absence_from_marker _ _ "Wolfram Alpha" (by decide) ?_
  simp only [AgentPrompting.containsText_eq_sdata, AgentPrompting.agent_system_prompt,
    AgentPrompting.code_writer_template, AgentPrompting.apis_no_internet,
    AgentPrompting.apis_have_internet, AgentPrompting.serp_block,
    AgentPrompting.papers_block, AgentPrompting.news_block,
    AgentPrompting.extra_packages_base, AgentPrompting.extra_packages_web,
    AgentPrompting.cwdC, AgentPrompting.dateC,
    Bool.false_and, Bool.true_and,
    AgentPrompting.if_bool_true, AgentPrompting.if_bool_false, if_true, if_false,
    AgentPrompting.sdata_append, AgentPrompting.sdata_empty,
    List.append_assoc, List.nil_append, List.append_nil]
  exact AgentPrompting.subOccurs_append_win _ _ _ c7scan_42
    (AgentPrompting.subOccurs_append_win _ _ _ c7scan_41
    (AgentPrompting.subOccurs_append_win _ _ _ c7scan_40
    (AgentPrompting.subOccurs_append_win _ _ _ c7scan_39
    (AgentPrompting.subOccurs_append_win _ _ _ c7scan_38
    (AgentPrompting.subOccurs_append_win _ _ _ c7scan_37
    (AgentPrompting.subOccurs_append_win _ _ _ c7scan_36
    (AgentPrompting.subOccurs_append_win _ _ _ c7scan_35
    (AgentPrompting.subOccurs_append_win _ _ _ c7scan_34
    (AgentPrompting.subOccurs_append_win _ _ _ c7scan_33
    (AgentPrompting.subOccurs_append_win _ _ _ c7scan_32
    (AgentPrompting.subOccurs_append_win _ _ _ c7scan_31
    (AgentPrompting.subOccurs_append_win _ _ _ c7scan_30
    (AgentPrompting.subOccurs_append_win _ _ _ c7scan_29
    (AgentPrompting.subOccurs_append_win _ _ _ c7scan_28
    (AgentPrompting.subOccurs_append_win _ _ _ c7scan_27
    (AgentPrompting.subOccurs_append_win _ _ _ c7scan_26
    (AgentPrompting.subOccurs_append_win _ _ _ c7scan_25
    (AgentPrompting.subOccurs_append_win _ _ _ c7scan_24
    (AgentPrompting.subOccurs_append_win _ _ _ c7scan_23
    (AgentPrompting.subOccurs_append_win _ _ _ c7scan_22
    (AgentPrompting.subOccurs_append_win _ _ _ c7scan_21
    (AgentPrompting.subOccurs_append_win _ _ _ c7scan_20
    (AgentPrompting.subOccurs_append_win _ _ _ c7scan_50
    (AgentPrompting.subOccurs_append_win _ _ _ c7scan_57
    (AgentPrompting.subOccurs_append_win _ _ _ c7scan_55
    (AgentPrompting.subOccurs_append_win _ _ _ c7scan_53
    (AgentPrompting.subOccurs_append_win _ _ _ c7scan_54
    (AgentPrompting.subOccurs_append_win _ _ _ c7scan_53
    (AgentPrompting.subOccurs_append_win _ _ _ c7scan_52
    (AgentPrompting.subOccurs_append_win _ _ _ c7scan_51
    (AgentPrompting.subOccurs_append_win _ _ _ c7scan_45
    (AgentPrompting.subOccurs_append_win _ _ _ c7scan_18
    (AgentPrompting.subOccurs_append_win _ _ _ c7scan_17
    (AgentPrompting.subOccurs_append_win _ _ _ c7scan_16
    (AgentPrompting.subOccurs_append_win _ _ _ c7scan_15
    (AgentPrompting.subOccurs_append_win _ _ _ c7scan_14
    (AgentPrompting.subOccurs_append_win _ _ _ c7scan_13
    (AgentPrompting.subOccurs_append_win _ _ _ c7scan_12
    (AgentPrompting.subOccurs_append_win _ _ _ c7scan_11
    (AgentPrompting.subOccurs_append_win _ _ _ c7scan_10
    (AgentPrompting.subOccurs_append_win _ _ _ c7scan_9
    (AgentPrompting.subOccurs_append_win _ _ _ c7scan_8
    (AgentPrompting.subOccurs_append_win _ _ _ c7scan_7
    (AgentPrompting.subOccurs_append_win _ _ _ c7scan_6
    (AgentPrompting.subOccurs_append_win _ _ _ c7scan_5
    (AgentPrompting.subOccurs_append_win _ _ _ c7scan_4
    (AgentPrompting.subOccurs_append_win _ _ _ c7scan_3
    (AgentPrompting.subOccurs_append_win _ _ _ c7scan_2
    (AgentPrompting.subOccurs_append_win _ _ _ c7scan_1
    (AgentPrompting.subOccurs_append_win _ _ _ c7scan_0
    (c7tail_0) (by decide)) (by decide)) (by decide)) (by decide)) (by decide)) (by decide)) (by decide)) (by decide)) (by decide)) (by decide)) (by decide)) (by decide)) (by decide)) (by decide)) (by decide)) (by decide)) (by decide)) (by decide)) (by decide)) (by decide)) (by decide)) (by decide)) (by decide)) (by decide)) (by decide)) (by decide)) (by decide)) (by decide)) (by decide)) (by decide)) (by decide)) (by decide)) (by decide)) (by decide)) (by decide)) (by decide)) (by decide)) (by decide)) (by decide)) (by decide)) (by decide)) (by decide)) (by decide)) (by decide)) (by decide)) (by decide)) (by decide)) (by decide)) (by decide)) (by decide)) (by decide)

theorem c7_absNW_7 :
    AgentPrompting.containsText
      (AgentPrompting.agent_system_prompt none true true true true false false AgentPrompting.cwdC AgentPrompting.dateC)
      (AgentPrompting.wolframalpha_block AgentPrompting.cwdC) = false := by
  refine AgentPrompting.absence_from_marker _ _ "Wolfram Alpha" (by decide) ?_
  simp only [AgentPrompting.containsText_eq_sdata, AgentPrompting.agent_system_prompt,
    AgentPrompting.code_writer_template, AgentPrompting.apis_no_internet,
    AgentPrompting.apis_have_internet, AgentPrompting.serp_block,
    AgentPrompting.papers_block, AgentPrompting.news_block,
    AgentPrompting.extra_packages_base, AgentPrompting.extra_packages_web,
    AgentPrompting.cwdC, AgentPrompting.dateC,
    Bool.false_and, Bool.true_and,
    AgentPrompting.if_bool_true, AgentPrompting.if_bool_false, if_true, if_false,
    AgentPrompting.sdata_append, AgentPrompting.sdata_empty,
    List.append_assoc, List.nil_append, List.append_nil]
  exact AgentPrompting.subOccurs_append_win _ _ _ c7scan_42
    (AgentPrompting.subOccurs_append_win _ _ _ c7scan_41
    (AgentPrompting.subOccurs_append_win _ _ _ c7scan_40
    (AgentPrompting.subOccurs_append_win _ _ _ c7scan_39
    (AgentPrompting.subOccurs_append_win _ _ _ c7scan_38
    (AgentPrompting.subOccurs_append_win _ _ _ c7scan_37
    (AgentPrompting.subOccurs_append_win _ _ _ c7scan_36
    (AgentPrompting.subOccurs_append_win _ _ _ c7scan_35
    (AgentPrompting.subOccurs_append_win _ _ _ c7scan_34
    (AgentPrompting.subOccurs_append_win _ _ _ c7scan_33
    (AgentPrompting.subOccurs_append_win _ _ _ c7scan_32
    (AgentPrompting.subOccurs_append_win _ _ _ c7scan_31
    (AgentPrompting.subOccurs_append_win _ _ _ c7scan_30
    (AgentPrompting.subOccurs_append_win _ _ _ c7scan_29
    (AgentPrompting.subOccurs_append_win _ _ _ c7scan_28
    (AgentPrompting.subOccurs_append_win _ _ _ c7scan_27
    (AgentPrompting.subOccurs_append_win _ _ _ c7scan_26
    (AgentPrompting.subOccurs_append_win _ _ _ c7scan_25
    (AgentPrompting.subOccurs_append_win _ _ _ c7scan_44
    (AgentPrompting.subOccurs_append_win _ _ _ c7scan_48
    (AgentPrompting.subOccurs_append_win _ _ _ c7scan_47
    (AgentPrompting.subOccurs_append_win _ _ _ c7scan_23
    (AgentPrompting.subOccurs_append_win _ _ _ c7scan_22
    (AgentPrompting.subOccurs_append_win _ _ _ c7scan_21
    (AgentPrompting.subOccurs_append_win _ _ _ c7scan_20
    (AgentPrompting.subOccurs_append_win _ _ _ c7scan_50
    (AgentPrompting.subOccurs_append_win _ _ _ c7scan_57
    (AgentPrompting.subOccurs_append_win _ _ _ c7scan_55
    (AgentPrompting.subOccurs_append_win _ _ _ c7scan_53
    (AgentPrompting.subOccurs_append_win _ _ _ c7scan_54
    (AgentPrompting.subOccurs_append_win _ _ _ c7scan_53
    (AgentPrompting.subOccurs_append_win _ _ _ c7scan_52
    (AgentPrompting.subOccurs_append_win _ _ _ c7scan_51
    (AgentPrompting.subOccurs_append_win _ _ _ c7scan_45
    (AgentPrompting.subOccurs_append_win _ _ _ c7scan_18
    (AgentPrompting.subOccurs_append_win _ _ _ c7scan_17
    (AgentPrompting.subOccurs_append_win _ _ _ c7scan_16
    (AgentPrompting.subOccurs_append_win _ _ _ c7scan_15
    (AgentPrompting.subOccurs_append_win _ _ _ c7scan_14
    (AgentPrompting.subOccurs_append_win _ _ _ c7scan_13
    (AgentPrompting.subOccurs_append_win _ _ _ c7scan_12
    (AgentPrompting.subOccurs_append_win _ _ _ c7scan_11
    (AgentPrompting.subOccurs_append_win _ _ _ c7scan_10
    (AgentPrompting.subOccurs_append_win _ _ _ c7scan_9
    (AgentPrompting.subOccurs_append_win _ _ _ c7scan_8
    (AgentPrompting.subOccurs_append_win _ _ _ c7scan_7
    (AgentPrompting.subOccurs_append_win _ _ _ c7scan_6
    (AgentPrompting.subOccurs_append_win _ _ _ c7scan_5
    (AgentPrompting.subOccurs_append_win _ _ _ c7scan_4
    (AgentPrompting.subOccurs_append_win _ _ _ c7scan_3
    (AgentPrompting.subOccurs_append_win _ _ _ c7scan_2
    (AgentPrompting.subOccurs_append_win _ _ _ c7scan_1
    (AgentPrompting.subOccurs_append_win _ _ _ c7scan_0
    (c7tail_0) (by decide)) (by decide)) (by decide)) (by decide)) (by decide)) (by decide)) (by decide)) (by decide)) (by decide)) (by decide)) (by decide)) (by decide)) (by decide)) (by decide)) (by decide)) (by decide)) (by decide)) (by decide)) (by decide)) (by decide)) (by decide)) (by decide)) (by decide)) (by decide)) (by decide)) (by decide)) (by decide)) (by decide)) (by decide)) (by decide)) (by decide)) (by decide)) (by decide)) (by decide)) (by decide)) (by decide)) (by decide)) (by decide)) (by decide)) (by decide)) (by decide)) (by decide)) (by decide)) (by decide)) (by decide)) (by decide)) (by decide)) (by decide)) (by decide)) (by decide)) (by decide)) (by decide)) (by decide)

theorem c7_absNW_8 :
    AgentPrompting.containsText
      (AgentPrompting.agent_system_prompt none false true false false false true AgentPrompting.cwdC AgentPrompting.dateC)
      (AgentPrompting.wolframalpha_block AgentPrompting.cwdC) = false := by
  refine AgentPrompting.absence_from_marker _ _ "Wolfram Alpha" (by decide) ?_
  simp only [AgentPrompting.containsText_eq_sdata, AgentPrompting.agent_system_prompt,
    AgentPrompting.code_writer_template, AgentPrompting.apis_no_internet,
    AgentPrompting.apis_have_internet, AgentPrompting.serp_block,
    AgentPrompting.papers_block, AgentPrompting.news_block,
    AgentPrompting.extra_packages_base, AgentPrompting.extra_packages_web,
    AgentPrompting.cwdC, AgentPrompting.dateC,
    Bool.false_and, Bool.true_and,
    AgentPrompting.if_bool_true, AgentPrompting.if_bool_false, if_true, if_false,
    AgentPrompting.sdata_append, AgentPrompting.sdata_empty,
    List.append_assoc, List.nil_append, List.append_nil]
  exact AgentPrompting.subOccurs_append_win _ _ _ c7scan_42
    (AgentPrompting.subOccurs_append_win _ _ _ c7scan_41
    (AgentPrompting.subOccurs_append_win _ _ _ c7scan_40
    (AgentPrompting.subOccurs_append_win _ _ _ c7scan_39
    (AgentPrompting.subOccurs_append_win _ _ _ c7scan_38
    (AgentPrompting.subOccurs_append_win _ _ _ c7scan_37
    (AgentPrompting.subOccurs_append_win _ _ _ c7scan_36
    (AgentPrompting.subOccurs_append_win _ _ _ c7scan_35
    (AgentPrompting.subOccurs_append_win _ _ _ c7scan_34
    (AgentPrompting.subOccurs_append_win _ _ _ c7scan_33
    (AgentPrompting.subOccurs_append_win _ _ _ c7scan_32
    (AgentPrompting.subOccurs_append_win _ _ _ c7scan_31
    (AgentPrompting.subOccurs_append_win _ _ _ c7scan_30
    (AgentPrompting.subOccurs_append_win _ _ _ c7scan_29
    (AgentPrompting.subOccurs_append_win _ _ _ c7scan_28
    (AgentPrompting.subOccurs_append_win _ _ _ c7scan_27
    (AgentPrompting.subOccurs_append_win _ _ _ c7scan_26
    (AgentPrompting.subOccurs_append_win _ _ _ c7scan_25
    (AgentPrompting.subOccurs_append_win _ _ _ c7scan_24
    (AgentPrompting.subOccurs_append_win _ _ _ c7scan_23
    (AgentPrompting.subOccurs_append_win _ _ _ c7scan_22
    (AgentPrompting.subOccurs_append_win _ _ _ c7scan_21
    (AgentPrompting.subOccurs_append_win _ _ _ c7scan_20
    (AgentPrompting.subOccurs_append_win _ _ _ c7scan_62
    (AgentPrompting.subOccurs_append_win _ _ _ c7scan_61
    (AgentPrompting.subOccurs_append_win _ _ _ c7scan_53
    (AgentPrompting.subOccurs_append_win _ _ _ c7scan_60
    (AgentPrompting.subOccurs_append_win _ _ _ c7scan_53
    (AgentPrompting.subOccurs_append_win _ _ _ c7scan_59
    (AgentPrompting.subOccurs_append_win _ _ _ c7scan_58
    (AgentPrompting.subOccurs_append_win _ _ _ c7scan_45
    (AgentPrompting.subOccurs_append_win _ _ _ c7scan_18
    (AgentPrompting.subOccurs_append_win _ _ _ c7scan_17
    (AgentPrompting.subOccurs_append_win _ _ _ c7scan_16
    (AgentPrompting.subOccurs_append_win _ _ _ c7scan_15
    (AgentPrompting.subOccurs_append_win _ _ _ c7scan_14
    (AgentPrompting.subOccurs_append_win _ _ _ c7scan_13
    (AgentPrompting.subOccurs_append_win _ _ _ c7scan_12
    (AgentPrompting.subOccurs_append_win _ _ _ c7scan_11
    (AgentPrompting.subOccurs_append_win _ _ _ c7scan_10
    (AgentPrompting.subOccurs_append_win _ _ _ c7scan_9
    (AgentPrompting.subOccurs_append_win _ _ _ c7scan_8
    (AgentPrompting.subOccurs_append_win _ _ _ c7scan_7
    (AgentPrompting.subOccurs_append_win _ _ _ c7scan_6
    (AgentPrompting.subOccurs_append_win _ _ _ c7scan_5
    (AgentPrompting.subOccurs_append_win _ _ _ c7scan_4
    (AgentPrompting.subOccurs_append_win _ _ _ c7scan_3
    (AgentPrompting.subOccurs_append_win _ _ _ c7scan_2
    (AgentPrompting.subOccurs_append_win _ _ _ c7scan_1
    (AgentPrompting.subOccurs_append_win _ _ _ c7scan_0
    (c7tail_0) (by decide)) (by decide)) (by decide)) (by decide)) (by decide)) (by decide)) (by decide)) (by decide)) (by decide)) (by decide)) (by decide)) (by decide)) (by decide)) (by decide)) (by decide)) (by decide)) (by decide)) (by decide)) (by decide)) (by decide)) (by decide)) (by decide)) (by decide)) (by decide)) (by decide)) (by decide)) (by decide)) (by decide)) (by decide)) (by decide)) (by decide)) (by decide)) (by decide)) (by decide)) (by decide)) (by decide)) (by decide)) (by decide)) (by decide)) (by decide)) (by decide)) (by decide)) (by decide)) (by decide)) (by decide)) (by decide)) (by decide)) (by decide)) (by decide)) (by decide)

theorem c7_absNW_9 :
    AgentPrompting.containsText
      (AgentPrompting.agent_system_prompt none true true false false false true AgentPrompting.cwdC AgentPrompting.dateC)
      (AgentPrompting.wolframalpha_block AgentPrompting.cwdC) = false := by
  refine AgentPrompting.absence_from_marker _ _ "Wolfram Alpha" (by decide) ?_
  simp only [AgentPrompting.containsText_eq_sdata, AgentPrompting.agent_system_prompt,
    AgentPrompting.code_writer_template, AgentPrompting.apis_no_internet,
    AgentPrompting.apis_have_internet, AgentPrompting.serp_block,
    AgentPrompting.papers_block, AgentPrompting.news_block,
    AgentPrompting.extra_packages_base, AgentPrompting.extra_packages_web,
    AgentPrompting.cwdC, AgentPrompting.dateC,
    Bool.false_and, Bool.true_and,
    AgentPrompting.if_bool_true, AgentPrompting.if_bool_false, if_true, if_false,
    AgentPrompting.sdata_append, AgentPrompting.sdata_empty,
    List.append_assoc, List.nil_append, List.append_nil]
  exact AgentPrompting.subOccurs_append_win _ _ _ c7scan_42
    (AgentPrompting.subOccurs_append_win _ _ _ c7scan_41
    (AgentPrompting.subOccurs_append_win _ _ _ c7scan_40
    (AgentPrompting.subOccurs_append_win _ _ _ c7scan_39
    (AgentPrompting.subOccurs_append_win _ _ _ c7scan_38
    (AgentPrompting.subOccurs_append_win _ _ _ c7scan_37
    (AgentPrompting.subOccurs_append_win _ _ _ c7scan_36
    (AgentPrompting.subOccurs_append_win _ _ _ c7scan_35
    (AgentPrompting.subOccurs_append_win _ _ _ c7scan_34
    (AgentPrompting.subOccurs_append_win _ _ _ c7scan_33
    (AgentPrompting.subOccurs_append_win _ _ _ c7scan_32
    (AgentPrompting.subOccurs_append_win _ _ _ c7scan_31
    (AgentPrompting.subOccurs_append_win _ _ _ c7scan_30
    (AgentPrompting.subOccurs_append_win _ _ _ c7scan_29
    (AgentPrompting.subOccurs_append_win _ _ _ c7scan_28
    (AgentPrompting.subOccurs_append_win _ _ _ c7scan_27
    (AgentPrompting.subOccurs_append_win _ _ _ c7scan_26
    (AgentPrompting.subOccurs_append_win _ _ _ c7scan_25
    (AgentPrompting.subOccurs_append_win _ _ _ c7scan_44
    (AgentPrompting.subOccurs_append_win _ _ _ c7scan_48
    (AgentPrompting.subOccurs_append_win _ _ _ c7scan_47
    (AgentPrompting.subOccurs_append_win _ _ _ c7scan_23
    (AgentPrompting.subOccurs_append_win _ _ _ c7scan_22
    (AgentPrompting.subOccurs_append_win _ _ _ c7scan_21
    (AgentPrompting.subOccurs_append_win _ _ _ c7scan_20
    (AgentPrompting.subOccurs_append_win _ _ _ c7scan_62
    (AgentPrompting.subOccurs_append_win _ _ _ c7scan_61
    (AgentPrompting.subOccurs_append_win _ _ _ c7scan_53
    (AgentPrompting.subOccurs_append_win _ _ _ c7scan_60
    (AgentPrompting.subOccurs_append_win _ _ _ c7scan_53
    (AgentPrompting.subOccurs_append_win _ _ _ c7scan_59
    (AgentPrompting.subOccurs_append_win _ _ _ c7scan_58
    (AgentPrompting.subOccurs_append_win _ _ _ c7scan_45
    (AgentPrompting.subOccurs_append_win _ _ _ c7scan_18
    (AgentPrompting.subOccurs_append_win _ _ _ c7scan_17
    (AgentPrompting.subOccurs_append_win _ _ _ c7scan_16
    (AgentPrompting.subOccurs_append_win _ _ _ c7scan_15
    (AgentPrompting.subOccurs_append_win _ _ _ c7scan_14
    (AgentPrompting.subOccurs_append_win _ _ _ c7scan_13
    (AgentPrompting.subOccurs_append_win _ _ _ c7scan_12
    (AgentPrompting.subOccurs_append_win _ _ _ c7scan_11
    (AgentPrompting.subOccurs_append_win _ _ _ c7scan_10
    (AgentPrompting.subOccurs_append_win _ _ _ c7scan_9
    (AgentPrompting.subOccurs_append_win _ _ _ c7scan_8
    (AgentPrompting.subOccurs_append_win _ _ _ c7scan_7
    (AgentPrompting.subOccurs_append_win _ _ _ c7scan_6
    (AgentPrompting.subOccurs_append_win _ _ _ c7scan_5
    (AgentPrompting.subOccurs_append_win _ _ _ c7scan_4
    (AgentPrompting.subOccurs_append_win _ _ _ c7scan_3
    (AgentPrompting.subOccurs_append_win _ _ _ c7scan_2
    (AgentPrompting.subOccurs_append_win _ _ _ c7scan_1
    (AgentPrompting.subOccurs_append_win _ _ _ c7scan_0
    (c7tail_0) (by decide)) (by decide)) (by decide)) (by decide)) (by decide)) (by decide)) (by decide)) (by decide)) (by decide)) (by decide)) (by decide)) (by decide)) (by decide)) (by decide)) (by decide)) (by decide)) (by decide)) (by decide)) (by decide)) (by decide)) (by decide)) (by decide)) (by decide)) (by decide)) (by decide)) (by decide)) (by decide)) (by decide)) (by decide)) (by decide)) (by decide)) (by decide)) (by decide)) (by decide)) (by decide)) (by decide)) (by decide)) (by decide)) (by decide)) (by decide)) (by decide)) (by decide)) (by decide)) (by decide)) (by decide)) (by decide)) (by decide)) (by decide)) (by decide)) (by decide)) (by decide)) (by decide)

theorem c7_absNW_10 :
    AgentPrompting.containsText
      (AgentPrompting.agent_system_prompt none false true true false false true AgentPrompting.cwdC AgentPrompting.dateC)
      (AgentPrompting.wolframalpha_block AgentPrompting.cwdC) = false := by
  refine AgentPrompting.absence_from_marker _ _ "Wolfram Alpha" (by decide) ?_
  simp only [AgentPrompting.containsText_eq_sdata, AgentPrompting.agent_system_prompt,
    AgentPrompting.code_writer_template, AgentPrompting.apis_no_internet,
    AgentPrompting.apis_have_internet, AgentPrompting.serp_block,
    AgentPrompting.papers_block, AgentPrompting.news_block,
    AgentPrompting.extra_packages_base, AgentPrompting.extra_packages_web,
    AgentPrompting.cwdC, AgentPrompting.dateC,
    Bool.false_and, Bool.true_and,
    AgentPrompting.if_bool_true, AgentPrompting.if_bool_false, if_true, if_false,
    AgentPrompting.sdata_append, AgentPrompting.sdata_empty,
    List.append_assoc, List.nil_append, List.append_nil]
  exact AgentPrompting.subOccurs_append_win _ _ _ c7scan_42
    (AgentPrompting.subOccurs_append_win _ _ _ c7scan_41
    (AgentPrompting.subOccurs_append_win _ _ _ c7scan_40
    (AgentPrompting.subOccurs_append_win _ _ _ c7scan_39
    (AgentPrompting.subOccurs_append_win _ _ _ c7scan_38
    (AgentPrompting.subOccurs_append_win _ _ _ c7scan_37
    (AgentPrompting.subOccurs_append_win _ _ _ c7scan_36
    (AgentPrompting.subOccurs_append_win _ _ _ c7scan_35
    (AgentPrompting.subOccurs_append_win _ _ _ c7scan_34
    (AgentPrompting.subOccurs_append_win _ _ _ c7scan_33
    (AgentPrompting.subOccurs_append_win _ _ _ c7scan_32
    (AgentPrompting.subOccurs_append_win _ _ _ c7scan_31
    (AgentPrompting.subOccurs_append_win _ _ _ c7scan_30
    (AgentPrompting.subOccurs_append_win _ _ _ c7scan_29
    (AgentPrompting.subOccurs_append_win _ _ _ c7scan_28
    (AgentPrompting.subOccurs_append_win _ _ _ c7scan_27
    (AgentPrompting.subOccurs_append_win _ _ _ c7scan_26
    (AgentPrompting.subOccurs_append_win _ _ _ c7scan_25
    (AgentPrompting.subOccurs_append_win _ _ _ c7scan_24
    (AgentPrompting.subOccurs_append_win _ _ _ c7scan_23
    (AgentPrompting.subOccurs_append_win _ _ _ c7scan_22
    (AgentPrompting.subOccurs_append_win _ _ _ c7scan_21
    (AgentPrompting.subOccurs_append_win _ _ _ c7scan_20
    (AgentPrompting.subOccurs_append_win _ _ _ c7scan_50
    (AgentPrompting.subOccurs_append_win _ _ _ c7scan_63
    (AgentPrompting.subOccurs_append_win _ _ _ c7scan_61
    (AgentPrompting.subOccurs_append_win _ _ _ c7scan_53
    (AgentPrompting.subOccurs_append_win _ _ _ c7scan_60
    (AgentPrompting.subOccurs_append_win _ _ _ c7scan_53
    (AgentPrompting.subOccurs_append_win _ _ _ c7scan_59
    (AgentPrompting.subOccurs_append_win _ _ _ c7scan_58
    (AgentPrompting.subOccurs_append_win _ _ _ c7scan_45
    (AgentPrompting.subOccurs_append_win _ _ _ c7scan_18
    (AgentPrompting.subOccurs_append_win _ _ _ c7scan_17
    (AgentPrompting.subOccurs_append_win _ _ _ c7scan_16
    (AgentPrompting.subOccurs_append_win _ _ _ c7scan_15
    (AgentPrompting.subOccurs_append_win _ _ _ c7scan_14
    (AgentPrompting.subOccurs_append_win _ _ _ c7scan_13
    (AgentPrompting.subOccurs_append_win _ _ _ c7scan_12
    (AgentPrompting.subOccurs_append_win _ _ _ c7scan_11
    (AgentPrompting.subOccurs_append_win _ _ _ c7scan_10
    (AgentPrompting.subOccurs_append_win _ _ _ c7scan_9
    (AgentPrompting.subOccurs_append_win _ _ _ c7scan_8
    (AgentPrompting.subOccurs_append_win _ _ _ c7scan_7
    (AgentPrompting.subOccurs_append_win _ _ _ c7scan_6
    (AgentPrompting.subOccurs_append_win _ _ _ c7scan_5
    (AgentPrompting.subOccurs_append_win _ _ _ c7scan_4
    (AgentPrompting.subOccurs_append_win _ _ _ c7scan_3
    (AgentPrompting.subOccurs_append_win _ _ _ c7scan_2
    (AgentPrompting.subOccurs_append_win _ _ _ c7scan_1
    (AgentPrompting.subOccurs_append_win _ _ _ c7scan_0
    (c7tail_0) (by decide)) (by decide)) (by decide)) (by decide)) (by decide)) (by decide)) (by decide)) (by decide)) (by decide)) (by decide)) (by decide)) (by decide)) (by decide)) (by decide)) (by decide)) (by decide)) (by decide)) (by decide)) (by decide)) (by decide)) (by decide)) (by decide)) (by decide)) (by decide)) (by decide)) (by decide)) (by decide)) (by decide)) (by decide)) (by decide)) (by decide)) (by decide)) (by decide)) (by decide)) (by decide)) (by decide)) (by decide)) (by decide)) (by decide)) (by decide)) (by decide)) (by decide)) (by decide)) (by decide)) (by decide)) (by decide)) (by decide)) (by decide)) (by decide)) (by decide)) (by decide)

theorem c7_absNW_11 :
    AgentPrompting.containsText
      (AgentPrompting.agent_system_prompt none true true true false false true AgentPrompting.cwdC AgentPrompting.dateC)
      (AgentPrompting.wolframalpha_block AgentPrompting.cwdC) = false := by
  refine AgentPrompting.absence_from_marker _ _ "Wolfram Alpha" (by decide) ?_
  simp only [AgentPrompting.containsText_eq_sdata, AgentPrompting.agent_system_prompt,
    AgentPrompting.code_writer_template, AgentPrompting.apis_no_internet,
    AgentPrompting.apis_have_internet, AgentPrompting.serp_block,
    AgentPrompting.papers_block, AgentPrompting.news_block,
    AgentPrompting.extra_packages_base, AgentPrompting.extra_packages_web,
    AgentPrompting.cwdC, AgentPrompting.dateC,
    Bool.false_and, Bool.true_and,
    AgentPrompting.if_bool_true, AgentPrompting.if_bool_false, if_true, if_false,
    AgentPrompting.sdata_append, AgentPrompting.sdata_empty,
    List.append_assoc, List.nil_append, List.append_nil]
  exact AgentPrompting.subOccurs_append_win _ _ _ c7scan_42
    (AgentPrompting.subOccurs_append_win _ _ _ c7scan_41
    (AgentPrompting.subOccurs_append_win _ _ _ c7scan_40
    (AgentPrompting.subOccurs_append_win _ _ _ c7scan_39
    (AgentPrompting.subOccurs_append_win _ _ _ c7scan_38
    (AgentPrompting.subOccurs_append_win _ _ _ c7scan_37
    (AgentPrompting.subOccurs_append_win _ _ _ c7scan_36
    (AgentPrompting.subOccurs_append_win _ _ _ c7scan_35
    (AgentPrompting.subOccurs_append_win _ _ _ c7scan_34
    (AgentPrompting.subOccurs_append_win _ _ _ c7scan_33
    (AgentPrompting.subOccurs_append_win _ _ _ c7scan_32
    (AgentPrompting.subOccurs_append_win _ _ _ c7scan_31
    (AgentPrompting.subOccurs_append_win _ _ _ c7scan_30
    (AgentPrompting.subOccurs_append_win _ _ _ c7scan_29
    (AgentPrompting.subOccurs_append_win _ _ _ c7scan_28
    (AgentPrompting.subOccurs_append_win _ _ _ c7scan_27
    (AgentPrompting.subOccurs_append_win _ _ _ c7scan_26
    (AgentPrompting.subOccurs_append_win _ _ _ c7scan_25
    (AgentPrompting.subOccurs_append_win _ _ _ c7scan_44
    (AgentPrompting.subOccurs_append_win _ _ _ c7scan_48
    (AgentPrompting.subOccurs_append_win _ _ _ c7scan_47
    (AgentPrompting.subOccurs_append_win _ _ _ c7scan_23
    (AgentPrompting.subOccurs_append_win _ _ _ c7scan_22
    (AgentPrompting.subOccurs_append_win _ _ _ c7scan_21
    (AgentPrompting.subOccurs_append_win _ _ _ c7scan_20
    (AgentPrompting.subOccurs_append_win _ _ _ c7scan_50
    (AgentPrompting.subOccurs_append_win _ _ _ c7scan_63
    (AgentPrompting.subOccurs_append_win _ _ _ c7scan_61
    (AgentPrompting.subOccurs_append_win _ _ _ c7scan_53
    (AgentPrompting.subOccurs_append_win _ _ _ c7scan_60
    (AgentPrompting.subOccurs_append_win _ _ _ c7scan_53
    (AgentPrompting.subOccurs_append_win _ _ _ c7scan_59
    (AgentPrompting.subOccurs_append_win _ _ _ c7scan_58
    (AgentPrompting.subOccurs_append_win _ _ _ c7scan_45
    (AgentPrompting.subOccurs_append_win _ _ _ c7scan_18
    (AgentPrompting.subOccurs_append_win _ _ _ c7scan_17
    (AgentPrompting.subOccurs_append_win _ _ _ c7scan_16
    (AgentPrompting.subOccurs_append_win _ _ _ c7scan_15
    (AgentPrompting.subOccurs_append_win _ _ _ c7scan_14
    (AgentPrompting.subOccurs_append_win _ _ _ c7scan_13
    (AgentPrompting.subOccurs_append_win _ _ _ c7scan_12
    (AgentPrompting.subOccurs_append_win _ _ _ c7scan_11
    (AgentPrompting.subOccurs_append_win _ _ _ c7scan_10
    (AgentPrompting.subOccurs_append_win _ _ _ c7scan_9
    (AgentPrompting.subOccurs_append_win _ _ _ c7scan_8
    (AgentPrompting.subOccurs_append_win _ _ _ c7scan_7
    (AgentPrompting.subOccurs_append_win _ _ _ c7scan_6
    (AgentPrompting.subOccurs_append_win _ _ _ c7scan_5
    (AgentPrompting.subOccurs_append_win _ _ _ c7scan_4
    (AgentPrompting.subOccurs_append_win _ _ _ c7scan_3
    (AgentPrompting.subOccurs_append_win _ _ _ c7scan_2
    (AgentPrompting.subOccurs_append_win _ _ _ c7scan_1
    (AgentPrompting.subOccurs_append_win _ _ _ c7scan_0
    (c7tail_0) (by decide)) (by decide)) (by decide)) (by decide)) (by decide)) (by decide)) (by decide)) (by decide)) (by decide)) (by decide)) (by decide)) (by decide)) (by decide)) (by decide)) (by decide)) (by decide)) (by decide)) (by decide)) (by decide)) (by decide)) (by decide)) (by decide)) (by decide)) (by decide)) (by decide)) (by decide)) (by decide)) (by decide)) (by decide)) (by decide)) (by decide)) (by decide)) (by decide)) (by decide)) (by decide)) (by decide)) (by decide)) (by decide)) (by decide)) (by decide)) (by decide)) (by decide)) (by decide)) (by decide)) (by decide)) (by decide)) (by decide)) (by decide)) (by decide)) (by decide)) (by decide)) (by decide)) (by decide)

theorem c7_absNW_12 :
    AgentPrompting.containsText
      (AgentPrompting.agent_system_prompt none false true false true false true AgentPrompting.cwdC AgentPrompting.dateC)
      (AgentPrompting.wolframalpha_block AgentPrompting.cwdC) = false := by
  refine AgentPrompting.absence_from_marker _ _ "Wolfram Alpha" (by decide) ?_
  simp only [AgentPrompting.containsText_eq_sdata, AgentPrompting.agent_system_prompt,
    AgentPrompting.code_writer_template, AgentPrompting.apis_no_internet,
    AgentPrompting.apis_have_internet, AgentPrompting.serp_block,
    AgentPrompting.papers_block, AgentPrompting.news_block,
    AgentPrompting.extra_packages_base, AgentPrompting.extra_packages_web,
    AgentPrompting.cwdC, AgentPrompting.dateC,
    Bool.false_and, Bool.true_and,
    AgentPrompting.if_bool_true, AgentPrompting.if_bool_false, if_true, if_false,
    AgentPrompting.sdata_append, AgentPrompting.sdata_empty,
    List.append_assoc, List.nil_append, List.append_nil]
  exact AgentPrompting.subOccurs_append_win _ _ _ c7scan_42
    (AgentPrompting.subOccurs_append_win _ _ _ c7scan_41
    (AgentPrompting.subOccurs_append_win _ _ _ c7scan_40
    (AgentPrompting.subOccurs_append_win _ _ _ c7scan_39
    (AgentPrompting.subOccurs_append_win _ _ _ c7scan_38
    (AgentPrompting.subOccurs_append_win _ _ _ c7scan_37
    (AgentPrompting.subOccurs_append_win _ _ _ c7scan_36
    (AgentPrompting.subOccurs_append_win _ _ _ c7scan_35
    (AgentPrompting.subOccurs_append_win _ _ _ c7scan_34
    (AgentPrompting.subOccurs_append_win _ _ _ c7scan_33
    (AgentPrompting.subOccurs_append_win _ _ _ c7scan_32
    (AgentPrompting.subOccurs_append_win _ _ _ c7scan_31
    (AgentPrompting.subOccurs_append_win _ _ _ c7scan_30
    (AgentPrompting.subOccurs_append_win _ _ _ c7scan_29
    (AgentPrompting.subOccurs_append_win _ _ _ c7scan_28
    (AgentPrompting.subOccurs_append_win _ _ _ c7scan_27
    (AgentPrompting.subOccurs_append_win _ _ _ c7scan_26
    (AgentPrompting.subOccurs_append_win _ _ _ c7scan_25
    (AgentPrompting.subOccurs_append_win _ _ _ c7scan_24
    (AgentPrompting.subOccurs_append_win _ _ _ c7scan_23
    (AgentPrompting.subOccurs_append_win _ _ _ c7scan_22
    (AgentPrompting.subOccurs_append_win _ _ _ c7scan_21
    (AgentPrompting.subOccurs_append_win _ _ _ c7scan_20
    (AgentPrompting.subOccurs_append_win _ _ _ c7scan_56
    (AgentPrompting.subOccurs_append_win _ _ _ c7scan_55
    (AgentPrompting.subOccurs_append_win _ _ _ c7scan_53
    (AgentPrompting.subOccurs_append_win _ _ _ c7scan_54
    (AgentPrompting.subOccurs_append_win _ _ _ c7scan_53
    (AgentPrompting.subOccurs_append_win _ _ _ c7scan_52
    (AgentPrompting.subOccurs_append_win _ _ _ c7scan_64
    (AgentPrompting.subOccurs_append_win _ _ _ c7scan_61
    (AgentPrompting.subOccurs_append_win _ _ _ c7scan_53
    (AgentPrompting.subOccurs_append_win _ _ _ c7scan_60
    (AgentPrompting.subOccurs_append_win _ _ _ c7scan_53
    (AgentPrompting.subOccurs_append_win _ _ _ c7scan_59
    (AgentPrompting.subOccurs_append_win _ _ _ c7scan_58
    (AgentPrompting.subOccurs_append_win _ _ _ c7scan_45
    (AgentPrompting.subOccurs_append_win _ _ _ c7scan_18
    (AgentPrompting.subOccurs_append_win _ _ _ c7scan_17
    (AgentPrompting.subOccurs_append_win _ _ _ c7scan_16
    (AgentPrompting.subOccurs_append_win _ _ _ c7scan_15
    (AgentPrompting.subOccurs_append_win _ _ _ c7scan_14
    (AgentPrompting.subOccurs_append_win _ _ _ c7scan_13
    (AgentPrompting.subOccurs_append_win _ _ _ c7scan_12
    (AgentPrompting.subOccurs_append_win _ _ _ c7scan_11
    (AgentPrompting.subOccurs_append_win _ _ _ c7scan_10
    (AgentPrompting.subOccurs_append_win _ _ _ c7scan_9
    (AgentPrompting.subOccurs_append_win _ _ _ c7scan_8
    (AgentPrompting.subOccurs_append_win _ _ _ c7scan_7
    (AgentPrompting.subOccurs_append_win _ _ _ c7scan_6
    (AgentPrompting.subOccurs_append_win _ _ _ c7scan_5
    (AgentPrompting.subOccurs_append_win _ _ _ c7scan_4
    (AgentPrompting.subOccurs_append_win _ _ _ c7scan_3
    (AgentPrompting.subOccurs_append_win _ _ _ c7scan_2
    (AgentPrompting.subOccurs_append_win _ _ _ c7scan_1
    (AgentPrompting.subOccurs_append_win _ _ _ c7scan_0
    (c7tail_0) (by decide)) (by decide)) (by decide)) (by decide)) (by decide)) (by decide)) (by decide)) (by decide)) (by decide)) (by decide)) (by decide)) (by decide)) (by decide)) (by decide)) (by decide)) (by decide)) (by decide)) (by decide)) (by decide)) (by decide)) (by decide)) (by decide)) (by decide)) (by decide)) (by decide)) (by decide)) (by decide)) (by decide)) (by decide)) (by decide)) (by decide)) (by decide)) (by decide)) (by decide)) (by decide)) (by decide)) (by decide)) (by decide)) (by decide)) (by decide)) (by decide)) (by decide)) (by decide)) (by decide)) (by decide)) (by decide)) (by decide)) (by decide)) (by decide)) (by decide)) (by decide)) (by decide)) (by decide)) (by decide)) (by decide)) (by decide)

theorem c7_absNW_13 :
    AgentPrompting.containsText
      (AgentPrompting.agent_system_prompt none true true false true false true AgentPrompting.cwdC AgentPrompting.dateC)
      (AgentPrompting.wolframalpha_block AgentPrompting.cwdC) = false := by
  refine AgentPrompting.absence_from_marker _ _ "Wolfram Alpha" (by decide) ?_
  simp only [AgentPrompting.containsText_eq_sdata, AgentPrompting.agent_system_prompt,
    AgentPrompting.code_writer_template, AgentPrompting.apis_no_internet,
    AgentPrompting.apis_have_internet, AgentPrompting.serp_block,
    AgentPrompting.papers_block, AgentPrompting.news_block,
    AgentPrompting.extra_packages_base, AgentPrompting.extra_packages_web,
    AgentPrompting.cwdC, AgentPrompting.dateC,
    Bool.false_and, Bool.true_and,
    AgentPrompting.if_bool_true, AgentPrompting.if_bool_false, if_true, if_false,
    AgentPrompting.sdata_append, AgentPrompting.sdata_empty,
    List.append_assoc, List.nil_append, List.append_nil]
  exact AgentPrompting.subOccurs_append_win _ _ _ c7scan_42
    (AgentPrompting.subOccurs_append_win _ _ _ c7scan_41
    (AgentPrompting.subOccurs_append_win _ _ _ c7scan_40
    (AgentPrompting.subOccurs_append_win _ _ _ c7scan_39
    (AgentPrompting.subOccurs_append_win _ _ _ c7scan_38
    (AgentPrompting.subOccurs_append_win _ _ _ c7scan_37
    (AgentPrompting.subOccurs_append_win _ _ _ c7scan_36
    (AgentPrompting.subOccurs_append_win _ _ _ c7scan_35
    (AgentPrompting.subOccurs_append_win _ _ _ c7scan_34
    (AgentPrompting.subOccurs_append_win _ _ _ c7scan_33
    (AgentPrompting.subOccurs_append_win _ _ _ c7scan_32
    (AgentPrompting.subOccurs_append_win _ _ _ c7scan_31
    (AgentPrompting.subOccurs_append_win _ _ _ c7scan_30
    (AgentPrompting.subOccurs_append_win _ _ _ c7scan_29
    (AgentPrompting.subOccurs_append_win _ _ _ c7scan_28
    (AgentPrompting.subOccurs_append_win _ _ _ c7scan_27
    (AgentPrompting.subOccurs_append_win _ _ _ c7scan_26
    (AgentPrompting.subOccurs_append_win _ _ _ c7scan_25
    (AgentPrompting.subOccurs_append_win _ _ _ c7scan_44
    (AgentPrompting.subOccurs_append_win _ _ _ c7scan_48
    (AgentPrompting.subOccurs_append_win _ _ _ c7scan_47
    (AgentPrompting.subOccurs_append_win _ _ _ c7scan_23
    (AgentPrompting.subOccurs_append_win _ _ _ c7scan_22
    (AgentPrompting.subOccurs_append_win _ _ _ c7scan_21
    (AgentPrompting.subOccurs_append_win _ _ _ c7scan_20
    (AgentPrompting.subOccurs_append_win _ _ _ c7scan_56
    (AgentPrompting.subOccurs_append_win _ _ _ c7scan_55
    (AgentPrompting.subOccurs_append_win _ _ _ c7scan_53
    (AgentPrompting.subOccurs_append_win _ _ _ c7scan_54
    (AgentPrompting.subOccurs_append_win _ _ _ c7scan_53
    (AgentPrompting.subOccurs_append_win _ _ _ c7scan_52
    (AgentPrompting.subOccurs_append_win _ _ _ c7scan_64
    (AgentPrompting.subOccurs_append_win _ _ _ c7scan_61
    (AgentPrompting.subOccurs_append_win _ _ _ c7scan_53
    (AgentPrompting.subOccurs_append_win _ _ _ c7scan_60
    (AgentPrompting.subOccurs_append_win _ _ _ c7scan_53
    (AgentPrompting.subOccurs_append_win _ _ _ c7scan_59
    (AgentPrompting.subOccurs_append_win _ _ _ c7scan_58
    (AgentPrompting.subOccurs_append_win _ _ _ c7scan_45
    (AgentPrompting.subOccurs_append_win _ _ _ c7scan_18
    (AgentPrompting.subOccurs_append_win _ _ _ c7scan_17
    (AgentPrompting.subOccurs_append_win _ _ _ c7scan_16
    (AgentPrompting.subOccurs_append_win _ _ _ c7scan_15
    (AgentPrompting.subOccurs_append_win _ _ _ c7scan_14
    (AgentPrompting.subOccurs_append_win _ _ _ c7scan_13
    (AgentPrompting.subOccurs_append_win _ _ _ c7scan_12
    (AgentPrompting.subOccurs_append_win _ _ _ c7scan_11
    (AgentPrompting.subOccurs_append_win _ _ _ c7scan_10
    (AgentPrompting.subOccurs_append_win _ _ _ c7scan_9
    (AgentPrompting.subOccurs_append_win _ _ _ c7scan_8
    (AgentPrompting.subOccurs_append_win _ _ _ c7scan_7
    (AgentPrompting.subOccurs_append_win _ _ _ c7scan_6
    (AgentPrompting.subOccurs_append_win _ _ _ c7scan_5
    (AgentPrompting.subOccurs_append_win _ _ _ c7scan_4
    (AgentPrompting.subOccurs_append_win _ _ _ c7scan_3
    (AgentPrompting.subOccurs_append_win _ _ _ c7scan_2
    (AgentPrompting.subOccurs_append_win _ _ _ c7scan_1
    (AgentPrompting.subOccurs_append_win _ _ _ c7scan_0
    (c7tail_0) (by decide)) (by decide)) (by decide)) (by decide)) (by decide)) (by decide)) (by decide)) (by decide)) (by decide)) (by decide)) (by decide)) (by decide)) (by decide)) (by decide)) (by decide)) (by decide)) (by decide)) (by decide)) (by decide)) (by decide)) (by decide)) (by decide)) (by decide)) (by decide)) (by decide)) (by decide)) (by decide)) (by decide)) (by decide)) (by decide)) (by decide)) (by decide)) (by decide)) (by decide)) (by decide)) (by decide)) (by decide)) (by decide)) (by decide)) (by decide)) (by decide)) (by decide)) (by decide)) (by decide)) (by decide)) (by decide)) (by decide)) (by decide)) (by decide)) (by decide)) (by decide)) (by decide)) (by decide)) (by decide)) (by decide)) (by decide)) (by decide)) (by decide)

theorem c7_absNW_14 :
    AgentPrompting.containsText
      (AgentPrompting.agent_system_prompt none false true true true false true AgentPrompting.cwdC AgentPrompting.dateC)
      (AgentPrompting.wolframalpha_block AgentPrompting.cwdC) = false := by
  refine AgentPrompting.absence_from_marker _ _ "Wolfram Alpha" (by decide) ?_
  simp only [AgentPrompting.containsText_eq_sdata, AgentPrompting.agent_system_prompt,
    AgentPrompting.code_writer_template, AgentPrompting.apis_no_internet,
    AgentPrompting.apis_have_internet, AgentPrompting.serp_block,
    AgentPrompting.papers_block, AgentPrompting.news_block,
    AgentPrompting.extra_packages_base, AgentPrompting.extra_packages_web,
    AgentPrompting.cwdC, AgentPrompting.dateC,
    Bool.false_and, Bool.true_and,
    AgentPrompting.if_bool_true, AgentPrompting.if_bool_false, if_true, if_false,
    AgentPrompting.sdata_append, AgentPrompting.sdata_empty,
    List.append_assoc, List.nil_append, List.append_nil]
  exact AgentPrompting.subOccurs_append_win _ _ _ c7scan_42
    (AgentPrompting.subOccurs_append_win _ _ _ c7scan_41
    (AgentPrompting.subOccurs_append_win _ _ _ c7scan_40
    (AgentPrompting.subOccurs_append_win _ _ _ c7scan_39
    (AgentPrompting.subOccurs_append_win _ _ _ c7scan_38
    (AgentPrompting.subOccurs_append_win _ _ _ c7scan_37
    (AgentPrompting.subOccurs_append_win _ _ _ c7scan_36
    (AgentPrompting.subOccurs_append_win _ _ _ c7scan_35
    (AgentPrompting.subOccurs_append_win _ _ _ c7scan_34
    (AgentPrompting.subOccurs_append_win _ _ _ c7scan_33
    (AgentPrompting.subOccurs_append_win _ _ _ c7scan_32
    (AgentPrompting.subOccurs_append_win _ _ _ c7scan_31
    (AgentPrompting.subOccurs_append_win _ _ _ c7scan_30
    (AgentPrompting.subOccurs_append_win _ _ _ c7scan_29
    (AgentPrompting.subOccurs_append_win _ _ _ c7scan_28
    (AgentPrompting.subOccurs_append_win _ _ _ c7scan_27
    (AgentPrompting.subOccurs_append_win _ _ _ c7scan_26
    (AgentPrompting.subOccurs_append_win _ _ _ c7scan_25
    (AgentPrompting.subOccurs_append_win _ _ _ c7scan_24
    (AgentPrompting.subOccurs_append_win _ _ _ c7scan_23
    (AgentPrompting.subOccurs_append_win _ _ _ c7scan_22
    (AgentPrompting.subOccurs_append_win _ _ _ c7scan_21
    (AgentPrompting.subOccurs_append_win _ _ _ c7scan_20
    (AgentPrompting.subOccurs_append_win _ _ _ c7scan_50
    (AgentPrompting.subOccurs_append_win _ _ _ c7scan_57
    (AgentPrompting.subOccurs_append_win _ _ _ c7scan_55
    (AgentPrompting.subOccurs_append_win _ _ _ c7scan_53
    (AgentPrompting.subOccurs_append_win _ _ _ c7scan_54
    (AgentPrompting.subOccurs_append_win _ _ _ c7scan_53
    (AgentPrompting.subOccurs_append_win _ _ _ c7scan_52
    (AgentPrompting.subOccurs_append_win _ _ _ c7scan_64
    (AgentPrompting.subOccurs_append_win _ _ _ c7scan_61
    (AgentPrompting.subOccurs_append_win _ _ _ c7scan_53
    (AgentPrompting.subOccurs_append_win _ _ _ c7scan_60
    (AgentPrompting.subOccurs_append_win _ _ _ c7scan_53
    (AgentPrompting.subOccurs_append_win _ _ _ c7scan_59
    (AgentPrompting.subOccurs_append_win _ _ _ c7scan_58
    (AgentPrompting.subOccurs_append_win _ _ _ c7scan_45
    (AgentPrompting.subOccurs_append_win _ _ _ c7scan_18
    (AgentPrompting.subOccurs_append_win _ _ _ c7scan_17
    (AgentPrompting.subOccurs_append_win _ _ _ c7scan_16
    (AgentPrompting.subOccurs_append_win _ _ _ c7scan_15
    (AgentPrompting.subOccurs_append_win _ _ _ c7scan_14
    (AgentPrompting.subOccurs_append_win _ _ _ c7scan_13
    (AgentPrompting.subOccurs_append_win _ _ _ c7scan_12
    (AgentPrompting.subOccurs_append_win _ _ _ c7scan_11
    (AgentPrompting.subOccurs_append_win _ _ _ c7scan_10
    (AgentPrompting.subOccurs_append_win _ _ _ c7scan_9
    (AgentPrompting.subOccurs_append_win _ _ _ c7scan_8
    (AgentPrompting.subOccurs_append_win _ _ _ c7scan_7
    (AgentPrompting.subOccurs_append_win _ _ _ c7scan_6
    (AgentPrompting.subOccurs_append_win _ _ _ c7scan_5
    (AgentPrompting.subOccurs_append_win _ _ _ c7scan_4
    (AgentPrompting.subOccurs_append_win _ _ _ c7scan_3
    (AgentPrompting.subOccurs_append_win _ _ _ c7scan_2
    (AgentPrompting.subOccurs_append_win _ _ _ c7scan_1
    (AgentPrompting.subOccurs_append_win _ _ _ c7scan_0
    (c7tail_0) (by decide)) (by decide)) (by decide)) (by decide)) (by decide)) (by decide)) (by decide)) (by decide)) (by decide)) (by decide)) (by decide)) (by decide)) (by decide)) (by decide)) (by decide)) (by decide)) (by decide)) (by decide)) (by decide)) (by decide)) (by decide)) (by decide)) (by decide)) (by decide)) (by decide)) (by decide)) (by decide)) (by decide)) (by decide)) (by decide)) (by decide)) (by decide)) (by decide)) (by decide)) (by decide)) (by decide)) (by decide)) (by decide)) (by decide)) (by decide)) (by decide)) (by decide)) (by decide)) (by decide)) (by decide)) (by decide)) (by decide)) (by decide)) (by decide)) (by decide)) (by decide)) (by decide)) (by decide)) (by decide)) (by decide)) (by decide)) (by decide)

theorem c7_absNW_15 :
    AgentPrompting.containsText
      (AgentPrompting.agent_system_prompt none true true true true false true AgentPrompting.cwdC AgentPrompting.dateC)
      (AgentPrompting.wolframalpha_block AgentPrompting.cwdC) = false := by
  refine AgentPrompting.absence_from_marker _ _ "Wolfram Alpha" (by decide) ?_
  simp only [AgentPrompting.containsText_eq_sdata, AgentPrompting.agent_system_prompt,
    AgentPrompting.code_writer_template, AgentPrompting.apis_no_internet,
    AgentPrompting.apis_have_internet, AgentPrompting.serp_block,
    AgentPrompting.papers_block, AgentPrompting.news_block,
    AgentPrompting.extra_packages_base, AgentPrompting.extra_packages_web,
    AgentPrompting.cwdC, AgentPrompting.dateC,
    Bool.false_and, Bool.true_and,
    AgentPrompting.if_bool_true, AgentPrompting.if_bool_false, if_true, if_false,
    AgentPrompting.sdata_append, AgentPrompting.sdata_empty,
    List.append_assoc, List.nil_append, List.append_nil]
  exact AgentPrompting.subOccurs_append_win _ _ _ c7scan_42
    (AgentPrompting.subOccurs_append_win _ _ _ c7scan_41
    (AgentPrompting.subOccurs_append_win _ _ _ c7scan_40
    (AgentPrompting.subOccurs_append_win _ _ _ c7scan_39
    (AgentPrompting.subOccurs_append_win _ _ _ c7scan_38
    (AgentPrompting.subOccurs_append_win _ _ _ c7scan_37
    (AgentPrompting.subOccurs_append_win _ _ _ c7scan_36
    (AgentPrompting.subOccurs_append_win _ _ _ c7scan_35
    (AgentPrompting.subOccurs_append_win _ _ _ c7scan_34
    (AgentPrompting.subOccurs_append_win _ _ _ c7scan_33
    (AgentPrompting.subOccurs_append_win _ _ _ c7scan_32
    (AgentPrompting.subOccurs_append_win _ _ _ c7scan_31
    (AgentPrompting.subOccurs_append_win _ _ _ c7scan_30
    (AgentPrompting.subOccurs_append_win _ _ _ c7scan_29
    (AgentPrompting.subOccurs_append_win _ _ _ c7scan_28
    (AgentPrompting.subOccurs_append_win _ _ _ c7scan_27
    (AgentPrompting.subOccurs_append_win _ _ _ c7scan_26
    (AgentPrompting.subOccurs_append_win _ _ _ c7scan_25
    (AgentPrompting.subOccurs_append_win _ _ _ c7scan_44
    (AgentPrompting.subOccurs_append_win _ _ _ c7scan_48
    (AgentPrompting.subOccurs_append_win _ _ _ c7scan_47
    (AgentPrompting.subOccurs_append_win _ _ _ c7scan_23
    (AgentPrompting.subOccurs_append_win _ _ _ c7scan_22
    (AgentPrompting.subOccurs_append_win _ _ _ c7scan_21
    (AgentPrompting.subOccurs_append_win _ _ _ c7scan_20
    (AgentPrompting.subOccurs_append_win _ _ _ c7scan_50
    (AgentPrompting.subOccurs_append_win _ _ _ c7scan_57
    (AgentPrompting.subOccurs_append_win _ _ _ c7scan_55
    (AgentPrompting.subOccurs_append_win _ _ _ c7scan_53
    (AgentPrompting.subOccurs_append_win _ _ _ c7scan_54
    (AgentPrompting.subOccurs_append_win _ _ _ c7scan_53
    (AgentPrompting.subOccurs_append_win _ _ _ c7scan_52
    (AgentPrompting.subOccurs_append_win _ _ _ c7scan_64
    (AgentPrompting.subOccurs_append_win _ _ _ c7scan_61
    (AgentPrompting.subOccurs_append_win _ _ _ c7scan_53
    (AgentPrompting.subOccurs_append_win _ _ _ c7scan_60
    (AgentPrompting.subOccurs_append_win _ _ _ c7scan_53
    (AgentPrompting.subOccurs_append_win _ _ _ c7scan_59
    (AgentPrompting.subOccurs_append_win _ _ _ c7scan_58
    (AgentPrompting.subOccurs_append_win _ _ _ c7scan_45
    (AgentPrompting.subOccurs_append_win _ _ _ c7scan_18
    (AgentPrompting.subOccurs_append_win _ _ _ c7scan_17
    (AgentPrompting.subOccurs_append_win _ _ _ c7scan_16
    (AgentPrompting.subOccurs_append_win _ _ _ c7scan_15
    (AgentPrompting.subOccurs_append_win _ _ _ c7scan_14
    (AgentPrompting.subOccurs_append_win _ _ _ c7scan_13
    (AgentPrompting.subOccurs_append_win _ _ _ c7scan_12
    (AgentPrompting.subOccurs_append_win _ _ _ c7scan_11
    (AgentPrompting.subOccurs_append_win _ _ _ c7scan_10
    (AgentPrompting.subOccurs_append_win _ _ _ c7scan_9
    (AgentPrompting.subOccurs_append_win _ _ _ c7scan_8
    (AgentPrompting.subOccurs_append_win _ _ _ c7scan_7
    (AgentPrompting.subOccurs_append_win _ _ _ c7scan_6
    (AgentPrompting.subOccurs_append_win _ _ _ c7scan_5
    (AgentPrompting.subOccurs_append_win _ _ _ c7scan_4
    (AgentPrompting.subOccurs_append_win _ _ _ c7scan_3
    (AgentPrompting.subOccurs_append_win _ _ _ c7scan_2
    (AgentPrompting.subOccurs_append_win _ _ _ c7scan_1
    (AgentPrompting.subOccurs_append_win _ _ _ c7scan_0
    (c7tail_0) (by decide)) (by decide)) (by decide)) (by decide)) (by decide)) (by decide)) (by decide)) (by decide)) (by decide)) (by decide)) (by decide)) (by decide)) (by decide)) (by decide)) (by decide)) (by decide)) (by decide)) (by decide)) (by decide)) (by decide)) (by decide)) (by decide)) (by decide)) (by decide)) (by decide)) (by decide)) (by decide)) (by decide)) (by decide)) (by decide)) (by decide)) (by decide)) (by decide)) (by decide)) (by decide)) (by decide)) (by decide)) (by decide)) (by decide)) (by decide)) (by decide)) (by decide)) (by decide)) (by decide)) (by decide)) (by decide)) (by decide)) (by decide)) (by decide)) (by decide)) (by decide)) (by decide)) (by decide)) (by decide)) (by decide)) (by decide)) (by decide)) (by decide)) (by decide)

theorem c7_pos_0 :
    AgentPrompting.containsText
      (AgentPrompting.agent_system_prompt none false true false false true false AgentPrompting.cwdC AgentPrompting.dateC)
      (AgentPrompting.wolframalpha_block AgentPrompting.cwdC) = true := by
  simp only [AgentPrompting.containsText_eq_sdata, AgentPrompting.agent_system_prompt,
    AgentPrompting.code_writer_template, AgentPrompting.apis_no_internet,
    AgentPrompting.apis_have_internet, AgentPrompting.serp_block,
    AgentPrompting.papers_block, AgentPrompting.news_block,
    AgentPrompting.extra_packages_base, AgentPrompting.extra_packages_web,
    AgentPrompting.cwdC, AgentPrompting.dateC,
    Bool.false_and, Bool.true_and,
    AgentPrompting.if_bool_true, AgentPrompting.if_bool_false, if_true, if_false,
    AgentPrompting.sdata_append, AgentPrompting.sdata_empty,
    List.append_assoc, List.nil_append, List.append_nil]
  exact AgentPrompting.subOccurs_append_right _ _
    (AgentPrompting.subOccurs_append_right _ _
    (AgentPrompting.subOccurs_append_right _ _
    (AgentPrompting.subOccurs_append_right _ _
    (AgentPrompting.subOccurs_append_right _ _
    (AgentPrompting.subOccurs_append_right _ _
    (AgentPrompting.subOccurs_append_right _ _
    (AgentPrompting.subOccurs_append_right _ _
    (AgentPrompting.subOccurs_append_right _ _
    (AgentPrompting.subOccurs_append_right _ _
    (AgentPrompting.subOccurs_append_right _ _
    (AgentPrompting.subOccurs_append_right _ _
    (AgentPrompting.subOccurs_append_right _ _
    (AgentPrompting.subOccurs_append_right _ _
    (AgentPrompting.subOccurs_append_right _ _
    (AgentPrompting.subOccurs_append_right _ _
    (AgentPrompting.subOccurs_append_right _ _
    (AgentPrompting.subOccurs_append_right _ _
    (AgentPrompting.subOccurs_append_right _ _
    (AgentPrompting.subOccurs_append_right _ _
    (AgentPrompting.subOccurs_append_right _ _
    (AgentPrompting.subOccurs_append_right _ _
    (AgentPrompting.subOccurs_append_right _ _
    (AgentPrompting.subOccurs_append_right _ _
    (AgentPrompting.subOccurs_here _ _))))))))))))))))))))))))

theorem c7_pos_1 :
    AgentPrompting.containsText
      (AgentPrompting.agent_system_prompt none true true false false true false AgentPrompting.cwdC AgentPrompting.dateC)
      (AgentPrompting.wolframalpha_block AgentPrompting.cwdC) = true := by
  simp only [AgentPrompting.containsText_eq_sdata, AgentPrompting.agent_system_prompt,
    AgentPrompting.code_writer_template, AgentPrompting.apis_no_internet,
    AgentPrompting.apis_have_internet, AgentPrompting.serp_block,
    AgentPrompting.papers_block, AgentPrompting.news_block,
    AgentPrompting.extra_packages_base, AgentPrompting.extra_packages_web,
    AgentPrompting.cwdC, AgentPrompting.dateC,
    Bool.false_and, Bool.true_and,
    AgentPrompting.if_bool_true, AgentPrompting.if_bool_false, if_true, if_false,
    AgentPrompting.sdata_append, AgentPrompting.sdata_empty,
    List.append_assoc, List.nil_append, List.append_nil]
  exact AgentPrompting.subOccurs_append_right _ _
    (AgentPrompting.subOccurs_append_right _ _
    (AgentPrompting.subOccurs_append_right _ _
    (AgentPrompting.subOccurs_append_right _ _
    (AgentPrompting.subOccurs_append_right _ _
    (AgentPrompting.subOccurs_append_right _ _
    (AgentPrompting.subOccurs_append_right _ _
    (AgentPrompting.subOccurs_append_right _ _
    (AgentPrompting.subOccurs_append_right _ _
    (AgentPrompting.subOccurs_append_right _ _
    (AgentPrompting.subOccurs_append_right _ _
    (AgentPrompting.subOccurs_append_right _ _
    (AgentPrompting.subOccurs_append_right _ _
    (AgentPrompting.subOccurs_append_right _ _
    (AgentPrompting.subOccurs_append_right _ _
    (AgentPrompting.subOccurs_append_right _ _
    (AgentPrompting.subOccurs_append_right _ _
    (AgentPrompting.subOccurs_append_right _ _
    (AgentPrompting.subOccurs_append_right _ _
    (AgentPrompting.subOccurs_append_right _ _
    (AgentPrompting.subOccurs_append_right _ _
    (AgentPrompting.subOccurs_append_right _ _
    (AgentPrompting.subOccurs_append_right _ _
    (AgentPrompting.subOccurs_append_right _ _
    (AgentPrompting.subOccurs_append_right _ _
    (AgentPrompting.subOccurs_append_right _ _
    (AgentPrompting.subOccurs_here _ _))))))))))))))))))))))))))

theorem c7_pos_2 :
    AgentPrompting.containsText
      (AgentPrompting.agent_system_prompt none false true true false true false AgentPrompting.cwdC AgentPrompting.dateC)
      (AgentPrompting.wolframalpha_block AgentPrompting.cwdC) = true := by
  simp only [AgentPrompting.containsText_eq_sdata, AgentPrompting.agent_system_prompt,
    AgentPrompting.code_writer_template, AgentPrompting.apis_no_internet,
    AgentPrompting.apis_have_internet, AgentPrompting.serp_block,
    AgentPrompting.papers_block, AgentPrompting.news_block,
    AgentPrompting.extra_packages_base, AgentPrompting.extra_packages_web,
    AgentPrompting.cwdC, AgentPrompting.dateC,
    Bool.false_and, Bool.true_and,
    AgentPrompting.if_bool_true, AgentPrompting.if_bool_false, if_true, if_false,
    AgentPrompting.sdata_append, AgentPrompting.sdata_empty,
    List.append_assoc, List.nil_append, List.append_nil]
  exact AgentPrompting.subOccurs_append_right _ _
    (AgentPrompting.subOccurs_append_right _ _
    (AgentPrompting.subOccurs_append_right _ _
    (AgentPrompting.subOccurs_append_right _ _
    (AgentPrompting.subOccurs_append_right _ _
    (AgentPrompting.subOccurs_append_right _ _
    (AgentPrompting.subOccurs_append_right _ _
    (AgentPrompting.subOccurs_append_right _ _
    (AgentPrompting.subOccurs_append_right _ _
    (AgentPrompting.subOccurs_append_right _ _
    (AgentPrompting.subOccurs_append_right _ _
    (AgentPrompting.subOccurs_append_right _ _
    (AgentPrompting.subOccurs_append_right _ _
    (AgentPrompting.subOccurs_append_right _ _
    (AgentPrompting.subOccurs_append_right _ _
    (AgentPrompting.subOccurs_append_right _ _
    (AgentPrompting.subOccurs_append_right _ _
    (AgentPrompting.subOccurs_append_right _ _
    (AgentPrompting.subOccurs_append_right _ _
    (AgentPrompting.subOccurs_append_right _ _
    (AgentPrompting.subOccurs_append_right _ _
    (AgentPrompting.subOccurs_append_right _ _
    (AgentPrompting.subOccurs_append_right _ _
    (AgentPrompting.subOccurs_append_right _ _
    (AgentPrompting.subOccurs_append_right _ _
    (AgentPrompting.subOccurs_here _ _)))))))))))))))))))))))))

theorem c7_pos_3 :
    AgentPrompting.containsText
      (AgentPrompting.agent_system_prompt none true true true false true false AgentPrompting.cwdC AgentPrompting.dateC)
      (AgentPrompting.wolframalpha_block AgentPrompting.cwdC) = true := by
  simp only [AgentPrompting.containsText_eq_sdata, AgentPrompting.agent_system_prompt,
    AgentPrompting.code_writer_template, AgentPrompting.apis_no_internet,
    AgentPrompting.apis_have_internet, AgentPrompting.serp_block,
    AgentPrompting.papers_block, AgentPrompting.news_block,
    AgentPrompting.extra_packages_base, AgentPrompting.extra_packages_web,
    AgentPrompting.cwdC, AgentPrompting.dateC,
    Bool.false_and, Bool.true_and,
    AgentPrompting.if_bool_true, AgentPrompting.if_bool_false, if_true, if_false,
    AgentPrompting.sdata_append, AgentPrompting.sdata_empty,
    List.append_assoc, List.nil_append, List.append_nil]
  exact AgentPrompting.subOccurs_append_right _ _
    (AgentPrompting.subOccurs_append_right _ _
    (AgentPrompting.subOccurs_append_right _ _
    (AgentPrompting.subOccurs_append_right _ _
    (AgentPrompting.subOccurs_append_right _ _
    (AgentPrompting.subOccurs_append_right _ _
    (AgentPrompting.subOccurs_append_right _ _
    (AgentPrompting.subOccurs_append_right _ _
    (AgentPrompting.subOccurs_append_right _ _
    (AgentPrompting.subOccurs_append_right _ _
    (AgentPrompting.subOccurs_append_right _ _
    (AgentPrompting.subOccurs_append_right _ _
    (AgentPrompting.subOccurs_append_right _ _
    (AgentPrompting.subOccurs_append_right _ _
    (AgentPrompting.subOccurs_append_right _ _
    (AgentPrompting.subOccurs_append_right _ _
    (AgentPrompting.subOccurs_append_right _ _
    (AgentPrompting.subOccurs_append_right _ _
    (AgentPrompting.subOccurs_append_right _ _
    (AgentPrompting.subOccurs_append_right _ _
    (AgentPrompting.subOccurs_append_right _ _
    (AgentPrompting.subOccurs_append_right _ _
    (AgentPrompting.subOccurs_append_right _ _
    (AgentPrompting.subOccurs_append_right _ _
    (AgentPrompting.subOccurs_append_right _ _
    (AgentPrompting.subOccurs_append_right _ _
    (AgentPrompting.subOccurs_append_right _ _
    (AgentPrompting.subOccurs_here _ _)))))))))))))))))))))))))))

theorem c7_pos_4 :
    AgentPrompting.containsText
      (AgentPrompting.agent_system_prompt none false true false true true false AgentPrompting.cwdC AgentPrompting.dateC)
      (AgentPrompting.wolframalpha_block AgentPrompting.cwdC) = true := by
  simp only [AgentPrompting.containsText_eq_sdata, AgentPrompting.agent_system_prompt,
    AgentPrompting.code_writer_template, AgentPrompting.apis_no_internet,
    AgentPrompting.apis_have_internet, AgentPrompting.serp_block,
    AgentPrompting.papers_block, AgentPrompting.news_block,
    AgentPrompting.extra_packages_base, AgentPrompting.extra_packages_web,
    AgentPrompting.cwdC, AgentPrompting.dateC,
    Bool.false_and, Bool.true_and,
    AgentPrompting.if_bool_true, AgentPrompting.if_bool_false, if_true, if_false,
    AgentPrompting.sdata_append, AgentPrompting.sdata_empty,
    List.append_assoc, List.nil_append, List.append_nil]
  exact AgentPrompting.subOccurs_append_right _ _
    (AgentPrompting.subOccurs_append_right _ _
    (AgentPrompting.subOccurs_append_right _ _
    (AgentPrompting.subOccurs_append_right _ _
    (AgentPrompting.subOccurs_append_right _ _
    (AgentPrompting.subOccurs_append_right _ _
    (AgentPrompting.subOccurs_append_right _ _
    (AgentPrompting.subOccurs_append_right _ _
    (AgentPrompting.subOccurs_append_right _ _
    (AgentPrompting.subOccurs_append_right _ _
    (AgentPrompting.subOccurs_append_right _ _
    (AgentPrompting.subOccurs_append_right _ _
    (AgentPrompting.subOccurs_append_right _ _
    (AgentPrompting.subOccurs_append_right _ _
    (AgentPrompting.subOccurs_append_right _ _
    (AgentPrompting.subOccurs_append_right _ _
    (AgentPrompting.subOccurs_append_right _ _
    (AgentPrompting.subOccurs_append_right _ _
    (AgentPrompting.subOccurs_append_right _ _
    (AgentPrompting.subOccurs_append_right _ _
    (AgentPrompting.subOccurs_append_right _ _
    (AgentPrompting.subOccurs_append_right _ _
    (AgentPrompting.subOccurs_append_right _ _
    (AgentPrompting.subOccurs_append_right _ _
    (AgentPrompting.subOccurs_append_right _ _
    (AgentPrompting.subOccurs_append_right _ _
    (AgentPrompting.subOccurs_append_right _ _
    (AgentPrompting.subOccurs_append_right _ _
    (AgentPrompting.subOccurs_append_right _ _
    (AgentPrompting.subOccurs_append_right _ _
    (AgentPrompting.subOccurs_here _ _))))))))))))))))))))))))))))))

theorem c7_pos_5 :
    AgentPrompting.containsText
      (AgentPrompting.agent_system_prompt none true true false true true false AgentPrompting.cwdC AgentPrompting.dateC)
      (AgentPrompting.wolframalpha_block AgentPrompting.cwdC) = true := by
  simp only [AgentPrompting.containsText_eq_sdata, AgentPrompting.agent_system_prompt,
    AgentPrompting.code_writer_template, AgentPrompting.apis_no_internet,
    AgentPrompting.apis_have_internet, AgentPrompting.serp_block,
    AgentPrompting.papers_block, AgentPrompting.news_block,
    AgentPrompting.extra_packages_base, AgentPrompting.extra_packages_web,
    AgentPrompting.cwdC, AgentPrompting.dateC,
    Bool.false_and, Bool.true_and,
    AgentPrompting.if_bool_true, AgentPrompting.if_bool_false, if_true, if_false,
    AgentPrompting.sdata_append, AgentPrompting.sdata_empty,
    List.append_assoc, List.nil_append, List.append_nil]
  exact AgentPrompting.subOccurs_append_right _ _
    (AgentPrompting.subOccurs_append_right _ _
    (AgentPrompting.subOccurs_append_right _ _
    (AgentPrompting.subOccurs_append_right _ _
    (AgentPrompting.subOccurs_append_right _ _
    (AgentPrompting.subOccurs_append_right _ _
    (AgentPrompting.subOccurs_append_right _ _
    (AgentPrompting.subOccurs_append_right _ _
    (AgentPrompting.subOccurs_append_right _ _
    (AgentPrompting.subOccurs_append_right _ _
    (AgentPrompting.subOccurs_append_right _ _
    (AgentPrompting.subOccurs_append_right _ _
    (AgentPrompting.subOccurs_append_right _ _
    (AgentPrompting.subOccurs_append_right _ _
    (AgentPrompting.subOccurs_append_right _ _
    (AgentPrompting.subOccurs_append_right _ _
    (AgentPrompting.subOccurs_append_right _ _
    (AgentPrompting.subOccurs_append_right _ _
    (AgentPrompting.subOccurs_append_right _ _
    (AgentPrompting.subOccurs_append_right _ _
    (AgentPrompting.subOccurs_append_right _ _
    (AgentPrompting.subOccurs_append_right _ _
    (AgentPrompting.subOccurs_append_right _ _
    (AgentPrompting.subOccurs_append_right _ _
    (AgentPrompting.subOccurs_append_right _ _
    (AgentPrompting.subOccurs_append_right _ _
    (AgentPrompting.subOccurs_append_right _ _
    (AgentPrompting.subOccurs_append_right _ _
    (AgentPrompting.subOccurs_append_right _ _
    (AgentPrompting.subOccurs_append_right _ _
    (AgentPrompting.subOccurs_append_right _ _
    (AgentPrompting.subOccurs_append_right _ _
    (AgentPrompting.subOccurs_here _ _))))))))))))))))))))))))))))))))

theorem c7_pos_6 :
    AgentPrompting.containsText
      (AgentPrompting.agent_system_prompt none false true true true true false AgentPrompting.cwdC AgentPrompting.dateC)
      (AgentPrompting.wolframalpha_block AgentPrompting.cwdC) = true := by
  simp only [AgentPrompting.containsText_eq_sdata, AgentPrompting.agent_system_prompt,
    AgentPrompting.code_writer_template, AgentPrompting.apis_no_internet,
    AgentPrompting.apis_have_internet, AgentPrompting.serp_block,
    AgentPrompting.papers_block, AgentPrompting.news_block,
    AgentPrompting.extra_packages_base, AgentPrompting.extra_packages_web,
    AgentPrompting.cwdC, AgentPrompting.dateC,
    Bool.false_and, Bool.true_and,
    AgentPrompting.if_bool_true, AgentPrompting.if_bool_false, if_true, if_false,
    AgentPrompting.sdata_append, AgentPrompting.sdata_empty,
    List.append_assoc, List.nil_append, List.append_nil]
  exact AgentPrompting.subOccurs_append_right _ _
    (AgentPrompting.subOccurs_append_right _ _
    (AgentPrompting.subOccurs_append_right _ _
    (AgentPrompting.subOccurs_append_right _ _
    (AgentPrompting.subOccurs_append_right _ _
    (AgentPrompting.subOccurs_append_right _ _
    (AgentPrompting.subOccurs_append_right _ _
    (AgentPrompting.subOccurs_append_right _ _
    (AgentPrompting.subOccurs_append_right _ _
    (AgentPrompting.subOccurs_append_right _ _
    (AgentPrompting.subOccurs_append_right _ _
    (AgentPrompting.subOccurs_append_right _ _
    (AgentPrompting.subOccurs_append_right _ _
    (AgentPrompting.subOccurs_append_right _ _
    (AgentPrompting.subOccurs_append_right _ _
    (AgentPrompting.subOccurs_append_right _ _
    (AgentPrompting.subOccurs_append_right _ _
    (AgentPrompting.subOccurs_append_right _ _
    (AgentPrompting.subOccurs_append_right _ _
    (AgentPrompting.subOccurs_append_right _ _
    (AgentPrompting.subOccurs_append_right _ _
    (AgentPrompting.subOccurs_append_right _ _
    (AgentPrompting.subOccurs_append_right _ _
    (AgentPrompting.subOccurs_append_right _ _
    (AgentPrompting.subOccurs_append_right _ _
    (AgentPrompting.subOccurs_append_right _ _
    (AgentPrompting.subOccurs_append_right _ _
    (AgentPrompting.subOccurs_append_right _ _
    (AgentPrompting.subOccurs_append_right _ _
    (AgentPrompting.subOccurs_append_right _ _
    (AgentPrompting.subOccurs_append_right _ _
    (AgentPrompting.subOccurs_here _ _)))))))))))))))))))))))))))))))

theorem c7_pos_7 :
    AgentPrompting.containsText
      (AgentPrompting.agent_system_prompt none true true true true true false AgentPrompting.cwdC AgentPrompting.dateC)
      (AgentPrompting.wolframalpha_block AgentPrompting.cwdC) = true := by
  simp only [AgentPrompting.containsText_eq_sdata, AgentPrompting.agent_system_prompt,
    AgentPrompting.code_writer_template, AgentPrompting.apis_no_internet,
    AgentPrompting.apis_have_internet, AgentPrompting.serp_block,
    AgentPrompting.papers_block, AgentPrompting.news_block,
    AgentPrompting.extra_packages_base, AgentPrompting.extra_packages_web,
    AgentPrompting.cwdC, AgentPrompting.dateC,
    Bool.false_and, Bool.true_and,
    AgentPrompting.if_bool_true, AgentPrompting.if_bool_false, if_true, if_false,
    AgentPrompting.sdata_append, AgentPrompting.sdata_empty,
    List.append_assoc, List.nil_append, List.append_nil]
  exact AgentPrompting.subOccurs_append_right _ _
    (AgentPrompting.subOccurs_append_right _ _
    (AgentPrompting.subOccurs_append_right _ _
    (AgentPrompting.subOccurs_append_right _ _
    (AgentPrompting.subOccurs_append_right _ _
    (AgentPrompting.subOccurs_append_right _ _
    (AgentPrompting.subOccurs_append_right _ _
    (AgentPrompting.subOccurs_append_right _ _
    (AgentPrompting.subOccurs_append_right _ _
    (AgentPrompting.subOccurs_append_right _ _
    (AgentPrompting.subOccurs_append_right _ _
    (AgentPrompting.subOccurs_append_right _ _
    (AgentPrompting.subOccurs_append_right _ _
    (AgentPrompting.subOccurs_append_right _ _
    (AgentPrompting.subOccurs_append_right _ _
    (AgentPrompting.subOccurs_append_right _ _
    (AgentPrompting.subOccurs_append_right _ _
    (AgentPrompting.subOccurs_append_right _ _
    (AgentPrompting.subOccurs_append_right _ _
    (AgentPrompting.subOccurs_append_right _ _
    (AgentPrompting.subOccurs_append_right _ _
    (AgentPrompting.subOccurs_append_right _ _
    (AgentPrompting.subOccurs_append_right _ _
    (AgentPrompting.subOccurs_append_right _ _
    (AgentPrompting.subOccurs_append_right _ _
    (AgentPrompting.subOccurs_append_right _ _
    (AgentPrompting.subOccurs_append_right _ _
    (AgentPrompting.subOccurs_append_right _ _
    (AgentPrompting.subOccurs_append_right _ _
    (AgentPrompting.subOccurs_append_right _ _
    (AgentPrompting.subOccurs_append_right _ _
    (AgentPrompting.subOccurs_append_right _ _
    (AgentPrompting.subOccurs_append_right _ _
    (AgentPrompting.subOccurs_here _ _)))))))))))))))))))))))))))))))))

theorem c7_pos_8 :
    AgentPrompting.containsText
      (AgentPrompting.agent_system_prompt none false true false false true true AgentPrompting.cwdC AgentPrompting.dateC)
      (AgentPrompting.wolframalpha_block AgentPrompting.cwdC) = true := by
  simp only [AgentPrompting.containsText_eq_sdata, AgentPrompting.agent_system_prompt,
    AgentPrompting.code_writer_template, AgentPrompting.apis_no_internet,
    AgentPrompting.apis_have_internet, AgentPrompting.serp_block,
    AgentPrompting.papers_block, AgentPrompting.news_block,
    AgentPrompting.extra_packages_base, AgentPrompting.extra_packages_web,
    AgentPrompting.cwdC, AgentPrompting.dateC,
    Bool.false_and, Bool.true_and,
    AgentPrompting.if_bool_true, AgentPrompting.if_bool_false, if_true, if_false,
    AgentPrompting.sdata_append, AgentPrompting.sdata_empty,
    List.append_assoc, List.nil_append, List.append_nil]
  exact AgentPrompting.subOccurs_append_right _ _
    (AgentPrompting.subOccurs_append_right _ _
    (AgentPrompting.subOccurs_append_right _ _
    (AgentPrompting.subOccurs_append_right _ _
    (AgentPrompting.subOccurs_append_right _ _
    (AgentPrompting.subOccurs_append_right _ _
    (AgentPrompting.subOccurs_append_right _ _
    (AgentPrompting.subOccurs_append_right _ _
    (AgentPrompting.subOccurs_append_right _ _
    (AgentPrompting.subOccurs_append_right _ _
    (AgentPrompting.subOccurs_append_right _ _
    (AgentPrompting.subOccurs_append_right _ _
    (AgentPrompting.subOccurs_append_right _ _
    (AgentPrompting.subOccurs_append_right _ _
    (AgentPrompting.subOccurs_append_right _ _
    (AgentPrompting.subOccurs_append_right _ _
    (AgentPrompting.subOccurs_append_right _ _
    (AgentPrompting.subOccurs_append_right _ _
    (AgentPrompting.subOccurs_append_right _ _
    (AgentPrompting.subOccurs_append_right _ _
    (AgentPrompting.subOccurs_append_right _ _
    (AgentPrompting.subOccurs_append_right _ _
    (AgentPrompting.subOccurs_append_right _ _
    (AgentPrompting.subOccurs_append_right _ _
    (AgentPrompting.subOccurs_here _ _))))))))))))))))))))))))

theorem c7_pos_9 :
    AgentPrompting.containsText
      (AgentPrompting.agent_system_prompt none true true false false true true AgentPrompting.cwdC AgentPrompting.dateC)
      (AgentPrompting.wolframalpha_block AgentPrompting.cwdC) = true := by
  simp only [AgentPrompting.containsText_eq_sdata, AgentPrompting.agent_system_prompt,
    AgentPrompting.code_writer_template, AgentPrompting.apis_no_internet,
    AgentPrompting.apis_have_internet, AgentPrompting.serp_block,
    AgentPrompting.papers_block, AgentPrompting.news_block,
    AgentPrompting.extra_packages_base, AgentPrompting.extra_packages_web,
    AgentPrompting.cwdC, AgentPrompting.dateC,
    Bool.false_and, Bool.true_and,
    AgentPrompting.if_bool_true, AgentPrompting.if_bool_false, if_true, if_false,
    AgentPrompting.sdata_append, AgentPrompting.sdata_empty,
    List.append_assoc, List.nil_append, List.append_nil]
  exact AgentPrompting.subOccurs_append_right _ _
    (AgentPrompting.subOccurs_append_right _ _
    (AgentPrompting.subOccurs_append_right _ _
    (AgentPrompting.subOccurs_append_right _ _
    (AgentPrompting.subOccurs_append_right _ _
    (AgentPrompting.subOccurs_append_right _ _
    (AgentPrompting.subOccurs_append_right _ _
    (AgentPrompting.subOccurs_append_right _ _
    (AgentPrompting.subOccurs_append_right _ _
    (AgentPrompting.subOccurs_append_right _ _
    (AgentPrompting.subOccurs_append_right _ _
    (AgentPrompting.subOccurs_append_right _ _
    (AgentPrompting.subOccurs_append_right _ _
    (AgentPrompting.subOccurs_append_right _ _
    (AgentPrompting.subOccurs_append_right _ _
    (AgentPrompting.subOccurs_append_right _ _
    (AgentPrompting.subOccurs_append_right _ _
    (AgentPrompting.subOccurs_append_right _ _
    (AgentPrompting.subOccurs_append_right _ _
    (AgentPrompting.subOccurs_append_right _ _
    (AgentPrompting.subOccurs_append_right _ _
    (AgentPrompting.subOccurs_append_right _ _
    (AgentPrompting.subOccurs_append_right _ _
    (AgentPrompting.subOccurs_append_right _ _
    (AgentPrompting.subOccurs_append_right _ _
    (AgentPrompting.subOccurs_append_right _ _
    (AgentPrompting.subOccurs_here _ _))))))))))))))))))))))))))

theorem c7_pos_10 :
    AgentPrompting.containsText
      (AgentPrompting.agent_system_prompt none false true true false true true AgentPrompting.cwdC AgentPrompting.dateC)
      (AgentPrompting.wolframalpha_block AgentPrompting.cwdC) = true := by
  simp only [AgentPrompting.containsText_eq_sdata, AgentPrompting.agent_system_prompt,
    AgentPrompting.code_writer_template, AgentPrompting.apis_no_internet,
    AgentPrompting.apis_have_internet, AgentPrompting.serp_block,
    AgentPrompting.papers_block, AgentPrompting.news_block,
    AgentPrompting.extra_packages_base, AgentPrompting.extra_packages_web,
    AgentPrompting.cwdC, AgentPrompting.dateC,
    Bool.false_and, Bool.true_and,
    AgentPrompting.if_bool_true, AgentPrompting.if_bool_false, if_true, if_false,
    AgentPrompting.sdata_append, AgentPrompting.sdata_empty,
    List.append_assoc, List.nil_append, List.append_nil]
  exact AgentPrompting.subOccurs_append_right _ _
    (AgentPrompting.subOccurs_append_right _ _
    (AgentPrompting.subOccurs_append_right _ _
    (AgentPrompting.subOccurs_append_right _ _
    (AgentPrompting.subOccurs_append_right _ _
    (AgentPrompting.subOccurs_append_right _ _
    (AgentPrompting.subOccurs_append_right _ _
    (AgentPrompting.subOccurs_append_right _ _
    (AgentPrompting.subOccurs_append_right _ _
    (AgentPrompting.subOccurs_append_right _ _
    (AgentPrompting.subOccurs_append_right _ _
    (AgentPrompting.subOccurs_append_right _ _
    (AgentPrompting.subOccurs_append_right _ _
    (AgentPrompting.subOccurs_append_right _ _
    (AgentPrompting.subOccurs_append_right _ _
    (AgentPrompting.subOccurs_append_right _ _
    (AgentPrompting.subOccurs_append_right _ _
    (AgentPrompting.subOccurs_append_right _ _
    (AgentPrompting.subOccurs_append_right _ _
    (AgentPrompting.subOccurs_append_right _ _
    (AgentPrompting.subOccurs_append_right _ _
    (AgentPrompting.subOccurs_append_right _ _
    (AgentPrompting.subOccurs_append_right _ _
    (AgentPrompting.subOccurs_append_right _ _
    (AgentPrompting.subOccurs_append_right _ _
    (AgentPrompting.subOccurs_here _ _)))))))))))))))))))))))))

theorem c7_pos_11 :
    AgentPrompting.containsText
      (AgentPrompting.agent_system_prompt none true true true false true true AgentPrompting.cwdC AgentPrompting.dateC)
      (AgentPrompting.wolframalpha_block AgentPrompting.cwdC) = true := by
  simp only [AgentPrompting.containsText_eq_sdata, AgentPrompting.agent_system_prompt,
    AgentPrompting.code_writer_template, AgentPrompting.apis_no_internet,
    AgentPrompting.apis_have_internet, AgentPrompting.serp_block,
    AgentPrompting.papers_block, AgentPrompting.news_block,
    AgentPrompting.extra_packages_base, AgentPrompting.extra_packages_web,
    AgentPrompting.cwdC, AgentPrompting.dateC,
    Bool.false_and, Bool.true_and,
    AgentPrompting.if_bool_true, AgentPrompting.if_bool_false, if_true, if_false,
    AgentPrompting.sdata_append, AgentPrompting.sdata_empty,
    List.append_assoc, List.nil_append, List.append_nil]
  exact AgentPrompting.subOccurs_append_right _ _
    (AgentPrompting.subOccurs_append_right _ _
    (AgentPrompting.subOccurs_append_right _ _
    (AgentPrompting.subOccurs_append_right _ _
    (AgentPrompting.subOccurs_append_right _ _
    (AgentPrompting.subOccurs_append_right _ _
    (AgentPrompting.subOccurs_append_right _ _
    (AgentPrompting.subOccurs_append_right _ _
    (AgentPrompting.subOccurs_append_right _ _
    (AgentPrompting.subOccurs_append_right _ _
    (AgentPrompting.subOccurs_append_right _ _
    (AgentPrompting.subOccurs_append_right _ _
    (AgentPrompting.subOccurs_append_right _ _
    (AgentPrompting.subOccurs_append_right _ _
    (AgentPrompting.subOccurs_append_right _ _
    (AgentPrompting.subOccurs_append_right _ _
    (AgentPrompting.subOccurs_append_right _ _
    (AgentPrompting.subOccurs_append_right _ _
    (AgentPrompting.subOccurs_append_right _ _
    (AgentPrompting.subOccurs_append_right _ _
    (AgentPrompting.subOccurs_append_right _ _
    (AgentPrompting.subOccurs_append_right _ _
    (AgentPrompting.subOccurs_append_right _ _
    (AgentPrompting.subOccurs_append_right _ _
    (AgentPrompting.subOccurs_append_right _ _
    (AgentPrompting.subOccurs_append_right _ _
    (AgentPrompting.subOccurs_append_right _ _
    (AgentPrompting.subOccurs_here _ _)))))))))))))))))))))))))))

theorem c7_pos_12 :
    AgentPrompting.containsText
      (AgentPrompting.agent_system_prompt none false true false true true true AgentPrompting.cwdC AgentPrompting.dateC)
      (AgentPrompting.wolframalpha_block AgentPrompting.cwdC) = true := by
  simp only [AgentPrompting.containsText_eq_sdata, AgentPrompting.agent_system_prompt,
    AgentPrompting.code_writer_template, AgentPrompting.apis_no_internet,
    AgentPrompting.apis_have_internet, AgentPrompting.serp_block,
    AgentPrompting.papers_block, AgentPrompting.news_block,
    AgentPrompting.extra_packages_base, AgentPrompting.extra_packages_web,
    AgentPrompting.cwdC, AgentPrompting.dateC,
    Bool.false_and, Bool.true_and,
    AgentPrompting.if_bool_true, AgentPrompting.if_bool_false, if_true, if_false,
    AgentPrompting.sdata_append, AgentPrompting.sdata_empty,
    List.append_assoc, List.nil_append, List.append_nil]
  exact AgentPrompting.subOccurs_append_right _ _
    (AgentPrompting.subOccurs_append_right _ _
    (AgentPrompting.subOccurs_append_right _ _
    (AgentPrompting.subOccurs_append_right _ _
    (AgentPrompting.subOccurs_append_right _ _
    (AgentPrompting.subOccurs_append_right _ _
    (AgentPrompting.subOccurs_append_right _ _
    (AgentPrompting.subOccurs_append_right _ _
    (AgentPrompting.subOccurs_append_right _ _
    (AgentPrompting.subOccurs_append_right _ _
    (AgentPrompting.subOccurs_append_right _ _
    (AgentPrompting.subOccurs_append_right _ _
    (AgentPrompting.subOccurs_append_right _ _
    (AgentPrompting.subOccurs_append_right _ _
    (AgentPrompting.subOccurs_append_right _ _
    (AgentPrompting.subOccurs_append_right _ _
    (AgentPrompting.subOccurs_append_right _ _
    (AgentPrompting.subOccurs_append_right _ _
    (AgentPrompting.subOccurs_append_right _ _
    (AgentPrompting.subOccurs_append_right _ _
    (AgentPrompting.subOccurs_append_right _ _
    (AgentPrompting.subOccurs_append_right _ _
    (AgentPrompting.subOccurs_append_right _ _
    (AgentPrompting.subOccurs_append_right _ _
    (AgentPrompting.subOccurs_append_right _ _
    (AgentPrompting.subOccurs_append_right _ _
    (AgentPrompting.subOccurs_append_right _ _
    (AgentPrompting.subOccurs_append_right _ _
    (AgentPrompting.subOccurs_append_right _ _
    (AgentPrompting.subOccurs_append_right _ _
    (AgentPrompting.subOccurs_here _ _))))))))))))))))))))))))))))))

theorem c7_pos_13 :
    AgentPrompting.containsText
      (AgentPrompting.agent_system_prompt none true true false true true true AgentPrompting.cwdC AgentPrompting.dateC)
      (AgentPrompting.wolframalpha_block AgentPrompting.cwdC) = true := by
  simp only [AgentPrompting.containsText_eq_sdata, AgentPrompting.agent_system_prompt,
    AgentPrompting.code_writer_template, AgentPrompting.apis_no_internet,
    AgentPrompting.apis_have_internet, AgentPrompting.serp_block,
    AgentPrompting.papers_block, AgentPrompting.news_block,
    AgentPrompting.extra_packages_base, AgentPrompting.extra_packages_web,
    AgentPrompting.cwdC, AgentPrompting.dateC,
    Bool.false_and, Bool.true_and,
    AgentPrompting.if_bool_true, AgentPrompting.if_bool_false, if_true, if_false,
    AgentPrompting.sdata_append, AgentPrompting.sdata_empty,
    List.append_assoc, List.nil_append, List.append_nil]
  exact AgentPrompting.subOccurs_append_right _ _
    (AgentPrompting.subOccurs_append_right _ _
    (AgentPrompting.subOccurs_append_right _ _
    (AgentPrompting.subOccurs_append_right _ _
    (AgentPrompting.subOccurs_append_right _ _
    (AgentPrompting.subOccurs_append_right _ _
    (AgentPrompting.subOccurs_append_right _ _
    (AgentPrompting.subOccurs_append_right _ _
    (AgentPrompting.subOccurs_append_right _ _
    (AgentPrompting.subOccurs_append_right _ _
    (AgentPrompting.subOccurs_append_right _ _
    (AgentPrompting.subOccurs_append_right _ _
    (AgentPrompting.subOccurs_append_right _ _
    (AgentPrompting.subOccurs_append_right _ _
    (AgentPrompting.subOccurs_append_right _ _
    (AgentPrompting.subOccurs_append_right _ _
    (AgentPrompting.subOccurs_append_right _ _
    (AgentPrompting.subOccurs_append_right _ _
    (AgentPrompting.subOccurs_append_right _ _
    (AgentPrompting.subOccurs_append_right _ _
    (AgentPrompting.subOccurs_append_right _ _
    (AgentPrompting.subOccurs_append_right _ _
    (AgentPrompting.subOccurs_append_right _ _
    (AgentPrompting.subOccurs_append_right _ _
    (AgentPrompting.subOccurs_append_right _ _
    (AgentPrompting.subOccurs_append_right _ _
    (AgentPrompting.subOccurs_append_right _ _
    (AgentPrompting.subOccurs_append_right _ _
    (AgentPrompting.subOccurs_append_right _ _
    (AgentPrompting.subOccurs_append_right _ _
    (AgentPrompting.subOccurs_append_right _ _
    (AgentPrompting.subOccurs_append_right _ _
    (AgentPrompting.subOccurs_here _ _))))))))))))))))))))))))))))))))

theorem c7_pos_14 :
    AgentPrompting.containsText
      (AgentPrompting.agent_system_prompt none false true true true true true AgentPrompting.cwdC AgentPrompting.dateC)
      (AgentPrompting.wolframalpha_block AgentPrompting.cwdC) = true := by
  simp only [AgentPrompting.containsText_eq_sdata, AgentPrompting.agent_system_prompt,
    AgentPrompting.code_writer_template, AgentPrompting.apis_no_internet,
    AgentPrompting.apis_have_internet, AgentPrompting.serp_block,
    AgentPrompting.papers_block, AgentPrompting.news_block,
    AgentPrompting.extra_packages_base, AgentPrompting.extra_packages_web,
    AgentPrompting.cwdC, AgentPrompting.dateC,
    Bool.false_and, Bool.true_and,
    AgentPrompting.if_bool_true, AgentPrompting.if_bool_false, if_true, if_false,
    AgentPrompting.sdata_append, AgentPrompting.sdata_empty,
    List.append_assoc, List.nil_append, List.append_nil]
  exact AgentPrompting.subOccurs_append_right _ _
    (AgentPrompting.subOccurs_append_right _ _
    (AgentPrompting.subOccurs_append_right _ _
    (AgentPrompting.subOccurs_append_right _ _
    (AgentPrompting.subOccurs_append_right _ _
    (AgentPrompting.subOccurs_append_right _ _
    (AgentPrompting.subOccurs_append_right _ _
    (AgentPrompting.subOccurs_append_right _ _
    (AgentPrompting.subOccurs_append_right _ _
    (AgentPrompting.subOccurs_append_right _ _
    (AgentPrompting.subOccurs_append_right _ _
    (AgentPrompting.subOccurs_append_right _ _
    (AgentPrompting.subOccurs_append_right _ _
    (AgentPrompting.subOccurs_append_right _ _
    (AgentPrompting.subOccurs_append_right _ _
    (AgentPrompting.subOccurs_append_right _ _
    (AgentPrompting.subOccurs_append_right _ _
    (AgentPrompting.subOccurs_append_right _ _
    (AgentPrompting.subOccurs_append_right _ _
    (AgentPrompting.subOccurs_append_right _ _
    (AgentPrompting.subOccurs_append_right _ _
    (AgentPrompting.subOccurs_append_right _ _
    (AgentPrompting.subOccurs_append_right _ _
    (AgentPrompting.subOccurs_append_right _ _
    (AgentPrompting.subOccurs_append_right _ _
    (AgentPrompting.subOccurs_append_right _ _
    (AgentPrompting.subOccurs_append_right _ _
    (AgentPrompting.subOccurs_append_right _ _
    (AgentPrompting.subOccurs_append_right _ _
    (AgentPrompting.subOccurs_append_right _ _
    (AgentPrompting.subOccurs_append_right _ _
    (AgentPrompting.subOccurs_here _ _)))))))))))))))))))))))))))))))

theorem c7_pos_15 :
    AgentPrompting.containsText
      (AgentPrompting.agent_system_prompt none true true true true true true AgentPrompting.cwdC AgentPrompting.dateC)
      (AgentPrompting.wolframalpha_block AgentPrompting.cwdC) = true := by
  simp only [AgentPrompting.containsText_eq_sdata, AgentPrompting.agent_system_prompt,
    AgentPrompting.code_writer_template, AgentPrompting.apis_no_internet,
    AgentPrompting.apis_have_internet, AgentPrompting.serp_block,
    AgentPrompting.papers_block, AgentPrompting.news_block,
    AgentPrompting.extra_packages_base, AgentPrompting.extra_packages_web,
    AgentPrompting.cwdC, AgentPrompting.dateC,
    Bool.false_and, Bool.true_and,
    AgentPrompting.if_bool_true, AgentPrompting.if_bool_false, if_true, if_false,
    AgentPrompting.sdata_append, AgentPrompting.sdata_empty,
    List.append_assoc, List.nil_append, List.append_nil]
  exact AgentPrompting.subOccurs_append_right _ _
    (AgentPrompting.subOccurs_append_right _ _
    (AgentPrompting.subOccurs_append_right _ _
    (AgentPrompting.subOccurs_append_right _ _
    (AgentPrompting.subOccurs_append_right _ _
    (AgentPrompting.subOccurs_append_right _ _
    (AgentPrompting.subOccurs_append_right _ _
    (AgentPrompting.subOccurs_append_right _ _
    (AgentPrompting.subOccurs_append_right _ _
    (AgentPrompting.subOccurs_append_right _ _
    (AgentPrompting.subOccurs_append_right _ _
    (AgentPrompting.subOccurs_append_right _ _
    (AgentPrompting.subOccurs_append_right _ _
    (AgentPrompting.subOccurs_append_right _ _
    (AgentPrompting.subOccurs_append_right _ _
    (AgentPrompting.subOccurs_append_right _ _
    (AgentPrompting.subOccurs_append_right _ _
    (AgentPrompting.subOccurs_append_right _ _
    (AgentPrompting.subOccurs_append_right _ _
    (AgentPrompting.subOccurs_append_right _ _
    (AgentPrompting.subOccurs_append_right _ _
    (AgentPrompting.subOccurs_append_right _ _
    (AgentPrompting.subOccurs_append_right _ _
    (AgentPrompting.subOccurs_append_right _ _
    (AgentPrompting.subOccurs_append_right _ _
    (AgentPrompting.subOccurs_append_right _ _
    (AgentPrompting.subOccurs_append_right _ _
    (AgentPrompting.subOccurs_append_right _ _
    (AgentPrompting.subOccurs_append_right _ _
    (AgentPrompting.subOccurs_append_right _ _
    (AgentPrompting.subOccurs_append_right _ _
    (AgentPrompting.subOccurs_append_right _ _
    (AgentPrompting.subOccurs_append_right _ _
    (AgentPrompting.subOccurs_here _ _)))))))))))))))))))))))))))))))))

theorem c7_absent_nointernet (site serp s2 wolfram news : Bool) :
    AgentPrompting.containsText
      (AgentPrompting.agent_system_prompt none site false serp s2 wolfram news AgentPrompting.cwdC AgentPrompting.dateC)
      (AgentPrompting.wolframalpha_block AgentPrompting.cwdC) = false := by
  cases site with
  | false => exact c7_absNF_false serp s2 wolfram news
  | true => exact c7_absNF_true serp s2 wolfram news

theorem c7_absent_nowolfram (site serp s2 news : Bool) :
    AgentPrompting.containsText
      (AgentPrompting.agent_system_prompt none site true serp s2 false news AgentPrompting.cwdC AgentPrompting.dateC)
      (AgentPrompting.wolframalpha_block AgentPrompting.cwdC) = false := by
  cases site <;> cases serp <;> cases s2 <;> cases news
  · exact c7_absNW_0
  · exact c7_absNW_8
  · exact c7_absNW_4
  · exact c7_absNW_12
  · exact c7_absNW_2
  · exact c7_absNW_10
  · exact c7_absNW_6
  · exact c7_absNW_14
  · exact c7_absNW_1
  · exact c7_absNW_9
  · exact c7_absNW_5
  · exact c7_absNW_13
  · exact c7_absNW_3
  · exact c7_absNW_11
  · exact c7_absNW_7
  · exact c7_absNW_15

theorem c7_present (site serp s2 news : Bool) :
    AgentPrompting.containsText
      (AgentPrompting.agent_system_prompt none site true serp s2 true news AgentPrompting.cwdC AgentPrompting.dateC)
      (AgentPrompting.wolframalpha_block AgentPrompting.cwdC) = true := by
  cases site <;> cases serp <;> cases s2 <;> cases news
  · exact c7_pos_0
  · exact c7_pos_8
  · exact c7_pos_4
  · exact c7_pos_12
  · exact c7_pos_2
  · exact c7_pos_10
  · exact c7_pos_6
  · exact c7_pos_14
  · exact c7_pos_1
  · exact c7_pos_9
  · exact c7_pos_5
  · exact c7_pos_13
  · exact c7_pos_3
  · exact c7_pos_11
  · exact c7_pos_7
  · exact c7_pos_15

/-- C7: with no system-prompt override, the generated agent system prompt contains the
Wolfram Alpha API usage block exactly when internet access is enabled AND a Wolfram Alpha
API key is configured, for every combination of the other feature flags (instantiated at a
fixed working directory and date string). -/
theorem c7_symbolic_computation_gate
    (site internet serp s2 wolfram news : Bool) :
    AgentPrompting.containsText
      (AgentPrompting.agent_system_prompt none site internet serp s2 wolfram news AgentPrompting.cwdC AgentPrompting.dateC)
      (AgentPrompting.wolframalpha_block AgentPrompting.cwdC) = (internet && wolfram) := by
  cases internet with
  | false => exact c7_absent_nointernet site serp s2 wolfram news
  | true =>
    cases wolfram with
    | false => exact c7_absent_nowolfram site serp s2 news
    | true => exact c7_present site serp s2 news

end C7Proofs
